import Mathlib

/-!
# Stereoscopic compositing of SNES9x for 3DS: offset calculation and eye-surface lifecycle

A shallow embedding of `source/3dsstereo.cpp` (and of the mock in
`tests/test_stereo_math.cpp`).

Conventions of the embedding:

* C `float` values are exact rationals (`ℚ`): every finite float is a rational, and the
  arithmetic of the source (`-`, `*`, comparisons, negation) is taken without rounding.
  The literals `0.01f`, `17.0f`, `0.0f` are `1/100`, `17`, `0`. The one property that
  depends on rounding, the scaling of the offsets with the slider, is stated over the
  definitions of the section on binary32 rounding, where every operation is rounded.
* C `int` values that are only compared or used as indices are integers (`ℤ`).
* The file-level `static` variables and the global table `g_stereoLayerOffsets` are the
  fields of one record, `StereoState`, that every operation takes and returns.
* Pointers to GPU textures are `Option SGPUTexture` (`none` is `NULL`).
* Logging calls (`LOG_INFO`, `LOG_DEBUG`, `LOG_ERROR`) have no effect on the state and
  are left out.
-/

namespace SNES9x3DS

/-! ## Settings -/

/-- Modelled from the spec: the declaration of the global `settings3DS` (3dssettings.h) is
not among the sources; these are the fields the stereo module reads, with the types of
the mock structure of the test harness, which is declared to match 3dssettings.h. -/
structure S9xSettings3DS where
  LayerDepth : Fin 5 → ℚ
  StereoSliderValue : ℚ
  StereoDepthStrength : ℚ
  ScreenPlaneLayer : ℤ
  EnableStereo3D : Bool
  Disable3DSlider : Bool
  Mode7UseGradient : Bool
  Mode7DepthNear : ℚ
  Mode7DepthFar : ℚ

/-- The structure `MockSettings` of tests/test_stereo_math.cpp. -/
structure MockSettings where
  LayerDepth : Fin 5 → ℚ
  StereoSliderValue : ℚ
  StereoDepthStrength : ℚ
  ScreenPlaneLayer : ℤ
  EnableStereo3D : Bool

/-- The production settings that hold the same values as a mock configuration; the
fields the mock does not have are off or zero. -/
def MockSettings.toSettings (m : MockSettings) : S9xSettings3DS where
  LayerDepth := m.LayerDepth
  StereoSliderValue := m.StereoSliderValue
  StereoDepthStrength := m.StereoDepthStrength
  ScreenPlaneLayer := m.ScreenPlaneLayer
  EnableStereo3D := m.EnableStereo3D
  Disable3DSlider := false
  Mode7UseGradient := false
  Mode7DepthNear := 0
  Mode7DepthFar := 0

/-- The mock configuration that holds the same values as the production settings. -/
def S9xSettings3DS.toMock (c : S9xSettings3DS) : MockSettings where
  LayerDepth := c.LayerDepth
  StereoSliderValue := c.StereoSliderValue
  StereoDepthStrength := c.StereoDepthStrength
  ScreenPlaneLayer := c.ScreenPlaneLayer
  EnableStereo3D := c.EnableStereo3D

/-- The five layer depths of the test configuration: BG0, BG1, BG2, BG3, sprites. -/
def testLayerDepth : Fin 5 → ℚ
  | 0 => 12
  | 1 => 8
  | 2 => 4
  | 3 => 0
  | 4 => -15

/-- The configuration `testSettings` of the test harness. -/
def testSettings : MockSettings where
  LayerDepth := testLayerDepth
  StereoSliderValue := 1
  StereoDepthStrength := 1
  ScreenPlaneLayer := 3
  EnableStereo3D := true

/-! ## The offset table -/

/-- The table `float g_stereoLayerOffsets[2][5]`, indexed `[eye][layer]`. -/
abbrev OffsetTable := Fin 2 → Fin 5 → ℚ

/-- The assignment `t[eye][i] = v`. -/
def OffsetTable.set (t : OffsetTable) (eye : Fin 2) (i : Fin 5) (v : ℚ) : OffsetTable :=
  fun e j => if e = eye ∧ j = i then v else t e j

/-- The initial value of `g_stereoLayerOffsets` (3dsimpl_gpu.cpp): all zero. -/
def OffsetTable.init : OffsetTable := fun _ _ => 0

/-- The zeroing loops of the slider-off branch:
`for eye in 0..2, for i in 0..5: t[eye][i] = 0.0f`. -/
def zeroOffsets (t : OffsetTable) : OffsetTable :=
  (List.finRange 2).foldl
    (fun t eye => (List.finRange 5).foldl (fun t i => t.set eye i 0) t) t

/-- The value `planeDepth`: the depth of the screen-plane layer when the configured
index is a valid layer, `0.0f` otherwise. -/
def planeDepthOf (LayerDepth : Fin 5 → ℚ) (plane : ℤ) : ℚ :=
  if h : 0 ≤ plane ∧ plane < 5 then LayerDepth ⟨plane.toNat, by omega⟩ else 0

/-- The constant `maxPerEye` (17 pixels per eye). -/
def maxPerEye : ℚ := 17

/-- The two clamping statements applied to `offset`, in source order. -/
def clampOffset (offset : ℚ) : ℚ :=
  let offset := if offset > maxPerEye then maxPerEye else offset
  let offset := if offset < -maxPerEye then -maxPerEye else offset
  offset

/-- The clamped offset of layer `i` computed inside the loop body, before it is
assigned to the two eyes. The products are exact; `layerOffsetF32` rounds them to
binary32. -/
def layerOffset (LayerDepth : Fin 5 → ℚ) (planeDepth depthStrength sliderValue : ℚ)
    (i : Fin 5) : ℚ :=
  let depth := (LayerDepth i - planeDepth) * depthStrength
  let offset := depth * sliderValue
  clampOffset offset

/-! ## Video memory -/

/-- A GPU texture as seen by the stereo module. `id` stands for the address
returned by the allocator: it identifies the allocation. The pixel format argument of
the allocator is not recorded. -/
structure SGPUTexture where
  id : ℕ
  Width : ℕ
  Height : ℕ
  deriving DecidableEq, Repr

/-- Modelled from the spec: the allocator `gpu3dsCreateTextureInVRAM` and
`gpu3dsDestroyTextureFromVRAM` (3dsgpu.cpp) are not among the sources. Video memory is
the outcome of every allocation request (`allocOk k` says whether the request number `k`
succeeds), the number of requests made so far, the surfaces that are live, and the logs
of successful allocations and of destroy calls, oldest first. -/
structure VRAM where
  allocOk : ℕ → Bool
  allocCalls : ℕ
  live : List SGPUTexture
  allocLog : List SGPUTexture
  destroyLog : List SGPUTexture

/-- Modelled from the spec: `gpu3dsCreateTextureInVRAM(width, height, format)` returns a
fresh surface of the requested size, or `NULL` when video memory is exhausted. -/
def gpu3dsCreateTextureInVRAM (v : VRAM) (width height : ℕ) : Option SGPUTexture × VRAM :=
  if v.allocOk v.allocCalls then
    let tex : SGPUTexture := { id := v.allocCalls, Width := width, Height := height }
    (some tex, { v with allocCalls := v.allocCalls + 1,
                        live := v.live ++ [tex],
                        allocLog := v.allocLog ++ [tex] })
  else
    (none, { v with allocCalls := v.allocCalls + 1 })

/-- Modelled from the spec: `gpu3dsDestroyTextureFromVRAM(texture)` returns the surface
to video memory. -/
def gpu3dsDestroyTextureFromVRAM (v : VRAM) (tex : SGPUTexture) : VRAM :=
  { v with live := v.live.filter (fun t => t ≠ tex),
           destroyLog := v.destroyLog ++ [tex] }

/-! ## Module state -/

/-- The structure `SStereoConfig`. -/
structure SStereoConfig where
  enabled : Bool

/-- The file-level variables of 3dsstereo.cpp, the table `g_stereoLayerOffsets`, and
video memory. -/
structure StereoState where
  stereoConfig : SStereoConfig
  stereoInitialized : Bool
  currentSliderValue : ℚ
  frameCounter : ℤ
  lastLoggedSlider : ℚ
  lastLoggedFrame : ℤ
  stereoFrameCount : ℤ
  monoFrameCount : ℤ
  sliderZeroFrames : ℤ
  stereoLeftEyeTarget : Option SGPUTexture
  stereoRightEyeTarget : Option SGPUTexture
  stereoLeftEyeDepth : Option SGPUTexture
  stereoRightEyeDepth : Option SGPUTexture
  stereoDepthShared : Bool
  g_stereoLayerOffsets : OffsetTable
  vram : VRAM

/-- The values the variables are initialised with at program start, over a given
video memory. -/
def StereoState.initial (v : VRAM) : StereoState where
  stereoConfig := { enabled := false }
  stereoInitialized := false
  currentSliderValue := 0
  frameCounter := 0
  lastLoggedSlider := -1
  lastLoggedFrame := 0
  stereoFrameCount := 0
  monoFrameCount := 0
  sliderZeroFrames := 0
  stereoLeftEyeTarget := none
  stereoRightEyeTarget := none
  stereoLeftEyeDepth := none
  stereoRightEyeDepth := none
  stereoDepthShared := false
  g_stereoLayerOffsets := OffsetTable.init
  vram := v

/-! ## Layer offsets -/

/-- The function `stereo3dsUpdateLayerOffsetsFromSlider(sliderValue)`. -/
def stereo3dsUpdateLayerOffsetsFromSlider (settings3DS : S9xSettings3DS) (sliderValue : ℚ)
    (st : StereoState) : StereoState :=
  let st := { st with currentSliderValue := sliderValue }
  if sliderValue < 1 / 100 then
    { st with g_stereoLayerOffsets := zeroOffsets st.g_stereoLayerOffsets }
  else
    let plane := settings3DS.ScreenPlaneLayer
    let planeDepth := planeDepthOf settings3DS.LayerDepth plane
    let depthStrength := settings3DS.StereoDepthStrength
    let table := (List.finRange 5).foldl
      (fun t i =>
        let offset := layerOffset settings3DS.LayerDepth planeDepth depthStrength sliderValue i
        (t.set 0 i (-offset)).set 1 i offset)
      st.g_stereoLayerOffsets
    { st with g_stereoLayerOffsets := table }

/-- The mock `testUpdateLayerOffsetsFromSlider(sliderValue)` of the test harness, over
the harness's own table. -/
def testUpdateLayerOffsetsFromSlider (testSettings : MockSettings) (sliderValue : ℚ)
    (g_stereoLayerOffsets : OffsetTable) : OffsetTable :=
  if sliderValue < 1 / 100 then
    zeroOffsets g_stereoLayerOffsets
  else
    let plane := testSettings.ScreenPlaneLayer
    let planeDepth := planeDepthOf testSettings.LayerDepth plane
    let depthStrength := testSettings.StereoDepthStrength
    (List.finRange 5).foldl
      (fun t i =>
        let offset := layerOffset testSettings.LayerDepth planeDepth depthStrength sliderValue i
        (t.set 0 i offset).set 1 i (-offset))
      g_stereoLayerOffsets

/-! ## Eye surfaces -/

/-- The function `stereo3dsDestroyRenderTargets()`. -/
def stereo3dsDestroyRenderTargets (st : StereoState) : StereoState :=
  let st := match st.stereoLeftEyeTarget with
    | some tex => { st with vram := gpu3dsDestroyTextureFromVRAM st.vram tex,
                            stereoLeftEyeTarget := none }
    | none => st
  let st := match st.stereoRightEyeTarget with
    | some tex => { st with vram := gpu3dsDestroyTextureFromVRAM st.vram tex,
                            stereoRightEyeTarget := none }
    | none => st
  let st := match st.stereoLeftEyeDepth with
    | some tex => { st with vram := gpu3dsDestroyTextureFromVRAM st.vram tex,
                            stereoLeftEyeDepth := none }
    | none => st
  let st := match st.stereoRightEyeDepth with
    | some tex =>
      if !st.stereoDepthShared || st.stereoRightEyeDepth != st.stereoLeftEyeDepth then
        { st with vram := gpu3dsDestroyTextureFromVRAM st.vram tex,
                  stereoRightEyeDepth := none }
      else st
    | none => st
  { st with stereoDepthShared := false }

/-- The function `stereo3dsAreTargetsCreated()`. -/
def stereo3dsAreTargetsCreated (st : StereoState) : Bool :=
  st.stereoLeftEyeTarget != none &&
  st.stereoRightEyeTarget != none &&
  st.stereoLeftEyeDepth != none &&
  st.stereoRightEyeDepth != none

/-- The function `stereo3dsCreateRenderTargets()`. -/
def stereo3dsCreateRenderTargets (st : StereoState) : Bool × StereoState :=
  let st := stereo3dsDestroyRenderTargets st
  match gpu3dsCreateTextureInVRAM st.vram 256 256 with
  | (none, v) => (false, { st with vram := v, stereoLeftEyeTarget := none })
  | (some left, v) =>
    let st := { st with vram := v, stereoLeftEyeTarget := some left }
    match gpu3dsCreateTextureInVRAM st.vram 256 256 with
    | (none, v) =>
      (false, stereo3dsDestroyRenderTargets { st with vram := v, stereoRightEyeTarget := none })
    | (some right, v) =>
      let st := { st with vram := v, stereoRightEyeTarget := some right }
      match gpu3dsCreateTextureInVRAM st.vram 256 240 with
      | (none, v) =>
        (false, stereo3dsDestroyRenderTargets { st with vram := v, stereoLeftEyeDepth := none })
      | (some leftDepth, v) =>
        let st := { st with vram := v, stereoLeftEyeDepth := some leftDepth }
        match gpu3dsCreateTextureInVRAM st.vram 256 240 with
        | (none, v) =>
          (false, stereo3dsDestroyRenderTargets
            { st with vram := v, stereoRightEyeDepth := none })
        | (some rightDepth, v) =>
          (true, { st with vram := v, stereoRightEyeDepth := some rightDepth,
                           stereoDepthShared := false })

/-- The function `stereo3dsEnsureTargetsCreated()`. -/
def stereo3dsEnsureTargetsCreated (st : StereoState) : Bool × StereoState :=
  if stereo3dsAreTargetsCreated st then
    (true, st)
  else
    match stereo3dsCreateRenderTargets st with
    | (false, st) => (false, st)
    | (true, st) => (true, st)

/-- The surfaces allocated between the states `st` and `st1`, oldest first. -/
def allocatedSince (st st1 : StereoState) : List SGPUTexture :=
  st1.vram.allocLog.drop st.vram.allocLog.length

/-- The surfaces destroyed between the states `st` and `st1`, oldest first, one entry
per destroy call. -/
def destroyedSince (st st1 : StereoState) : List SGPUTexture :=
  st1.vram.destroyLog.drop st.vram.destroyLog.length

/-- Every surface the four handles of `st` point to was handed out by an earlier
allocation request. -/
def handlesAllocated (st : StereoState) : Prop :=
  ∀ tex : SGPUTexture,
    (st.stereoLeftEyeTarget = some tex ∨ st.stereoRightEyeTarget = some tex ∨
     st.stereoLeftEyeDepth = some tex ∨ st.stereoRightEyeDepth = some tex) →
    tex.id < st.vram.allocCalls

/-- The surfaces the four handles point to, in the order in which
`stereo3dsDestroyRenderTargets` visits the handles. -/
def heldSurfaces (st : StereoState) : List SGPUTexture :=
  st.stereoLeftEyeTarget.toList ++ st.stereoRightEyeTarget.toList ++
    st.stereoLeftEyeDepth.toList ++ st.stereoRightEyeDepth.toList

/-- The function `stereo3dsIsEnabled()`. -/
def stereo3dsIsEnabled (st : StereoState) : Bool :=
  st.stereoConfig.enabled && st.stereoInitialized

/-- The function `stereo3dsGetSliderValue()`. -/
def stereo3dsGetSliderValue (st : StereoState) : ℚ :=
  st.currentSliderValue

/-- The function `stereo3dsLogFrameUpdate(effectiveSlider, stereoActive)`. The literal
`0.05f` is `1/20`; the `int` counters do not overflow in the model. -/
def stereo3dsLogFrameUpdate (effectiveSlider : ℚ) (stereoActive : Bool)
    (st : StereoState) : StereoState :=
  let st := { st with frameCounter := st.frameCounter + 1 }
  let st :=
    if |effectiveSlider - st.lastLoggedSlider| > 1 / 20 ∨
        (stereoActive = true ∧ st.frameCounter - st.lastLoggedFrame ≥ 300) then
      { st with lastLoggedSlider := effectiveSlider, lastLoggedFrame := st.frameCounter }
    else st
  if stereoActive then
    { st with stereoFrameCount := st.stereoFrameCount + 1, sliderZeroFrames := 0 }
  else
    let st := { st with monoFrameCount := st.monoFrameCount + 1 }
    if stereo3dsAreTargetsCreated st then
      let st := { st with sliderZeroFrames := st.sliderZeroFrames + 1 }
      if st.sliderZeroFrames = 300 then stereo3dsDestroyRenderTargets st else st
    else st

/-! ## The GPU layer

The vertex structures and `SGPU3DSExtended` are those of 3dsimpl_gpu.h. `SVertexList`
(3dsgpu.h) is not among the sources: a vertex list is the sequence of the vertices
`List[0 .. Count - 1]` written since the list was last reset, and `Count` is its length;
the capacity of a list is not modelled. The functions of 3dsgpu.cpp and of the system
libraries that the sources call are recorded, in call order, as `GpuCall`s. -/

/-- The conversion of an `int` to `int16`, as the compound literals of the vertex
structures perform it (two's complement wrap). -/
def toInt16 (n : ℤ) : ℤ := (n + 32768) % 65536 - 32768

/-- The conversion `(int)f` of a `float` to `int`: truncation toward zero. -/
def truncToInt (f : ℚ) : ℤ := if 0 ≤ f then ⌊f⌋ else ⌈f⌉

/-- The structure `SVector3i` (three `int16`). -/
structure SVector3i where
  x : ℤ
  y : ℤ
  z : ℤ
  deriving DecidableEq, Repr

/-- The structure `SVector4i` (four `int16`). -/
structure SVector4i where
  x : ℤ
  y : ℤ
  z : ℤ
  w : ℤ
  deriving DecidableEq, Repr

/-- The structure `STexCoord2i` (two `int16`). -/
structure STexCoord2i where
  u : ℤ
  v : ℤ
  deriving DecidableEq, Repr

/-- The structure `STexCoord2f` (two `float`). -/
structure STexCoord2f where
  u : ℚ
  v : ℚ
  deriving DecidableEq, Repr

/-- The structure `STileVertex`. -/
structure STileVertex where
  Position : SVector3i
  TexCoord : STexCoord2i
  deriving DecidableEq, Repr

/-- The structure `SMode7LineVertex`. -/
structure SMode7LineVertex where
  Position : SVector4i
  TexCoord : STexCoord2f
  deriving DecidableEq, Repr

/-- The structure `SVertexColor`; `Color` is a `u32`. -/
structure SVertexColor where
  Position : SVector4i
  Color : ℕ
  deriving DecidableEq, Repr

/-- The compound literal `(SVector3i){x, y, z}` with `int` arguments. -/
def mkVector3i (x y z : ℤ) : SVector3i := ⟨toInt16 x, toInt16 y, toInt16 z⟩

/-- The compound literal `(SVector4i){x, y, z, w}` with `int` arguments. -/
def mkVector4i (x y z w : ℤ) : SVector4i := ⟨toInt16 x, toInt16 y, toInt16 z, toInt16 w⟩

/-- The compound literal `(STexCoord2i){u, v}` with `int` arguments. -/
def mkTexCoord2i (u v : ℤ) : STexCoord2i := ⟨toInt16 u, toInt16 v⟩

/-- A tile vertex with position `(SVector3i){x, y, data}` and texture coordinate
`(STexCoord2i){tx, ty}`. -/
def tileVertex (x y data tx ty : ℤ) : STileVertex :=
  { Position := mkVector3i x y data, TexCoord := mkTexCoord2i tx ty }

/-- A mode-7 line vertex with position `(SVector4i){x, y, 0, 1}` and texture coordinate
`(STexCoord2f){tx, ty}`. -/
def mode7LineVertex (x y : ℤ) (tx ty : ℚ) : SMode7LineVertex :=
  { Position := mkVector4i x y 0 1, TexCoord := ⟨tx, ty⟩ }

/-- The vertex lists of `SGPU3DSExtended` that the modelled functions write or draw
(`mode7TileVertexes` and the texture cache tables are not touched by them). -/
structure SGPU3DSExtended where
  quadVertexes : List STileVertex
  tileVertexes : List STileVertex
  mode7LineVertexes : List SMode7LineVertex
  rectangleVertexes : List SVertexColor
  stereoQuadVertexes : Fin 2 → List STileVertex
  stereoTileVertexes : Fin 2 → List STileVertex
  stereoMode7LineVertexes : Fin 2 → List SMode7LineVertex

/-- The vertex lists, as arguments of `gpu3dsDrawVertexList`. -/
inductive VertexListId where
  | quadVertexes
  | tileVertexes
  | mode7LineVertexes
  | rectangleVertexes
  | stereoQuadVertexes (eye : Fin 2)
  | stereoTileVertexes (eye : Fin 2)
  | stereoMode7LineVertexes (eye : Fin 2)
  deriving DecidableEq, Repr

/-- The primitive types passed to `gpu3dsDrawVertexList`. -/
inductive GPU_Primitive_t where
  | GPU_TRIANGLES
  | GPU_GEOMETRY_PRIM
  deriving DecidableEq, Repr

/-- Modelled from the spec: the calls to the GPU library (3dsgpu.cpp, libctru) that the
modelled functions make; their bodies are not among the sources. -/
inductive GpuCall where
  | set3D (enable : Bool)
  | setRenderTargetToTexture (color depth : Option SGPUTexture)
  | setRenderTargetToFrameBuffer
  | disableAlphaBlending
  | enableAlphaBlending
  | enableDepthTest
  | disableDepthTest
  | disableAlphaTest
  | disableStencilTest
  | setTextureEnvironmentReplaceColor
  | setTextureEnvironmentReplaceTexture0
  | setDepthTestAndWriteMask (always : Bool)
  | drawVertexList (list : VertexListId) (type : GPU_Primitive_t) (repeatLastDraw : Bool)
      (storeVertexListIndex storeIndex : ℤ)
  | useShader (shaderIndex : ℤ)
  | bindBorderTexture
  | bindTextureMainScreen
  | waitForPreviousFlush
  | displayTransfer (source : SGPUTexture) (rightFramebuffer : Bool)
  | transferToScreenBuffer
  | swapScreenBuffers
  | flush
  deriving DecidableEq, Repr

/-- A draw destination: a colour and a depth texture, or the frame buffer of the game
screen. -/
inductive RenderTarget where
  | texture (color depth : Option SGPUTexture)
  | frameBuffer
  deriving DecidableEq, Repr

/-- The GPU side of the program: `GPU3DS.isReal3DS`, the statics of 3dsimpl_gpu.cpp, the
screen textures of 3dsimpl.cpp that the render-target setters bind, the current draw
destination (colour and depth surface), the GPU calls made so far (oldest first), and
a flag raised when the table `g_stereoLayerOffsets` is read outside its bounds. -/
structure GpuState where
  isReal3DS : Bool
  g_stereoClearedThisFrame : Bool
  g_currentLayerIndex : ℤ
  GPU3DSExt : SGPU3DSExtended
  snesMainScreenTarget : Option SGPUTexture
  snesSubScreenTarget : Option SGPUTexture
  snesDepthForScreens : Option SGPUTexture
  renderTarget : RenderTarget
  calls : List GpuCall
  outOfBounds : Bool

/-- The whole modelled program state: the stereo module and the GPU side. -/
structure Machine where
  stereo : StereoState
  gpu : GpuState

/-- Records one call to the GPU library. -/
def GpuState.call (g : GpuState) (c : GpuCall) : GpuState :=
  { g with calls := g.calls ++ [c] }

/-- Modelled from the spec: `gpu3dsSetRenderTargetToTexture(color, depth)` makes the two
surfaces the current draw destination. -/
def gpu3dsSetRenderTargetToTexture (color depth : Option SGPUTexture) (g : GpuState) :
    GpuState :=
  { g.call (.setRenderTargetToTexture color depth) with
    renderTarget := .texture color depth }

/-- Modelled from the spec: `gpu3dsDrawVertexList(list, type, repeatLastDraw,
storeVertexListIndex, storeIndex)` issues the draw of a vertex list to the current draw
destination; its bookkeeping on the list is not modelled. -/
def gpu3dsDrawVertexList (list : VertexListId) (type : GPU_Primitive_t)
    (repeatLastDraw : Bool) (storeVertexListIndex storeIndex : ℤ) (g : GpuState) :
    GpuState :=
  g.call (.drawVertexList list type repeatLastDraw storeVertexListIndex storeIndex)

/-- The function `gpu3dsResetStereoClearFlag()`. -/
def gpu3dsResetStereoClearFlag (g : GpuState) : GpuState :=
  { g with g_stereoClearedThisFrame := false }

/-- The byte swap of a `u32` colour computed by `gpu3dsAddRectangleVertexes`. -/
def swappedColor (color : ℕ) : ℕ :=
  ((color &&& 0xff) <<< 24) ||| ((color &&& 0xff00) <<< 8) |||
    ((color &&& 0xff0000) >>> 8) ||| ((color &&& 0xff000000) >>> 24)

/-- A rectangle vertex with position `(SVector4i){x, y, depth, 1}`. -/
def vertexColor (x y depth : ℤ) (color : ℕ) : SVertexColor :=
  { Position := mkVector4i x y depth 1, Color := color }

/-- The function `gpu3dsAddRectangleVertexes(x0, y0, x1, y1, depth, color)`. -/
def gpu3dsAddRectangleVertexes (x0 y0 x1 y1 depth : ℤ) (color : ℕ) (g : GpuState) :
    GpuState :=
  let c := swappedColor color
  if g.isReal3DS then
    { g with GPU3DSExt := { g.GPU3DSExt with
        rectangleVertexes := g.GPU3DSExt.rectangleVertexes ++
          [vertexColor x0 y0 depth c, vertexColor x1 y1 depth c] } }
  else
    { g with GPU3DSExt := { g.GPU3DSExt with
        rectangleVertexes := g.GPU3DSExt.rectangleVertexes ++
          [vertexColor x0 y0 depth c, vertexColor x1 y0 depth c, vertexColor x0 y1 depth c,
           vertexColor x1 y1 depth c, vertexColor x1 y0 depth c, vertexColor x0 y1 depth c] } }

/-- The function `gpu3dsDrawRectangle(x0, y0, x1, y1, depth, color)`. -/
def gpu3dsDrawRectangle (x0 y0 x1 y1 depth : ℤ) (color : ℕ) (g : GpuState) : GpuState :=
  let g := gpu3dsAddRectangleVertexes x0 y0 x1 y1 depth color g
  gpu3dsDrawVertexList .rectangleVertexes .GPU_GEOMETRY_PRIM false (-1) (-1) g

/-- The function `gpu3dsClearColorAndDepth(width, height)`: with the depth test set to
always pass (`setDepthTestAndWriteMask true`), a rectangle over the whole surface is
drawn to the current draw destination. -/
def gpu3dsClearColorAndDepth (width height : ℤ) (g : GpuState) : GpuState :=
  let g := g.call .disableAlphaBlending
  let g := g.call .setTextureEnvironmentReplaceColor
  let g := g.call (.setDepthTestAndWriteMask true)
  let g := gpu3dsDrawRectangle 0 0 width height 0 0x000000ff g
  g.call (.setDepthTestAndWriteMask false)

/-- The function `gpu3dsSetRenderTargetToMainScreenTexture()`. -/
def gpu3dsSetRenderTargetToMainScreenTexture (g : GpuState) : GpuState :=
  gpu3dsSetRenderTargetToTexture g.snesMainScreenTarget g.snesDepthForScreens g

/-- The function `gpu3dsSetRenderTargetToSubScreenTexture()`. -/
def gpu3dsSetRenderTargetToSubScreenTexture (g : GpuState) : GpuState :=
  gpu3dsSetRenderTargetToTexture g.snesSubScreenTarget g.snesDepthForScreens g

/-- The enumeration `StereoEye`. -/
inductive StereoEye where
  | STEREO_EYE_LEFT
  | STEREO_EYE_RIGHT
  deriving DecidableEq, Repr

/-- The function `stereo3dsSetActiveRenderTarget(eye)`; it reads the handles of the
stereo module and acts on the GPU side only. The counter `switchLogCount`, which only
limits logging, is left out. -/
def stereo3dsSetActiveRenderTarget (eye : StereoEye) (st : StereoState) (g : GpuState) :
    Bool × GpuState :=
  match eye with
  | .STEREO_EYE_LEFT =>
    if st.stereoLeftEyeTarget != none && st.stereoLeftEyeDepth != none then
      (true, gpu3dsSetRenderTargetToTexture st.stereoLeftEyeTarget st.stereoLeftEyeDepth g)
    else (false, g)
  | .STEREO_EYE_RIGHT =>
    if st.stereoRightEyeTarget != none && st.stereoRightEyeDepth != none then
      (true, gpu3dsSetRenderTargetToTexture st.stereoRightEyeTarget st.stereoRightEyeDepth g)
    else (false, g)

/-- The function `stereo3dsSetEnabled(enabled)`; `gfxSet3D` is a GPU library call. -/
def stereo3dsSetEnabled (enabled : Bool) (m : Machine) : Machine :=
  { stereo := { m.stereo with stereoConfig := { enabled := enabled } },
    gpu := m.gpu.call (.set3D enabled) }

/-- The function `stereo3dsInitialize()`. -/
def stereo3dsInitialize (m : Machine) : Bool × Machine :=
  if m.stereo.stereoInitialized then
    (true, m)
  else
    (true,
      { stereo := { m.stereo with
          stereoConfig := { enabled := true },
          stereoInitialized := true,
          frameCounter := 0,
          lastLoggedSlider := -1,
          lastLoggedFrame := 0,
          stereoFrameCount := 0,
          monoFrameCount := 0,
          sliderZeroFrames := 0 },
        gpu := m.gpu.call (.set3D true) })

/-- The function `stereo3dsFinalize()`. -/
def stereo3dsFinalize (m : Machine) : Machine :=
  if !m.stereo.stereoInitialized then
    m
  else
    { m with stereo :=
        { stereo3dsDestroyRenderTargets m.stereo with stereoInitialized := false } }

/-- The function `stereo3dsTransferToScreenBuffers()`. After a successful
`stereo3dsEnsureTargetsCreated` the two colour handles are not null; the last branch
stands for the null dereference the source would perform otherwise. The logging
counters `dbgTransferCount` and `transferLogCounter` are left out. -/
def stereo3dsTransferToScreenBuffers (m : Machine) : Bool × Machine :=
  match stereo3dsEnsureTargetsCreated m.stereo with
  | (false, st) => (false, { m with stereo := st })
  | (true, st) =>
    match st.stereoLeftEyeTarget, st.stereoRightEyeTarget with
    | some left, some right =>
      let g := m.gpu.call .waitForPreviousFlush
      let g := g.call (.displayTransfer left false)
      let g := g.call .waitForPreviousFlush
      let g := g.call (.displayTransfer right true)
      let g := gpu3dsResetStereoClearFlag g
      (true, { stereo := st, gpu := g })
    | _, _ => (false, { m with stereo := st })

/-! ## Vertex emission -/

/-- The six vertices of a quad, in the order `vertices[0] .. vertices[5]` of
`gpu3dsAddQuadVertexes` and of the paths of `gpu3dsAddTileVertexes` without a geometry
shader. -/
def quadVertices (x0 y0 x1 y1 tx0 ty0 tx1 ty1 data : ℤ) : List STileVertex :=
  [tileVertex x0 y0 data tx0 ty0, tileVertex x1 y0 data tx1 ty0,
   tileVertex x0 y1 data tx0 ty1, tileVertex x1 y1 data tx1 ty1,
   tileVertex x0 y1 data tx0 ty1, tileVertex x1 y0 data tx1 ty0]

/-- The function `gpu3dsAddQuadVertexes(x0, y0, x1, y1, tx0, ty0, tx1, ty1, data)`. -/
def gpu3dsAddQuadVertexes (x0 y0 x1 y1 tx0 ty0 tx1 ty1 data : ℤ) (g : GpuState) :
    GpuState :=
  { g with GPU3DSExt := { g.GPU3DSExt with
      quadVertexes := g.GPU3DSExt.quadVertexes ++
        quadVertices x0 y0 x1 y1 tx0 ty0 tx1 ty1 data } }

/-- The read `g_stereoLayerOffsets[eye][layer]` with an `int` layer index: `none` when
the index is outside 0..4. -/
def layerOffsetAt (t : OffsetTable) (eye : Fin 2) (layer : ℤ) : Option ℚ :=
  if h : 0 ≤ layer ∧ layer < 5 then some (t eye ⟨layer.toNat, by omega⟩) else none

/-- One iteration of the per-eye loop of `gpu3dsAddTileVertexes`. The sums `x0 + offset`
and `x1 + offset` are taken in the integers. An out-of-bounds read of the table raises
`outOfBounds` and emits nothing. -/
def addTileVertexesEye (x0 y0 x1 y1 tx0 ty0 tx1 ty1 data : ℤ) (st : StereoState)
    (g : GpuState) (eye : Fin 2) : GpuState :=
  match layerOffsetAt st.g_stereoLayerOffsets eye g.g_currentLayerIndex with
  | none => { g with outOfBounds := true }
  | some f =>
    let offset := truncToInt f
    let ex0 := x0 + offset
    let ex1 := x1 + offset
    if g.isReal3DS then
      { g with GPU3DSExt := { g.GPU3DSExt with
          stereoTileVertexes := Function.update g.GPU3DSExt.stereoTileVertexes eye
            (g.GPU3DSExt.stereoTileVertexes eye ++
              [tileVertex ex0 y0 data tx0 ty0, tileVertex ex1 y1 data tx1 ty1]) } }
    else
      { g with GPU3DSExt := { g.GPU3DSExt with
          stereoQuadVertexes := Function.update g.GPU3DSExt.stereoQuadVertexes eye
            (g.GPU3DSExt.stereoQuadVertexes eye ++
              quadVertices ex0 y0 ex1 y1 tx0 ty0 tx1 ty1 data) } }

/-- The function `gpu3dsAddTileVertexes(x0, y0, x1, y1, tx0, ty0, tx1, ty1, data)`, as
built without `RELEASE` (with `RELEASE` it is the case `isReal3DS = true`). The counter
`vertexGenCounter` is written and never read, and is left out. -/
def gpu3dsAddTileVertexes (x0 y0 x1 y1 tx0 ty0 tx1 ty1 data : ℤ) (st : StereoState)
    (g : GpuState) : GpuState :=
  let stereoEnabled := stereo3dsIsEnabled st
  if stereoEnabled then
    (List.finRange 2).foldl
      (fun g eye => addTileVertexesEye x0 y0 x1 y1 tx0 ty0 tx1 ty1 data st g eye) g
  else
    if g.isReal3DS then
      { g with GPU3DSExt := { g.GPU3DSExt with
          tileVertexes := g.GPU3DSExt.tileVertexes ++
            [tileVertex x0 y0 data tx0 ty0, tileVertex x1 y1 data tx1 ty1] } }
    else
      { g with GPU3DSExt := { g.GPU3DSExt with
          quadVertexes := g.GPU3DSExt.quadVertexes ++
            quadVertices x0 y0 x1 y1 tx0 ty0 tx1 ty1 data } }

/-- Modelled from the spec: the constant `SCREEN_HEIGHT` (3dsgpu.h, not among the
sources), the height of the 3DS screens in pixels. -/
def SCREEN_HEIGHT : ℤ := 240

/-- The vertices of one mode-7 line: two with a geometry shader (the second with the
marker `-16384` as `y`), six without. -/
def mode7LineVertices (isReal3DS : Bool) (x0 y0 x1 y1 : ℤ) (tx0 ty0 tx1 ty1 : ℚ) :
    List SMode7LineVertex :=
  if isReal3DS then
    [mode7LineVertex x0 y0 tx0 ty0, mode7LineVertex x1 (-16384) tx1 ty1]
  else
    [mode7LineVertex x0 y0 tx0 ty0, mode7LineVertex x1 y0 tx1 ty1,
     mode7LineVertex x0 y1 tx0 ty0, mode7LineVertex x1 y0 tx1 ty1,
     mode7LineVertex x1 y1 tx1 ty1, mode7LineVertex x0 y1 tx0 ty0]

/-- The value `offsetBase` of `gpu3dsAddMode7LineVertexes` for the scanline `y0`. -/
def mode7OffsetBase (settings3DS : S9xSettings3DS) (st : StereoState) (y0 : ℤ) : ℚ :=
  let t : ℚ := (y0 : ℚ) / (SCREEN_HEIGHT : ℚ)
  let depthLine :=
    if settings3DS.Mode7UseGradient then
      settings3DS.Mode7DepthNear
        + (settings3DS.Mode7DepthFar - settings3DS.Mode7DepthNear) * (1 - t)
    else settings3DS.Mode7DepthNear
  let plane := settings3DS.ScreenPlaneLayer
  let planeDepth := planeDepthOf settings3DS.LayerDepth plane
  let slider := stereo3dsGetSliderValue st
  let strength := settings3DS.StereoDepthStrength
  let offsetBase := (depthLine - planeDepth) * strength * slider
  let offsetBase := if offsetBase > 17 then 17 else offsetBase
  let offsetBase := if offsetBase < -17 then -17 else offsetBase
  offsetBase

/-- The function `gpu3dsAddMode7LineVertexes(x0, y0, x1, y1, tx0, ty0, tx1, ty1)`, as
built without `RELEASE`. -/
def gpu3dsAddMode7LineVertexes (settings3DS : S9xSettings3DS) (x0 y0 x1 y1 : ℤ)
    (tx0 ty0 tx1 ty1 : ℚ) (st : StereoState) (g : GpuState) : GpuState :=
  if stereo3dsIsEnabled st then
    let offsetBase := mode7OffsetBase settings3DS st y0
    (List.finRange 2).foldl
      (fun g eye =>
        let eyeOffset := if eye = 0 then offsetBase else -offsetBase
        let offset := truncToInt eyeOffset
        let ex0 := x0 + offset
        let ex1 := x1 + offset
        { g with GPU3DSExt := { g.GPU3DSExt with
            stereoMode7LineVertexes :=
              Function.update g.GPU3DSExt.stereoMode7LineVertexes eye
                (g.GPU3DSExt.stereoMode7LineVertexes eye ++
                  mode7LineVertices g.isReal3DS ex0 y0 ex1 y1 tx0 ty0 tx1 ty1) } })
      g
  else
    { g with GPU3DSExt := { g.GPU3DSExt with
        mode7LineVertexes := g.GPU3DSExt.mode7LineVertexes ++
          mode7LineVertices g.isReal3DS x0 y0 x1 y1 tx0 ty0 tx1 ty1 } }

/-! ## Drawing -/

/-- The three draws of the mono lists (quads, tiles, rectangles) of
`gpu3dsDrawVertexes`. -/
def drawMonoLists (repeatLastDraw : Bool) (storeIndex : ℤ) (g : GpuState) : GpuState :=
  let g := gpu3dsDrawVertexList .quadVertexes .GPU_TRIANGLES repeatLastDraw 0 storeIndex g
  let g := gpu3dsDrawVertexList .tileVertexes .GPU_GEOMETRY_PRIM repeatLastDraw 1 storeIndex g
  gpu3dsDrawVertexList .rectangleVertexes .GPU_GEOMETRY_PRIM repeatLastDraw 2 storeIndex g

/-- The clear of one eye surface in `gpu3dsDrawVertexes`: when the eye's surfaces can
be bound, they are cleared. -/
def clearEye (eye : StereoEye) (st : StereoState) (g : GpuState) : GpuState :=
  match stereo3dsSetActiveRenderTarget eye st g with
  | (true, g) =>
    let g := g.call .disableAlphaBlending
    let g := g.call .setTextureEnvironmentReplaceColor
    gpu3dsClearColorAndDepth 256 256 g
  | (false, g) => g

/-- The per-eye loop of `gpu3dsDrawVertexes` over the eyes still to be drawn; a failed
bind leaves the loop (`break`). -/
def drawEyes (repeatLastDraw : Bool) (storeIndex : ℤ) (st : StereoState) :
    List (Fin 2) → GpuState → GpuState
  | [], g => g
  | eye :: rest, g =>
    match stereo3dsSetActiveRenderTarget
        (if eye = 0 then .STEREO_EYE_LEFT else .STEREO_EYE_RIGHT) st g with
    | (false, g) =>
      let g := gpu3dsSetRenderTargetToMainScreenTexture g
      if eye = 0 then drawMonoLists repeatLastDraw storeIndex g else g
    | (true, g) =>
      let g := g.call .enableAlphaBlending
      let g := g.call .enableDepthTest
      let g := gpu3dsDrawVertexList (.stereoQuadVertexes eye) .GPU_TRIANGLES
        repeatLastDraw 0 storeIndex g
      let g := gpu3dsDrawVertexList (.stereoTileVertexes eye) .GPU_GEOMETRY_PRIM
        repeatLastDraw 1 storeIndex g
      let g := gpu3dsDrawVertexList .rectangleVertexes .GPU_GEOMETRY_PRIM
        repeatLastDraw 2 storeIndex g
      drawEyes repeatLastDraw storeIndex st rest g

/-- The function `gpu3dsDrawVertexes(repeatLastDraw, storeIndex)`; it reads the stereo
module and acts on the GPU side only. The logging counters are left out. -/
def gpu3dsDrawVertexes (repeatLastDraw : Bool) (storeIndex : ℤ) (st : StereoState)
    (g : GpuState) : GpuState :=
  let stereoEnabled := stereo3dsIsEnabled st
  if !stereoEnabled then
    drawMonoLists repeatLastDraw storeIndex g
  else
    if !stereo3dsAreTargetsCreated st then
      drawMonoLists repeatLastDraw storeIndex g
    else
      let rightEyeActive : Bool := decide (stereo3dsGetSliderValue st ≥ 1 / 100)
      let g :=
        if !g.g_stereoClearedThisFrame then
          let g := clearEye .STEREO_EYE_LEFT st g
          let g := clearEye .STEREO_EYE_RIGHT st g
          { g with g_stereoClearedThisFrame := true }
        else g
      drawEyes repeatLastDraw storeIndex st (if rightEyeActive then [0, 1] else [0]) g

/-- The function `gpu3dsDrawMode7LineVertexes(repeatLastDraw, storeIndex)`. -/
def gpu3dsDrawMode7LineVertexes (repeatLastDraw : Bool) (storeIndex : ℤ)
    (st : StereoState) (g : GpuState) : GpuState :=
  let stereoEnabled := stereo3dsIsEnabled st
  let targetsReady := if stereoEnabled then stereo3dsAreTargetsCreated st else false
  let type : GPU_Primitive_t := if g.isReal3DS then .GPU_GEOMETRY_PRIM else .GPU_TRIANGLES
  if stereoEnabled && targetsReady then
    (List.finRange 2).foldl
      (fun g eye =>
        let g := (stereo3dsSetActiveRenderTarget
          (if eye = 0 then .STEREO_EYE_LEFT else .STEREO_EYE_RIGHT) st g).2
        gpu3dsDrawVertexList (.stereoMode7LineVertexes eye) type repeatLastDraw 3
          storeIndex g)
      g
  else
    gpu3dsDrawVertexList .mode7LineVertexes type repeatLastDraw 3 storeIndex g

/-! ## The frame loop -/

/-- Modelled from the spec: the emulator core (`S9xMainLoop`, `S9xMainLoopWithSA1`) is
not among the sources. These are the calls it makes to the GPU layer while it renders
a frame; `setCurrentLayer` is the assignment to `g_currentLayerIndex`. -/
inductive RenderOp where
  | setCurrentLayer (layer : ℤ)
  | addTileVertexes (x0 y0 x1 y1 tx0 ty0 tx1 ty1 data : ℤ)
  | addQuadVertexes (x0 y0 x1 y1 tx0 ty0 tx1 ty1 data : ℤ)
  | addMode7LineVertexes (x0 y0 x1 y1 : ℤ) (tx0 ty0 tx1 ty1 : ℚ)
  | drawVertexes (repeatLastDraw : Bool) (storeIndex : ℤ)
  | drawMode7LineVertexes (repeatLastDraw : Bool) (storeIndex : ℤ)

/-- The effect of one call of the emulator core on the GPU side. -/
def runRenderOp (settings3DS : S9xSettings3DS) (st : StereoState) (g : GpuState) :
    RenderOp → GpuState
  | .setCurrentLayer layer => { g with g_currentLayerIndex := layer }
  | .addTileVertexes x0 y0 x1 y1 tx0 ty0 tx1 ty1 data =>
    gpu3dsAddTileVertexes x0 y0 x1 y1 tx0 ty0 tx1 ty1 data st g
  | .addQuadVertexes x0 y0 x1 y1 tx0 ty0 tx1 ty1 data =>
    gpu3dsAddQuadVertexes x0 y0 x1 y1 tx0 ty0 tx1 ty1 data g
  | .addMode7LineVertexes x0 y0 x1 y1 tx0 ty0 tx1 ty1 =>
    gpu3dsAddMode7LineVertexes settings3DS x0 y0 x1 y1 tx0 ty0 tx1 ty1 st g
  | .drawVertexes repeatLastDraw storeIndex =>
    gpu3dsDrawVertexes repeatLastDraw storeIndex st g
  | .drawMode7LineVertexes repeatLastDraw storeIndex =>
    gpu3dsDrawMode7LineVertexes repeatLastDraw storeIndex st g

/-- Modelled from the spec: `S9xMainLoop()` as the sequence of its calls to the GPU
layer. -/
def S9xMainLoop (settings3DS : S9xSettings3DS) (ops : List RenderOp) (st : StereoState)
    (g : GpuState) : GpuState :=
  ops.foldl (runRenderOp settings3DS st) g

/-- The nine arguments of a call of `gpu3dsAddQuadVertexes`. -/
structure QuadArgs where
  x0 : ℤ
  y0 : ℤ
  x1 : ℤ
  y1 : ℤ
  tx0 : ℤ
  ty0 : ℤ
  tx1 : ℤ
  ty1 : ℤ
  data : ℤ

/-- What one call of `impl3dsRunOneFrame` reads from outside the modelled state: its two
arguments, the settings, the reading of `osGet3DSliderState()`, whether
`GPU3DS.emulatorState` is `EMUSTATE_EMULATE`, `Settings.Paused`, the calls of the
emulator core, `screenSettings.GameScreenWidth`, whether a border is drawn
(`settings3DS.GameBorder > 0 && borderTexture`), and the arguments of the two
compositing quads, which lines 712-743 compute from settings, PPU state and screen
constants that are not among the sources. -/
structure FrameInput where
  firstFrame : Bool
  skipDrawingFrame : Bool
  settings3DS : S9xSettings3DS
  sliderState : ℚ
  emulating : Bool
  paused : Bool
  mainLoop : List RenderOp
  GameScreenWidth : ℤ
  border : Bool
  borderQuad : QuadArgs
  screenQuad : QuadArgs

/-- The value `effective` of `impl3dsRunOneFrame` (`COMFORT_SCALE` is `1.0f`). -/
def effectiveDepth (inp : FrameInput) : ℚ :=
  let hwSlider : ℚ := if inp.settings3DS.Disable3DSlider then 0 else inp.sliderState
  let COMFORT_SCALE : ℚ := 1
  let userMax := inp.settings3DS.StereoSliderValue
  hwSlider * userMax * inp.settings3DS.StereoDepthStrength * COMFORT_SCALE

/-- The value `stereoActive` of `impl3dsRunOneFrame` as first computed (line 597). -/
def frameStereoActive (inp : FrameInput) : Bool :=
  inp.settings3DS.EnableStereo3D && decide (effectiveDepth inp ≥ 1 / 100)

/-- Lines 579-644 of `impl3dsRunOneFrame`, for a frame that is emulated: from the entry
to the lazy allocation of the eye surfaces. Returns the local `stereoActive` and the
state. -/
def frameSetup (inp : FrameInput) (m : Machine) : Bool × Machine :=
  let m := { m with gpu := m.gpu.call .enableAlphaBlending }
  let effective := effectiveDepth inp
  let stereoActive := frameStereoActive inp
  let m := stereo3dsSetEnabled stereoActive m
  let m := { m with stereo := stereo3dsLogFrameUpdate effective stereoActive m.stereo }
  if !inp.emulating then
    (stereoActive, m)
  else
    let m := { m with stereo :=
      stereo3dsUpdateLayerOffsetsFromSlider inp.settings3DS effective m.stereo }
    if stereoActive && stereo3dsIsEnabled m.stereo then
      match stereo3dsEnsureTargetsCreated m.stereo with
      | (true, st) => (stereoActive, { m with stereo := st })
      | (false, st) => (false, stereo3dsSetEnabled false { m with stereo := st })
    else
      (stereoActive, m)

/-- Lines 646-658 of `impl3dsRunOneFrame`: the clears of the main and sub screen and
the choice of the tile shader, up to the call of the emulator core. -/
def framePrepareTargets (g : GpuState) : GpuState :=
  let g := gpu3dsSetRenderTargetToMainScreenTexture g
  let g := gpu3dsClearColorAndDepth 256 240 g
  let g := gpu3dsSetRenderTargetToSubScreenTexture g
  let g := gpu3dsClearColorAndDepth 256 240 g
  let g := gpu3dsSetRenderTargetToMainScreenTexture g
  g.call (.useShader 1)

/-- Lines 683-745 of `impl3dsRunOneFrame`: the copy of the SNES screen to the frame
buffer, skipped when stereo is active. -/
def frameComposite (inp : FrameInput) (stereoActive : Bool) (st : StereoState)
    (g : GpuState) : GpuState :=
  let g := g.call .setRenderTargetToFrameBuffer
  let g := { g with renderTarget := .frameBuffer }
  let g :=
    if inp.firstFrame then
      let g := g.call .disableAlphaBlending
      let g := g.call .setTextureEnvironmentReplaceColor
      let g := gpu3dsDrawRectangle 0 0 inp.GameScreenWidth SCREEN_HEIGHT 0 0x000000ff g
      g.call .enableAlphaBlending
    else g
  let g := g.call (.useShader 0)
  let g := g.call .disableAlphaBlending
  let g := g.call .disableDepthTest
  let g := g.call .disableAlphaTest
  if !stereoActive then
    let g :=
      if inp.border then
        let g := g.call .bindBorderTexture
        let g := g.call .setTextureEnvironmentReplaceTexture0
        let g := g.call .disableStencilTest
        let q := inp.borderQuad
        let g := gpu3dsAddQuadVertexes q.x0 q.y0 q.x1 q.y1 q.tx0 q.ty0 q.tx1 q.ty1 q.data g
        gpu3dsDrawVertexes false (-1) st g
      else g
    let g := g.call .bindTextureMainScreen
    let g := g.call .setTextureEnvironmentReplaceTexture0
    let g := g.call .disableStencilTest
    let q := inp.screenQuad
    let g := gpu3dsAddQuadVertexes q.x0 q.y0 q.x1 q.y1 q.tx0 q.ty0 q.tx1 q.ty1 q.data g
    gpu3dsDrawVertexes false (-1) st g
  else g

/-- Lines 749-796 of `impl3dsRunOneFrame`: the transfer to the display, skipped in the
first frame. -/
def frameTransfer (inp : FrameInput) (stereoActive : Bool) (m : Machine) : Machine :=
  if !inp.firstFrame then
    let stereoTransferActive := stereoActive && stereo3dsIsEnabled m.stereo
    let m :=
      if stereoTransferActive then
        match stereo3dsTransferToScreenBuffers m with
        | (true, m) => m
        | (false, m) => { m with gpu := m.gpu.call .transferToScreenBuffer }
      else
        { m with gpu := m.gpu.call .transferToScreenBuffer }
    { m with gpu := m.gpu.call .swapScreenBuffers }
  else m

/-- The function `impl3dsRunOneFrame(firstFrame, skipDrawingFrame)`, as built without
`RELEASE` (with `RELEASE` the emulator core runs also when paused). The calls into the
emulator that do not reach the GPU layer (`Memory.ApplySpeedHackPatches`,
`IPPU.RenderThisFrame`), the timing calls and the logging statics are left out. -/
def impl3dsRunOneFrame (inp : FrameInput) (m : Machine) : Machine :=
  match frameSetup inp m with
  | (stereoActive, m) =>
    if !inp.emulating then
      m
    else
      let g := framePrepareTargets m.gpu
      let g := if !inp.paused then S9xMainLoop inp.settings3DS inp.mainLoop m.stereo g else g
      let g := frameComposite inp stereoActive m.stereo g
      let m := frameTransfer inp stereoActive { m with gpu := g }
      { m with gpu := m.gpu.call .flush }

/-- The vertex lists before anything is emitted. -/
def SGPU3DSExtended.empty : SGPU3DSExtended where
  quadVertexes := []
  tileVertexes := []
  mode7LineVertexes := []
  rectangleVertexes := []
  stereoQuadVertexes := fun _ => []
  stereoTileVertexes := fun _ => []
  stereoMode7LineVertexes := fun _ => []

/-- The GPU side at program start: the statics of 3dsimpl_gpu.cpp at their initial
values, no screen texture, nothing drawn. -/
def GpuState.initial (isReal3DS : Bool) : GpuState where
  isReal3DS := isReal3DS
  g_stereoClearedThisFrame := false
  g_currentLayerIndex := 0
  GPU3DSExt := SGPU3DSExtended.empty
  snesMainScreenTarget := none
  snesSubScreenTarget := none
  snesDepthForScreens := none
  renderTarget := .texture none none
  calls := []
  outOfBounds := false

/-- The program state at start, over a given video memory. -/
def Machine.initial (v : VRAM) (isReal3DS : Bool) : Machine where
  stereo := StereoState.initial v
  gpu := GpuState.initial isReal3DS

/-- The state after the stereo part of `impl3dsInitialize` (3dsimpl.cpp:320-327):
`stereo3dsInitialize()` followed by `stereo3dsSetEnabled(true)`. -/
def Machine.booted (v : VRAM) (isReal3DS : Bool) : Machine :=
  stereo3dsSetEnabled true (stereo3dsInitialize (Machine.initial v isReal3DS)).2

/-- The states the public operations of the stereo module reach from the start of the
program, under any allocator behaviour and any activity on the GPU side. -/
inductive Reachable : Machine → Prop where
  | start (v : VRAM) (g : GpuState) : Reachable { stereo := StereoState.initial v, gpu := g }
  | gpuSide (m : Machine) (g : GpuState) : Reachable m → Reachable { m with gpu := g }
  | initStep (m : Machine) : Reachable m → Reachable (stereo3dsInitialize m).2
  | finalStep (m : Machine) : Reachable m → Reachable (stereo3dsFinalize m)
  | enableStep (enabled : Bool) (m : Machine) :
      Reachable m → Reachable (stereo3dsSetEnabled enabled m)
  | createStep (m : Machine) :
      Reachable m → Reachable { m with stereo := (stereo3dsCreateRenderTargets m.stereo).2 }
  | destroyStep (m : Machine) :
      Reachable m → Reachable { m with stereo := stereo3dsDestroyRenderTargets m.stereo }
  | ensureStep (m : Machine) :
      Reachable m → Reachable { m with stereo := (stereo3dsEnsureTargetsCreated m.stereo).2 }
  | offsetsStep (settings3DS : S9xSettings3DS) (sliderValue : ℚ) (m : Machine) :
      Reachable m → Reachable
        ⟨stereo3dsUpdateLayerOffsetsFromSlider settings3DS sliderValue m.stereo, m.gpu⟩
  | logStep (effectiveSlider : ℚ) (stereoActive : Bool) (m : Machine) :
      Reachable m → Reachable
        ⟨stereo3dsLogFrameUpdate effectiveSlider stereoActive m.stereo, m.gpu⟩
  | transferStep (m : Machine) :
      Reachable m → Reachable (stereo3dsTransferToScreenBuffers m).2

/-- The invariant of the four handles: they are all null or all non-null, they point to
pairwise distinct surfaces, and every surface they point to was handed out by an
earlier allocation request. -/
def TargetsInv (st : StereoState) : Prop :=
  ((st.stereoLeftEyeTarget = none ∧ st.stereoRightEyeTarget = none ∧
      st.stereoLeftEyeDepth = none ∧ st.stereoRightEyeDepth = none) ∨
   (st.stereoLeftEyeTarget ≠ none ∧ st.stereoRightEyeTarget ≠ none ∧
      st.stereoLeftEyeDepth ≠ none ∧ st.stereoRightEyeDepth ≠ none)) ∧
  (heldSurfaces st).Nodup ∧ handlesAllocated st

/-- Consecutive calls of `stereo3dsLogFrameUpdate` with `stereoActive = false`, one per
slider value of the list, with no other operation in between. -/
def idleFrames (sliders : List ℚ) (st : StereoState) : StereoState :=
  sliders.foldl (fun st e => stereo3dsLogFrameUpdate e false st) st

/-! ## Observations on the GPU calls -/

/-- The GPU calls made between the states `g` and `g1`, oldest first. -/
def callsSince (g g1 : GpuState) : List GpuCall :=
  g1.calls.drop g.calls.length

/-- The draw destinations on which `gpu3dsClearColorAndDepth` was called, in a sequence
of GPU calls that starts with the draw destination `rt`. Each call of that function,
and nothing else in the modelled code, makes one call `setDepthTestAndWriteMask true`
(depth test `GPU_ALWAYS`), on the destination bound at that time. -/
def clearedTargets : RenderTarget → List GpuCall → List RenderTarget
  | _, [] => []
  | _, .setRenderTargetToTexture color depth :: rest =>
    clearedTargets (.texture color depth) rest
  | _, .setRenderTargetToFrameBuffer :: rest => clearedTargets .frameBuffer rest
  | rt, .setDepthTestAndWriteMask true :: rest => rt :: clearedTargets rt rest
  | rt, _ :: rest => clearedTargets rt rest

/-- Whether a GPU call draws one of the per-eye vertex lists. -/
def isPerEyeDraw : GpuCall → Bool
  | .drawVertexList (.stereoQuadVertexes _) _ _ _ _ => true
  | .drawVertexList (.stereoTileVertexes _) _ _ _ _ => true
  | .drawVertexList (.stereoMode7LineVertexes _) _ _ _ _ => true
  | _ => false

/-- Consecutive calls of `gpu3dsDrawVertexes`, one per pair of arguments
`(repeatLastDraw, storeIndex)`, with no other operation in between. -/
def drawVertexesCalls (args : List (Bool × ℤ)) (st : StereoState) (g : GpuState) :
    GpuState :=
  args.foldl (fun g a => gpu3dsDrawVertexes a.1 a.2 st g) g

/-- The GPU calls of one pass of the per-eye loop of `gpu3dsDrawVertexes` when the bind
succeeds. -/
def eyeDrawCalls (repeatLastDraw : Bool) (storeIndex : ℤ) (st : StereoState)
    (eye : Fin 2) : List GpuCall :=
  [if eye = 0 then .setRenderTargetToTexture st.stereoLeftEyeTarget st.stereoLeftEyeDepth
    else .setRenderTargetToTexture st.stereoRightEyeTarget st.stereoRightEyeDepth,
   .enableAlphaBlending, .enableDepthTest,
   .drawVertexList (.stereoQuadVertexes eye) .GPU_TRIANGLES repeatLastDraw 0 storeIndex,
   .drawVertexList (.stereoTileVertexes eye) .GPU_GEOMETRY_PRIM repeatLastDraw 1 storeIndex,
   .drawVertexList .rectangleVertexes .GPU_GEOMETRY_PRIM repeatLastDraw 2 storeIndex]

/-- The GPU calls of the draws of `gpu3dsDrawVertexes` with the targets present: the
left eye, then the right eye when the stored slider value is at least 0.01. -/
def stereoDrawCalls (repeatLastDraw : Bool) (storeIndex : ℤ) (st : StereoState) :
    List GpuCall :=
  eyeDrawCalls repeatLastDraw storeIndex st 0 ++
    (if stereo3dsGetSliderValue st ≥ 1 / 100 then
      eyeDrawCalls repeatLastDraw storeIndex st 1 else [])

/-- The GPU calls of the clear of one eye surface in `gpu3dsDrawVertexes`: the bind of
the surfaces and the calls of `gpu3dsClearColorAndDepth`. -/
def eyeClearCalls (color depth : Option SGPUTexture) : List GpuCall :=
  [.setRenderTargetToTexture color depth, .disableAlphaBlending,
   .setTextureEnvironmentReplaceColor, .disableAlphaBlending,
   .setTextureEnvironmentReplaceColor, .setDepthTestAndWriteMask true,
   .drawVertexList .rectangleVertexes .GPU_GEOMETRY_PRIM false (-1) (-1),
   .setDepthTestAndWriteMask false]

/-- The value `offset` of the per-eye loop of `gpu3dsAddTileVertexes` for the eye `e`
when `g_currentLayerIndex` is the layer `L`: the table entry converted to `int`. -/
def eyeShift (st : StereoState) (e : Fin 2) (L : Fin 5) : ℤ :=
  truncToInt (st.g_stereoLayerOffsets e L)

/-- The state of `frameSetup` after the calls of `stereo3dsSetEnabled` and
`stereo3dsLogFrameUpdate` (lines 579-612 of `impl3dsRunOneFrame`). -/
def frameLogged (inp : FrameInput) (m : Machine) : Machine :=
  let m := { m with gpu := m.gpu.call .enableAlphaBlending }
  let m := stereo3dsSetEnabled (frameStereoActive inp) m
  { m with stereo :=
      stereo3dsLogFrameUpdate (effectiveDepth inp) (frameStereoActive inp) m.stereo }

/-- The state of `frameSetup` of an emulated frame after the call of
`stereo3dsUpdateLayerOffsetsFromSlider` (line 620). -/
def frameOffsets (inp : FrameInput) (m : Machine) : Machine :=
  let m := frameLogged inp m
  { m with stereo :=
      stereo3dsUpdateLayerOffsetsFromSlider inp.settings3DS (effectiveDepth inp) m.stereo }

/-- The state of an emulated frame in which the emulator core is called: after
`frameSetup` and `framePrepareTargets`. A core that starts with a call of
`gpu3dsDrawVertexes` makes the first draw of the frame in this state. -/
def frameAtMainLoop (inp : FrameInput) (m : Machine) : Machine :=
  { (frameSetup inp m).2 with gpu := framePrepareTargets (frameSetup inp m).2.gpu }

/-- The value `depthLine` of `gpu3dsAddMode7LineVertexes` for the scanline `y0`: the
depth interpolated between `Mode7DepthNear` and `Mode7DepthFar`, or `Mode7DepthNear`
without the gradient. -/
def mode7DepthLine (settings3DS : S9xSettings3DS) (y0 : ℤ) : ℚ :=
  if settings3DS.Mode7UseGradient then
    settings3DS.Mode7DepthNear
      + (settings3DS.Mode7DepthFar - settings3DS.Mode7DepthNear)
        * (1 - (y0 : ℚ) / (SCREEN_HEIGHT : ℚ))
  else settings3DS.Mode7DepthNear

/-- The value `offset` of the per-eye loop of `gpu3dsAddMode7LineVertexes` for the eye
`e` on the scanline `y0`: `offsetBase` for eye 0 and `-offsetBase` for eye 1, converted
to `int`. -/
def mode7EyeShift (settings3DS : S9xSettings3DS) (st : StereoState) (y0 : ℤ)
    (e : Fin 2) : ℤ :=
  truncToInt (if e = 0 then mode7OffsetBase settings3DS st y0
    else -mode7OffsetBase settings3DS st y0)

/-- Whether a GPU call is a display copy `GX_DisplayTransfer`, which only
`stereo3dsTransferToScreenBuffers` issues. -/
def isDisplayTransfer : GpuCall → Bool
  | .displayTransfer _ _ => true
  | _ => false

/-- The display copies issued so far, oldest first. -/
def displayTransfers (g : GpuState) : List GpuCall :=
  g.calls.filter isDisplayTransfer

/-! ## Binary32 rounding

The other sections compute in exact rationals. The scaling of the offsets with the
slider depends on the rounding of the products, so the loop body of
`stereo3dsUpdateLayerOffsetsFromSlider` is given here once more, with every `float`
operation rounded to binary32. -/

/-- Rounding of a rational to the nearest integer, a tie going to the even one. -/
def roundHalfEven (x : ℚ) : ℤ :=
  if x - ⌊x⌋ < 1 / 2 then ⌊x⌋
  else if 1 / 2 < x - ⌊x⌋ then ⌊x⌋ + 1
  else if ⌊x⌋ % 2 = 0 then ⌊x⌋ else ⌊x⌋ + 1

/-- The exponent of the spacing of the binary32 numbers at the magnitude of `q`: 24
significant bits, and the spacing `2^-149` of the subnormal numbers below the smallest
normal number `2^-126`. -/
def f32Ulp (q : ℚ) : ℤ :=
  max (Int.log 2 |q|) (-126) - 23

/-- The result of a binary32 (`float`) operation whose exact result is `q`: the nearest
multiple of the spacing at `q`, ties to even. Results that the hardware turns into an
infinity (magnitude `2^128` and above) and NaN are not modelled. -/
def f32Round (q : ℚ) : ℚ :=
  (roundHalfEven (q / 2 ^ f32Ulp q) : ℚ) * 2 ^ f32Ulp q

/-- The value `depth` of the loop body of `stereo3dsUpdateLayerOffsetsFromSlider` for
layer `i`, the subtraction and the product each rounded to binary32. -/
def layerDepthF32 (LayerDepth : Fin 5 → ℚ) (planeDepth depthStrength : ℚ) (i : Fin 5) : ℚ :=
  f32Round (f32Round (LayerDepth i - planeDepth) * depthStrength)

/-- The clamped offset of layer `i` computed inside the loop body in binary32:
`depth * sliderValue` rounded, then the two clamping statements (comparisons are
exact). -/
def layerOffsetF32 (LayerDepth : Fin 5 → ℚ) (planeDepth depthStrength sliderValue : ℚ)
    (i : Fin 5) : ℚ :=
  let depth := layerDepthF32 LayerDepth planeDepth depthStrength i
  let offset := f32Round (depth * sliderValue)
  clampOffset offset

/-- The function `stereo3dsUpdateLayerOffsetsFromSlider(sliderValue)` in binary32
arithmetic: the literal `0.01f` is the binary32 number nearest to 1/100, the operations
of the loop body are rounded, the negation for the left eye is exact. -/
def stereo3dsUpdateLayerOffsetsFromSliderF32 (settings3DS : S9xSettings3DS)
    (sliderValue : ℚ) (st : StereoState) : StereoState :=
  let st := { st with currentSliderValue := sliderValue }
  if sliderValue < f32Round (1 / 100) then
    { st with g_stereoLayerOffsets := zeroOffsets st.g_stereoLayerOffsets }
  else
    let plane := settings3DS.ScreenPlaneLayer
    let planeDepth := planeDepthOf settings3DS.LayerDepth plane
    let depthStrength := settings3DS.StereoDepthStrength
    let table := (List.finRange 5).foldl
      (fun t i =>
        let offset := layerOffsetF32 settings3DS.LayerDepth planeDepth depthStrength
          sliderValue i
        (t.set 0 i (-offset)).set 1 i offset)
      st.g_stereoLayerOffsets
    { st with g_stereoLayerOffsets := table }

/-! ## Concrete inputs -/

/-- A video memory with nothing allocated in which every request succeeds. -/
def vramAllOk : VRAM where
  allocOk := fun _ => true
  allocCalls := 0
  live := []
  allocLog := []
  destroyLog := []

/-- A state whose table holds 7 in every entry. -/
def stateAllSeven : StereoState :=
  { StereoState.initial vramAllOk with g_stereoLayerOffsets := fun _ _ => 7 }

/-- A video memory with nothing allocated in which every request succeeds except
request number 6. -/
def vramFailsAtSix : VRAM where
  allocOk := fun k => k != 6
  allocCalls := 0
  live := []
  allocLog := []
  destroyLog := []

/-- The state with the four eye surfaces present that one successful
`stereo3dsCreateRenderTargets` reaches from the initial state over `vramFailsAtSix`. -/
def statePresent : StereoState :=
  (stereo3dsCreateRenderTargets (StereoState.initial vramFailsAtSix)).2

/-- The state with the four eye surfaces present, with a GPU side on which nothing
has happened. -/
def machinePresent : Machine where
  stereo := statePresent
  gpu := GpuState.initial true

/-- The state after a successful `stereo3dsEnsureTargetsCreated` from the initial state
over `vramAllOk`. -/
def stateEnsured : StereoState :=
  (stereo3dsEnsureTargetsCreated (StereoState.initial vramAllOk)).2

/-- The state reached from `stateEnsured` by one idle frame followed by a second call of
`stereo3dsEnsureTargetsCreated`. -/
def stateEnsuredAgain : StereoState :=
  (stereo3dsEnsureTargetsCreated (stereo3dsLogFrameUpdate 0 false stateEnsured)).2

/-- The state `statePresent` with stereo initialised and enabled and the slider at one
half. -/
def stateStereoOn : StereoState :=
  { statePresent with
    stereoConfig := { enabled := true }
    stereoInitialized := true
    currentSliderValue := 1 / 2 }

/-- The state `stateStereoOn` with the table holding `-5/2` for the left eye and `5/2`
for the right eye in every layer. -/
def stateShifted : StereoState :=
  { stateStereoOn with g_stereoLayerOffsets := fun e _ => if e = 0 then -5 / 2 else 5 / 2 }

/-- A GPU side on which nothing has happened, with a geometry shader and
`g_currentLayerIndex = 2`. -/
def gpuLayerTwo : GpuState :=
  { GpuState.initial true with g_currentLayerIndex := 2 }

/-- A video memory with nothing allocated in which every request fails. -/
def vramNone : VRAM where
  allocOk := fun _ => false
  allocCalls := 0
  live := []
  allocLog := []
  destroyLog := []

/-- A quad with all arguments zero. -/
def quadZero : QuadArgs := ⟨0, 0, 0, 0, 0, 0, 0, 0, 0⟩

/-- An emulated frame, not the first, with stereo on: the test configuration with the
hardware slider at 1, and an emulator core that calls `gpu3dsDrawVertexes` once. -/
def frameStereoOn : FrameInput where
  firstFrame := false
  skipDrawingFrame := false
  settings3DS := MockSettings.toSettings testSettings
  sliderState := 1
  emulating := true
  paused := false
  mainLoop := [.drawVertexes false 0]
  GameScreenWidth := 400
  border := false
  borderQuad := quadZero
  screenQuad := quadZero

/-- The frame `frameStereoOn` while the emulator is not in the state
`EMUSTATE_EMULATE`. -/
def frameNotEmulated : FrameInput := { frameStereoOn with emulating := false }

/-- The frame `frameStereoOn` as the first frame. -/
def frameFirst : FrameInput := { frameStereoOn with firstFrame := true }

/-- A GPU side on which nothing has happened, with a geometry shader and
`g_currentLayerIndex = -1`, the value the header documents as "unknown". -/
def gpuLayerUnknown : GpuState :=
  { GpuState.initial true with g_currentLayerIndex := -1 }

/-- The test configuration with the mode-7 plane at the depth of BG0 (12) and no
gradient. -/
def settingsMode7 : S9xSettings3DS :=
  { MockSettings.toSettings testSettings with Mode7DepthNear := 12 }

/-- The state `stateStereoOn` after `stereo3dsUpdateLayerOffsetsFromSlider(1.0)` under
`settingsMode7`. -/
def stateMode7 : StereoState :=
  stereo3dsUpdateLayerOffsetsFromSlider settingsMode7 1 stateStereoOn

/-- The configuration `testSettings` with the depth strength set to 0. -/
def testSettingsZeroStrength : MockSettings :=
  { testSettings with StereoDepthStrength := 0 }

/-- The binary32 number nearest to 0.3 (the literal `0.3f`). -/
def sliderThreeTenths : ℚ := 10066330 / 33554432

/-- The binary32 number nearest to 0.7 (the literal `0.7f`). -/
def sliderSevenTenths : ℚ := 11744051 / 16777216

/-! ## Lemmas on the offset table -/

theorem finRange_two : List.finRange 2 = [0, 1] := rfl

theorem finRange_five : List.finRange 5 = [0, 1, 2, 3, 4] := rfl

theorem zeroOffsets_apply (t : OffsetTable) (e : Fin 2) (j : Fin 5) :
    zeroOffsets t e j = 0 := by
  unfold zeroOffsets
  rw [finRange_two, finRange_five]
  fin_cases e <;> fin_cases j <;> simp [OffsetTable.set]

theorem foldl_set_pair (a b : Fin 5 → ℚ) (t : OffsetTable) (e : Fin 2) (j : Fin 5) :
    (List.finRange 5).foldl (fun t i => (t.set 0 i (a i)).set 1 i (b i)) t e j
      = if e = 0 then a j else b j := by
  rw [finRange_five]
  fin_cases e <;> fin_cases j <;> simp [OffsetTable.set]

theorem planeDepthOf_fin (LayerDepth : Fin 5 → ℚ) (p : Fin 5) :
    planeDepthOf LayerDepth ((p : ℕ) : ℤ) = LayerDepth p := by
  unfold planeDepthOf
  have h : (0 : ℤ) ≤ ((p : ℕ) : ℤ) ∧ ((p : ℕ) : ℤ) < 5 := by
    constructor <;> omega
  rw [dif_pos h]
  congr 1

theorem clampOffset_eq (x : ℚ) : clampOffset x = max (-17) (min 17 x) := by
  unfold clampOffset maxPerEye
  by_cases h1 : x > 17
  · have h2 : ¬ ((17 : ℚ) < -17) := by norm_num
    simp only [h1, if_true, h2, if_false]
    rw [min_eq_left (le_of_lt h1), max_eq_right (by norm_num)]
  · simp only [h1, if_false]
    have h3 : x ≤ 17 := not_lt.mp h1
    rw [min_eq_right h3]
    by_cases h4 : x < -17
    · simp only [h4, if_true]
      rw [max_eq_left (le_of_lt h4)]
    · simp only [h4, if_false]
      rw [max_eq_right (not_lt.mp h4)]

theorem abs_clampOffset (x : ℚ) : |clampOffset x| = min 17 |x| := by
  rw [clampOffset_eq]
  rcases le_total x 17 with h | h
  · rcases le_total (-17) x with h2 | h2
    · rw [min_eq_right h, max_eq_right h2, min_eq_right (abs_le.mpr ⟨h2, h⟩)]
    · rw [min_eq_right h, max_eq_left h2]
      have : (17 : ℚ) ≤ |x| := by
        rw [abs_of_nonpos (by linarith)]
        linarith
      rw [min_eq_left this]
      norm_num
  · rw [min_eq_left h, max_eq_right (by norm_num)]
    have : (17 : ℚ) ≤ |x| := le_trans h (le_abs_self x)
    rw [min_eq_left this]
    norm_num

/-- The table written by the production function when the slider is on. -/
theorem offsets_of_ge (settings3DS : S9xSettings3DS) (s : ℚ) (hs : 1 / 100 ≤ s)
    (st : StereoState) (e : Fin 2) (j : Fin 5) :
    (stereo3dsUpdateLayerOffsetsFromSlider settings3DS s st).g_stereoLayerOffsets e j
      = if e = 0
        then -layerOffset settings3DS.LayerDepth
          (planeDepthOf settings3DS.LayerDepth settings3DS.ScreenPlaneLayer)
          settings3DS.StereoDepthStrength s j
        else layerOffset settings3DS.LayerDepth
          (planeDepthOf settings3DS.LayerDepth settings3DS.ScreenPlaneLayer)
          settings3DS.StereoDepthStrength s j := by
  unfold stereo3dsUpdateLayerOffsetsFromSlider
  simp only [not_lt.mpr hs, if_false]
  exact foldl_set_pair _ _ _ e j

/-- The table written by the production function when the slider is off. -/
theorem offsets_of_lt (settings3DS : S9xSettings3DS) (s : ℚ) (hs : s < 1 / 100)
    (st : StereoState) (e : Fin 2) (j : Fin 5) :
    (stereo3dsUpdateLayerOffsetsFromSlider settings3DS s st).g_stereoLayerOffsets e j = 0 := by
  unfold stereo3dsUpdateLayerOffsetsFromSlider
  simp only [hs, if_true]
  exact zeroOffsets_apply _ e j

/-- The table written by the mock when the slider is on. -/
theorem mock_of_ge (m : MockSettings) (s : ℚ) (hs : 1 / 100 ≤ s)
    (t : OffsetTable) (e : Fin 2) (j : Fin 5) :
    testUpdateLayerOffsetsFromSlider m s t e j
      = if e = 0
        then layerOffset m.LayerDepth (planeDepthOf m.LayerDepth m.ScreenPlaneLayer)
          m.StereoDepthStrength s j
        else -layerOffset m.LayerDepth (planeDepthOf m.LayerDepth m.ScreenPlaneLayer)
          m.StereoDepthStrength s j := by
  unfold testUpdateLayerOffsetsFromSlider
  simp only [not_lt.mpr hs, if_false]
  exact foldl_set_pair _ _ _ e j

/-- The table written by the mock when the slider is off. -/
theorem mock_of_lt (m : MockSettings) (s : ℚ) (hs : s < 1 / 100)
    (t : OffsetTable) (e : Fin 2) (j : Fin 5) :
    testUpdateLayerOffsetsFromSlider m s t e j = 0 := by
  unfold testUpdateLayerOffsetsFromSlider
  simp only [hs, if_true]
  exact zeroOffsets_apply _ e j

/-! ## The offset calculator -/

/-- C1: for a screen-plane index `p` in 0..4 and a slider value `s ≥ 0.01`, the call
writes to the right-eye entry of every layer `i` the value
`((LayerDepth[i] - LayerDepth[p]) * StereoDepthStrength) * s` clamped to `[-17, 17]`,
and to the left-eye entry the negation of that value. -/
theorem updateLayerOffsets_clamped_mirror (settings3DS : S9xSettings3DS) (p : Fin 5)
    (hp : settings3DS.ScreenPlaneLayer = ((p : ℕ) : ℤ)) (s : ℚ) (hs : 1 / 100 ≤ s)
    (st : StereoState) (i : Fin 5) :
    (stereo3dsUpdateLayerOffsetsFromSlider settings3DS s st).g_stereoLayerOffsets 1 i
        = max (-17) (min 17
            (((settings3DS.LayerDepth i - settings3DS.LayerDepth p)
              * settings3DS.StereoDepthStrength) * s)) ∧
    (stereo3dsUpdateLayerOffsetsFromSlider settings3DS s st).g_stereoLayerOffsets 0 i
        = -max (-17) (min 17
            (((settings3DS.LayerDepth i - settings3DS.LayerDepth p)
              * settings3DS.StereoDepthStrength) * s)) := by
  rw [offsets_of_ge settings3DS s hs st 1 i, offsets_of_ge settings3DS s hs st 0 i, hp,
    planeDepthOf_fin]
  simp [layerOffset, clampOffset_eq]

/-- The test scenario of C1: depths `[12, 8, 4, 0, -15]`, screen plane 3, strength 1 and
slider 1 give the sprite layer the entries 15 (left) and -15 (right), and the
screen-plane layer 0 on both eyes. -/
theorem updateLayerOffsets_clamped_mirror_witness :
    ((1 : ℚ) / 100 ≤ 1) ∧
    ((stereo3dsUpdateLayerOffsetsFromSlider testSettings.toSettings 1
        (StereoState.initial vramAllOk)).g_stereoLayerOffsets 1 4 = -15 ∧
     (stereo3dsUpdateLayerOffsetsFromSlider testSettings.toSettings 1
        (StereoState.initial vramAllOk)).g_stereoLayerOffsets 0 4 = 15) ∧
    ((stereo3dsUpdateLayerOffsetsFromSlider testSettings.toSettings 1
        (StereoState.initial vramAllOk)).g_stereoLayerOffsets 1 3 = 0 ∧
     (stereo3dsUpdateLayerOffsetsFromSlider testSettings.toSettings 1
        (StereoState.initial vramAllOk)).g_stereoLayerOffsets 0 3 = 0) := by
  have h4 := updateLayerOffsets_clamped_mirror testSettings.toSettings 3 rfl 1
    (by norm_num) (StereoState.initial vramAllOk) 4
  have h3 := updateLayerOffsets_clamped_mirror testSettings.toSettings 3 rfl 1
    (by norm_num) (StereoState.initial vramAllOk) 3
  refine ⟨by norm_num, ?_, ?_⟩
  · rw [h4.1, h4.2]
    norm_num [MockSettings.toSettings, testSettings, testLayerDepth]
  · rw [h3.1, h3.2]
    norm_num [MockSettings.toSettings, testSettings, testLayerDepth]

/-- C3: antisymmetry. After the call, for every configuration, slider value and layer,
the left-eye entry is the negation of the right-eye entry. -/
theorem updateLayerOffsets_antisymmetric (settings3DS : S9xSettings3DS) (s : ℚ)
    (st : StereoState) (i : Fin 5) :
    (stereo3dsUpdateLayerOffsetsFromSlider settings3DS s st).g_stereoLayerOffsets 0 i
      = -(stereo3dsUpdateLayerOffsetsFromSlider settings3DS s st).g_stereoLayerOffsets 1 i := by
  rcases lt_or_le s (1 / 100) with hs | hs
  · rw [offsets_of_lt settings3DS s hs, offsets_of_lt settings3DS s hs, neg_zero]
  · rw [offsets_of_ge settings3DS s hs, offsets_of_ge settings3DS s hs]
    simp

/-- C4: screen-plane invariant. When the configured screen-plane index `p` is a layer
(0..4), the entry of layer `p` is 0 after the call, for every slider value and both
eyes. -/
theorem updateLayerOffsets_screen_plane_zero (settings3DS : S9xSettings3DS) (p : Fin 5)
    (hp : settings3DS.ScreenPlaneLayer = ((p : ℕ) : ℤ)) (s : ℚ) (st : StereoState)
    (eye : Fin 2) :
    (stereo3dsUpdateLayerOffsetsFromSlider settings3DS s st).g_stereoLayerOffsets eye p = 0 := by
  rcases lt_or_le s (1 / 100) with hs | hs
  · exact offsets_of_lt settings3DS s hs st eye p
  · rw [offsets_of_ge settings3DS s hs, hp, planeDepthOf_fin]
    have h0 : layerOffset settings3DS.LayerDepth (settings3DS.LayerDepth p)
        settings3DS.StereoDepthStrength s p = 0 := by
      norm_num [layerOffset, clampOffset, maxPerEye]
    rw [h0]
    simp

/-- The test of C4: layer 3 is the screen plane of the test configuration; at slider 1
its entries are 0 on both eyes. -/
theorem updateLayerOffsets_screen_plane_zero_witness :
    testSettings.toSettings.ScreenPlaneLayer = (((3 : Fin 5) : ℕ) : ℤ) ∧
    ∀ eye : Fin 2,
      (stereo3dsUpdateLayerOffsetsFromSlider testSettings.toSettings 1
        (StereoState.initial vramAllOk)).g_stereoLayerOffsets eye 3 = 0 :=
  ⟨rfl, fun eye =>
    updateLayerOffsets_screen_plane_zero testSettings.toSettings 3 rfl 1
      (StereoState.initial vramAllOk) eye⟩

/-- C5: clamping. For every configuration and every slider value, every entry of the
table has magnitude at most 17 after the call. -/
theorem updateLayerOffsets_bounded (settings3DS : S9xSettings3DS) (s : ℚ)
    (st : StereoState) (eye : Fin 2) (i : Fin 5) :
    |(stereo3dsUpdateLayerOffsetsFromSlider settings3DS s st).g_stereoLayerOffsets eye i|
      ≤ 17 := by
  rcases lt_or_le s (1 / 100) with hs | hs
  · rw [offsets_of_lt settings3DS s hs]
    norm_num
  · rw [offsets_of_ge settings3DS s hs]
    split_ifs
    · rw [abs_neg, layerOffset, abs_clampOffset]
      exact min_le_left _ _
    · rw [layerOffset, abs_clampOffset]
      exact min_le_left _ _

/-- The entries of the production function and of the mock at the test configuration
and slider 1: the sprite layer (relative depth -15, pop-out) gets the left-eye entry
+15 and the right-eye entry -15, and BG0 (relative depth +12, into the screen) gets
left -12 and right +12, while the mock of the test harness, on the same settings, gives
the sprite layer left -15, right +15 and BG0 left +12, right -12. -/
theorem updateLayerOffsets_sign_at_test_configuration :
    (testSettings.LayerDepth 4
        - planeDepthOf testSettings.LayerDepth testSettings.ScreenPlaneLayer < 0 ∧
     0 < testSettings.LayerDepth 0
        - planeDepthOf testSettings.LayerDepth testSettings.ScreenPlaneLayer) ∧
    ((stereo3dsUpdateLayerOffsetsFromSlider testSettings.toSettings 1
        (StereoState.initial vramAllOk)).g_stereoLayerOffsets 0 4 = 15 ∧
     (stereo3dsUpdateLayerOffsetsFromSlider testSettings.toSettings 1
        (StereoState.initial vramAllOk)).g_stereoLayerOffsets 1 4 = -15 ∧
     (stereo3dsUpdateLayerOffsetsFromSlider testSettings.toSettings 1
        (StereoState.initial vramAllOk)).g_stereoLayerOffsets 0 0 = -12 ∧
     (stereo3dsUpdateLayerOffsetsFromSlider testSettings.toSettings 1
        (StereoState.initial vramAllOk)).g_stereoLayerOffsets 1 0 = 12) ∧
    (testUpdateLayerOffsetsFromSlider testSettings 1 OffsetTable.init 0 4 = -15 ∧
     testUpdateLayerOffsetsFromSlider testSettings 1 OffsetTable.init 1 4 = 15 ∧
     testUpdateLayerOffsetsFromSlider testSettings 1 OffsetTable.init 0 0 = 12 ∧
     testUpdateLayerOffsetsFromSlider testSettings 1 OffsetTable.init 1 0 = -12) := by
  have hp : planeDepthOf testSettings.LayerDepth testSettings.ScreenPlaneLayer = 0 :=
    planeDepthOf_fin testSettings.LayerDepth 3
  have hs : (1 : ℚ) / 100 ≤ 1 := by norm_num
  refine ⟨?_, ?_, ?_⟩
  · rw [hp]
    norm_num [testSettings, testLayerDepth]
  · simp only [offsets_of_ge testSettings.toSettings 1 hs]
    simp only [MockSettings.toSettings, hp]
    norm_num [layerOffset, clampOffset, maxPerEye, testSettings, testLayerDepth]
  · simp only [mock_of_ge testSettings 1 hs, hp]
    norm_num [layerOffset, clampOffset, maxPerEye, testSettings, testLayerDepth]

/-- C7: the production calculation and the mock of the test harness differ exactly by
swapping the eyes. On the same settings and the same slider value, whatever the two
tables held before, the production entry of eye `eye` and layer `i` is the mock entry
of the other eye, `1 - eye`, and layer `i`. -/
theorem production_eq_mock_swapped (settings3DS : S9xSettings3DS) (s : ℚ)
    (st : StereoState) (mockTable : OffsetTable) (eye : Fin 2) (i : Fin 5) :
    (stereo3dsUpdateLayerOffsetsFromSlider settings3DS s st).g_stereoLayerOffsets eye i
      = testUpdateLayerOffsetsFromSlider settings3DS.toMock s mockTable (1 - eye) i := by
  rcases lt_or_le s (1 / 100) with hs | hs
  · rw [offsets_of_lt settings3DS s hs, mock_of_lt _ s hs]
  · rw [offsets_of_ge settings3DS s hs, mock_of_ge _ s hs]
    fin_cases eye <;> simp [S9xSettings3DS.toMock]

/-- The magnitude of an entry written when the slider is on: the magnitude of the raw
offset, capped at 17. -/
theorem abs_offsets_of_ge (settings3DS : S9xSettings3DS) (s : ℚ) (hs : 1 / 100 ≤ s)
    (st : StereoState) (e : Fin 2) (j : Fin 5) :
    |(stereo3dsUpdateLayerOffsetsFromSlider settings3DS s st).g_stereoLayerOffsets e j|
      = min 17 |(settings3DS.LayerDepth j
          - planeDepthOf settings3DS.LayerDepth settings3DS.ScreenPlaneLayer)
          * settings3DS.StereoDepthStrength * s| := by
  rw [offsets_of_ge settings3DS s hs]
  split_ifs
  · rw [abs_neg, layerOffset, abs_clampOffset]
  · rw [layerOffset, abs_clampOffset]

/-- C8: monotonic depth ordering. With a non-zero depth strength and a slider value
`s ≥ 0.01`, a layer at least as far from the screen plane as another gets an entry at
least as large in magnitude, on either eye; the entry is strictly larger when the
layer is strictly farther and its raw offset is within the clamp. -/
theorem updateLayerOffsets_monotone_in_depth (settings3DS : S9xSettings3DS) (s : ℚ)
    (hk : settings3DS.StereoDepthStrength ≠ 0) (hs : 1 / 100 ≤ s)
    (st : StereoState) (eye : Fin 2) (i j : Fin 5) :
    (|settings3DS.LayerDepth j
        - planeDepthOf settings3DS.LayerDepth settings3DS.ScreenPlaneLayer|
      ≤ |settings3DS.LayerDepth i
        - planeDepthOf settings3DS.LayerDepth settings3DS.ScreenPlaneLayer| →
     |(stereo3dsUpdateLayerOffsetsFromSlider settings3DS s st).g_stereoLayerOffsets eye j|
      ≤ |(stereo3dsUpdateLayerOffsetsFromSlider settings3DS s st).g_stereoLayerOffsets eye i|) ∧
    (|settings3DS.LayerDepth j
        - planeDepthOf settings3DS.LayerDepth settings3DS.ScreenPlaneLayer|
      < |settings3DS.LayerDepth i
        - planeDepthOf settings3DS.LayerDepth settings3DS.ScreenPlaneLayer| →
     |(settings3DS.LayerDepth i
        - planeDepthOf settings3DS.LayerDepth settings3DS.ScreenPlaneLayer)
        * settings3DS.StereoDepthStrength * s| ≤ 17 →
     |(stereo3dsUpdateLayerOffsetsFromSlider settings3DS s st).g_stereoLayerOffsets eye j|
      < |(stereo3dsUpdateLayerOffsetsFromSlider settings3DS s st).g_stereoLayerOffsets eye i|) := by
  have hs0 : 0 < s := lt_of_lt_of_le (by norm_num) hs
  have hk0 : 0 < |settings3DS.StereoDepthStrength| := abs_pos.mpr hk
  rw [abs_offsets_of_ge settings3DS s hs, abs_offsets_of_ge settings3DS s hs]
  simp only [abs_mul, abs_of_pos hs0]
  constructor
  · intro h
    apply min_le_min le_rfl
    exact mul_le_mul_of_nonneg_right
      (mul_le_mul_of_nonneg_right h (le_of_lt hk0)) (le_of_lt hs0)
  · intro h hi
    rw [min_eq_right hi]
    apply lt_of_le_of_lt (min_le_right _ _)
    exact mul_lt_mul_of_pos_right (mul_lt_mul_of_pos_right h hk0) hs0

/-- The test of C8: with depths `[12, 8, 4, 0, -15]`, screen plane 3 and slider 1 the
magnitudes of the entries of BG0, BG1, BG2, BG3 decrease strictly, on both eyes. -/
theorem updateLayerOffsets_monotone_in_depth_witness :
    testSettings.toSettings.StereoDepthStrength ≠ 0 ∧ ((1 : ℚ) / 100 ≤ 1) ∧
    ∀ eye : Fin 2,
      |(stereo3dsUpdateLayerOffsetsFromSlider testSettings.toSettings 1
          (StereoState.initial vramAllOk)).g_stereoLayerOffsets eye 3|
        < |(stereo3dsUpdateLayerOffsetsFromSlider testSettings.toSettings 1
          (StereoState.initial vramAllOk)).g_stereoLayerOffsets eye 2| ∧
      |(stereo3dsUpdateLayerOffsetsFromSlider testSettings.toSettings 1
          (StereoState.initial vramAllOk)).g_stereoLayerOffsets eye 2|
        < |(stereo3dsUpdateLayerOffsetsFromSlider testSettings.toSettings 1
          (StereoState.initial vramAllOk)).g_stereoLayerOffsets eye 1| ∧
      |(stereo3dsUpdateLayerOffsetsFromSlider testSettings.toSettings 1
          (StereoState.initial vramAllOk)).g_stereoLayerOffsets eye 1|
        < |(stereo3dsUpdateLayerOffsetsFromSlider testSettings.toSettings 1
          (StereoState.initial vramAllOk)).g_stereoLayerOffsets eye 0| := by
  have hk : testSettings.toSettings.StereoDepthStrength ≠ 0 := by
    norm_num [MockSettings.toSettings, testSettings]
  have hs : (1 : ℚ) / 100 ≤ 1 := by norm_num
  have hp : planeDepthOf testSettings.toSettings.LayerDepth
      testSettings.toSettings.ScreenPlaneLayer = 0 :=
    planeDepthOf_fin testSettings.LayerDepth 3
  refine ⟨hk, hs, fun eye => ⟨?_, ?_, ?_⟩⟩
  · refine (updateLayerOffsets_monotone_in_depth testSettings.toSettings 1 hk hs
      (StereoState.initial vramAllOk) eye 2 3).2 ?_ ?_
    · rw [hp]; norm_num [MockSettings.toSettings, testSettings, testLayerDepth]
    · rw [hp]; norm_num [MockSettings.toSettings, testSettings, testLayerDepth]
  · refine (updateLayerOffsets_monotone_in_depth testSettings.toSettings 1 hk hs
      (StereoState.initial vramAllOk) eye 1 2).2 ?_ ?_
    · rw [hp]; norm_num [MockSettings.toSettings, testSettings, testLayerDepth]
    · rw [hp]; norm_num [MockSettings.toSettings, testSettings, testLayerDepth]
  · refine (updateLayerOffsets_monotone_in_depth testSettings.toSettings 1 hk hs
      (StereoState.initial vramAllOk) eye 0 1).2 ?_ ?_
    · rw [hp]; norm_num [MockSettings.toSettings, testSettings, testLayerDepth]
    · rw [hp]; norm_num [MockSettings.toSettings, testSettings, testLayerDepth]

/-- Linear slider scaling in exact arithmetic (no rounding of the products). For two
slider values `s1, s2 ≥ 0.01` at which the raw offset of layer `i` is within the clamp,
the entries computed at `s1` and at `s2` are in the ratio `s1 : s2`, on either eye and
whatever the tables held before. -/
theorem updateLayerOffsets_linear_in_slider (settings3DS : S9xSettings3DS) (s1 s2 : ℚ)
    (hs1 : 1 / 100 ≤ s1) (hs2 : 1 / 100 ≤ s2) (st1 st2 : StereoState)
    (eye : Fin 2) (i : Fin 5)
    (hc1 : |(settings3DS.LayerDepth i
        - planeDepthOf settings3DS.LayerDepth settings3DS.ScreenPlaneLayer)
        * settings3DS.StereoDepthStrength * s1| ≤ 17)
    (hc2 : |(settings3DS.LayerDepth i
        - planeDepthOf settings3DS.LayerDepth settings3DS.ScreenPlaneLayer)
        * settings3DS.StereoDepthStrength * s2| ≤ 17) :
    (stereo3dsUpdateLayerOffsetsFromSlider settings3DS s1 st1).g_stereoLayerOffsets eye i * s2
      = (stereo3dsUpdateLayerOffsetsFromSlider settings3DS s2 st2).g_stereoLayerOffsets eye i
          * s1 := by
  have e1 := abs_le.mp hc1
  have e2 := abs_le.mp hc2
  rw [offsets_of_ge settings3DS s1 hs1, offsets_of_ge settings3DS s2 hs2]
  simp only [layerOffset, clampOffset_eq]
  rw [min_eq_right e1.2, min_eq_right e2.2, max_eq_right e1.1, max_eq_right e2.1]
  split_ifs <;> ring

/-- In the test configuration the entries of BG0 at sliders 0.5 and 1 have magnitudes 6
and 12, on both eyes. -/
theorem updateLayerOffsets_linear_in_slider_witness :
    ((1 : ℚ) / 100 ≤ 1 / 2) ∧ ((1 : ℚ) / 100 ≤ 1) ∧
    ∀ eye : Fin 2,
      (stereo3dsUpdateLayerOffsetsFromSlider testSettings.toSettings (1 / 2)
          (StereoState.initial vramAllOk)).g_stereoLayerOffsets eye 0 * 1
        = (stereo3dsUpdateLayerOffsetsFromSlider testSettings.toSettings 1
          (StereoState.initial vramAllOk)).g_stereoLayerOffsets eye 0 * (1 / 2) ∧
      |(stereo3dsUpdateLayerOffsetsFromSlider testSettings.toSettings (1 / 2)
          (StereoState.initial vramAllOk)).g_stereoLayerOffsets eye 0| = 6 ∧
      |(stereo3dsUpdateLayerOffsetsFromSlider testSettings.toSettings 1
          (StereoState.initial vramAllOk)).g_stereoLayerOffsets eye 0| = 12 := by
  have hs1 : (1 : ℚ) / 100 ≤ 1 / 2 := by norm_num
  have hs2 : (1 : ℚ) / 100 ≤ 1 := by norm_num
  have hp : planeDepthOf testSettings.toSettings.LayerDepth
      testSettings.toSettings.ScreenPlaneLayer = 0 :=
    planeDepthOf_fin testSettings.LayerDepth 3
  refine ⟨hs1, hs2, fun eye => ⟨?_, ?_, ?_⟩⟩
  · refine updateLayerOffsets_linear_in_slider testSettings.toSettings (1 / 2) 1 hs1 hs2
      (StereoState.initial vramAllOk) (StereoState.initial vramAllOk) eye 0 ?_ ?_
    · rw [hp]; norm_num [MockSettings.toSettings, testSettings, testLayerDepth]
    · rw [hp]; norm_num [MockSettings.toSettings, testSettings, testLayerDepth]
  · rw [abs_offsets_of_ge _ _ hs1, hp]
    norm_num [MockSettings.toSettings, testSettings, testLayerDepth]
  · rw [abs_offsets_of_ge _ _ hs2, hp]
    norm_num [MockSettings.toSettings, testSettings, testLayerDepth]

/-! ## The eye-surface lifecycle -/

theorem toList_eq_nil {α : Type} (o : Option α) : o.toList = [] ↔ o = none := by
  cases o <;> simp [Option.toList]

theorem destroy_handles (st : StereoState) :
    (stereo3dsDestroyRenderTargets st).stereoLeftEyeTarget = none ∧
    (stereo3dsDestroyRenderTargets st).stereoRightEyeTarget = none ∧
    (stereo3dsDestroyRenderTargets st).stereoLeftEyeDepth = none ∧
    (stereo3dsDestroyRenderTargets st).stereoRightEyeDepth = none ∧
    (stereo3dsDestroyRenderTargets st).stereoDepthShared = false := by
  unfold stereo3dsDestroyRenderTargets
  rcases h1 : st.stereoLeftEyeTarget with _ | a <;>
  rcases h2 : st.stereoRightEyeTarget with _ | b <;>
  rcases h3 : st.stereoLeftEyeDepth with _ | c <;>
  rcases h4 : st.stereoRightEyeDepth with _ | d <;>
  simp [h1, h2, h3, h4]

theorem destroy_leftTarget (st : StereoState) :
    (stereo3dsDestroyRenderTargets st).stereoLeftEyeTarget = none := (destroy_handles st).1

theorem destroy_rightTarget (st : StereoState) :
    (stereo3dsDestroyRenderTargets st).stereoRightEyeTarget = none := (destroy_handles st).2.1

theorem destroy_leftDepth (st : StereoState) :
    (stereo3dsDestroyRenderTargets st).stereoLeftEyeDepth = none := (destroy_handles st).2.2.1

theorem destroy_rightDepth (st : StereoState) :
    (stereo3dsDestroyRenderTargets st).stereoRightEyeDepth = none := (destroy_handles st).2.2.2.1

theorem destroy_vram (st : StereoState) :
    (stereo3dsDestroyRenderTargets st).vram =
      { st.vram with
        live := st.vram.live.filter (fun t => decide (t ∉ heldSurfaces st)),
        destroyLog := st.vram.destroyLog ++ heldSurfaces st } := by
  unfold stereo3dsDestroyRenderTargets heldSurfaces
  rcases h1 : st.stereoLeftEyeTarget with _ | a <;>
  rcases h2 : st.stereoRightEyeTarget with _ | b <;>
  rcases h3 : st.stereoLeftEyeDepth with _ | c <;>
  rcases h4 : st.stereoRightEyeDepth with _ | d <;>
  simp [h1, h2, h3, h4, gpu3dsDestroyTextureFromVRAM, List.filter_filter, Bool.and_comm,
    Bool.and_left_comm, Bool.and_assoc]

theorem create_fail_shape (st : StereoState)
    (hfail : ∃ k, k < 4 ∧ st.vram.allocOk (st.vram.allocCalls + k) = false) :
    ∃ news : List SGPUTexture,
      (stereo3dsCreateRenderTargets st).1 = false ∧
      (stereo3dsCreateRenderTargets st).2.vram.allocLog = st.vram.allocLog ++ news ∧
      (stereo3dsCreateRenderTargets st).2.vram.destroyLog
        = st.vram.destroyLog ++ (heldSurfaces st ++ news) ∧
      (∀ t ∈ news, t ∉ (stereo3dsCreateRenderTargets st).2.vram.live) ∧
      news.Nodup ∧ (∀ t ∈ news, st.vram.allocCalls ≤ t.id) ∧
      heldSurfaces (stereo3dsCreateRenderTargets st).2 = [] := by
  obtain ⟨k, hk, hfail⟩ := hfail
  cases h0 : st.vram.allocOk st.vram.allocCalls
  · refine ⟨[], ?_⟩
    simp [stereo3dsCreateRenderTargets, gpu3dsCreateTextureInVRAM, destroy_vram,
      destroy_leftTarget, destroy_rightTarget, destroy_leftDepth, destroy_rightDepth,
      heldSurfaces, h0]
  · cases h1 : st.vram.allocOk (st.vram.allocCalls + 1)
    · refine ⟨[⟨st.vram.allocCalls, 256, 256⟩], ?_⟩
      simp [stereo3dsCreateRenderTargets, gpu3dsCreateTextureInVRAM, destroy_vram,
        destroy_leftTarget, destroy_rightTarget, destroy_leftDepth, destroy_rightDepth,
        heldSurfaces, h0, h1]
    · cases h2 : st.vram.allocOk (st.vram.allocCalls + 2)
      · refine ⟨[⟨st.vram.allocCalls, 256, 256⟩, ⟨st.vram.allocCalls + 1, 256, 256⟩], ?_⟩
        simp [stereo3dsCreateRenderTargets, gpu3dsCreateTextureInVRAM, destroy_vram,
          destroy_leftTarget, destroy_rightTarget, destroy_leftDepth, destroy_rightDepth,
          heldSurfaces, h0, h1, h2, Nat.add_assoc]
      · cases h3 : st.vram.allocOk (st.vram.allocCalls + 3)
        · refine ⟨[⟨st.vram.allocCalls, 256, 256⟩, ⟨st.vram.allocCalls + 1, 256, 256⟩,
            ⟨st.vram.allocCalls + 2, 256, 240⟩], ?_⟩
          simp [stereo3dsCreateRenderTargets, gpu3dsCreateTextureInVRAM, destroy_vram,
            destroy_leftTarget, destroy_rightTarget, destroy_leftDepth, destroy_rightDepth,
            heldSurfaces, h0, h1, h2, h3, Nat.add_assoc]
        · exfalso
          interval_cases k <;> simp_all


/-- C10: allocation rollback. From every starting state, when at least one of the four
allocation requests of the call (left colour, right colour, left depth, right depth,
numbered from the current request count) fails, `stereo3dsCreateRenderTargets` returns
false with all four handles null, so `stereo3dsAreTargetsCreated` is false; no surface
allocated by the call remains live; every surface allocated by the call is destroyed
exactly once by the destroy calls that follow the initial clean-up of the previous
targets, and, when the handles of the starting state point to surfaces handed out
earlier, exactly once by all destroy calls of the call; and when the targets are absent
on entry `stereo3dsEnsureTargetsCreated` returns false with that same final state. -/
theorem createRenderTargets_rollback (st : StereoState)
    (hfail : ∃ k, k < 4 ∧ st.vram.allocOk (st.vram.allocCalls + k) = false) :
    (stereo3dsCreateRenderTargets st).1 = false ∧
    ((stereo3dsCreateRenderTargets st).2.stereoLeftEyeTarget = none ∧
     (stereo3dsCreateRenderTargets st).2.stereoRightEyeTarget = none ∧
     (stereo3dsCreateRenderTargets st).2.stereoLeftEyeDepth = none ∧
     (stereo3dsCreateRenderTargets st).2.stereoRightEyeDepth = none) ∧
    stereo3dsAreTargetsCreated (stereo3dsCreateRenderTargets st).2 = false ∧
    (∀ tex ∈ allocatedSince st (stereo3dsCreateRenderTargets st).2,
      tex ∉ (stereo3dsCreateRenderTargets st).2.vram.live) ∧
    (∀ tex ∈ allocatedSince st (stereo3dsCreateRenderTargets st).2,
      (destroyedSince (stereo3dsDestroyRenderTargets st)
        (stereo3dsCreateRenderTargets st).2).count tex = 1) ∧
    (handlesAllocated st →
      ∀ tex ∈ allocatedSince st (stereo3dsCreateRenderTargets st).2,
        (destroyedSince st (stereo3dsCreateRenderTargets st).2).count tex = 1) ∧
    (stereo3dsAreTargetsCreated st = false →
      stereo3dsEnsureTargetsCreated st = (false, (stereo3dsCreateRenderTargets st).2)) := by
  obtain ⟨news, hr, hal, hdl, hlive, hnd, hid, hheld⟩ := create_fail_shape st hfail
  have hnone : (stereo3dsCreateRenderTargets st).2.stereoLeftEyeTarget = none ∧
      (stereo3dsCreateRenderTargets st).2.stereoRightEyeTarget = none ∧
      (stereo3dsCreateRenderTargets st).2.stereoLeftEyeDepth = none ∧
      (stereo3dsCreateRenderTargets st).2.stereoRightEyeDepth = none := by
    simpa [heldSurfaces, toList_eq_nil, List.append_eq_nil] using hheld
  have hsince : allocatedSince st (stereo3dsCreateRenderTargets st).2 = news := by
    simp [allocatedSince, hal]
  have hdsince : destroyedSince st (stereo3dsCreateRenderTargets st).2
      = heldSurfaces st ++ news := by
    simp [destroyedSince, hdl]
  have hdafter : destroyedSince (stereo3dsDestroyRenderTargets st)
      (stereo3dsCreateRenderTargets st).2 = news := by
    simp [destroyedSince, hdl, destroy_vram, ← List.append_assoc]
  refine ⟨hr, hnone, ?_, ?_, ?_, ?_, ?_⟩
  · simp [stereo3dsAreTargetsCreated, hnone.1]
  · rw [hsince]
    exact hlive
  · intro tex htex
    rw [hsince] at htex
    rw [hdafter, List.count_eq_one_of_mem hnd htex]
  · intro hwf tex htex
    rw [hsince] at htex
    rw [hdsince, List.count_append]
    have h0 : (heldSurfaces st).count tex = 0 := by
      apply List.count_eq_zero_of_not_mem
      intro hmem
      have hlt : tex.id < st.vram.allocCalls := by
        apply hwf tex
        simpa [heldSurfaces, Option.mem_toList, or_assoc] using hmem
      have hge := hid tex htex
      omega
    rw [h0, List.count_eq_one_of_mem hnd htex]
  · intro habs
    unfold stereo3dsEnsureTargetsCreated
    rw [habs]
    simp only [Bool.false_eq_true, if_false]
    rcases hc : stereo3dsCreateRenderTargets st with ⟨b, st2⟩
    rw [hc] at hr
    simp only at hr
    subst hr
    rfl

/-- An instance of C10: from the state with targets present over `vramFailsAtSix` the
third request of the call (left depth, request number 6) fails. The call returns false
with no target; it allocated the surfaces 4 and 5, its initial clean-up destroyed the
previous surfaces 0 to 3, its rollback destroyed 4 and 5, and nothing remains live. -/
theorem createRenderTargets_rollback_witness :
    (∃ k, k < 4 ∧
      statePresent.vram.allocOk (statePresent.vram.allocCalls + k) = false) ∧
    stereo3dsAreTargetsCreated statePresent = true ∧
    (stereo3dsCreateRenderTargets statePresent).1 = false ∧
    stereo3dsAreTargetsCreated (stereo3dsCreateRenderTargets statePresent).2 = false ∧
    allocatedSince statePresent (stereo3dsCreateRenderTargets statePresent).2
      = [⟨4, 256, 256⟩, ⟨5, 256, 256⟩] ∧
    destroyedSince statePresent (stereo3dsCreateRenderTargets statePresent).2
      = [⟨0, 256, 256⟩, ⟨1, 256, 256⟩, ⟨2, 256, 240⟩, ⟨3, 256, 240⟩,
         ⟨4, 256, 256⟩, ⟨5, 256, 256⟩] ∧
    (stereo3dsCreateRenderTargets statePresent).2.vram.live = [] :=
  ⟨⟨2, by decide, rfl⟩, rfl,
   (createRenderTargets_rollback statePresent ⟨2, by decide, rfl⟩).1,
   (createRenderTargets_rollback statePresent ⟨2, by decide, rfl⟩).2.2.1,
   rfl, rfl, rfl⟩

/-! ## Reachable states of the stereo module -/

theorem create_ok_shape (st : StereoState)
    (h0 : st.vram.allocOk st.vram.allocCalls = true)
    (h1 : st.vram.allocOk (st.vram.allocCalls + 1) = true)
    (h2 : st.vram.allocOk (st.vram.allocCalls + 2) = true)
    (h3 : st.vram.allocOk (st.vram.allocCalls + 3) = true) :
    (stereo3dsCreateRenderTargets st).1 = true ∧
    (stereo3dsCreateRenderTargets st).2.stereoLeftEyeTarget
      = some ⟨st.vram.allocCalls, 256, 256⟩ ∧
    (stereo3dsCreateRenderTargets st).2.stereoRightEyeTarget
      = some ⟨st.vram.allocCalls + 1, 256, 256⟩ ∧
    (stereo3dsCreateRenderTargets st).2.stereoLeftEyeDepth
      = some ⟨st.vram.allocCalls + 2, 256, 240⟩ ∧
    (stereo3dsCreateRenderTargets st).2.stereoRightEyeDepth
      = some ⟨st.vram.allocCalls + 3, 256, 240⟩ ∧
    (stereo3dsCreateRenderTargets st).2.vram.allocCalls = st.vram.allocCalls + 4 ∧
    (stereo3dsCreateRenderTargets st).2.sliderZeroFrames = st.sliderZeroFrames := by
  have hs : (stereo3dsDestroyRenderTargets st).sliderZeroFrames = st.sliderZeroFrames := by
    unfold stereo3dsDestroyRenderTargets
    rcases h1 : st.stereoLeftEyeTarget with _ | a <;>
    rcases h2 : st.stereoRightEyeTarget with _ | b <;>
    rcases h3 : st.stereoLeftEyeDepth with _ | c <;>
    rcases h4 : st.stereoRightEyeDepth with _ | d <;>
    simp [h1, h2, h3, h4]
  simp [stereo3dsCreateRenderTargets, gpu3dsCreateTextureInVRAM, destroy_vram,
    h0, h1, h2, h3, hs, Nat.add_assoc]

/-- Whether at least one of the four requests of a call of
`stereo3dsCreateRenderTargets` from `st` fails. -/
theorem create_fails_or_ok (st : StereoState) :
    (∃ k, k < 4 ∧ st.vram.allocOk (st.vram.allocCalls + k) = false) ∨
    (st.vram.allocOk st.vram.allocCalls = true ∧
     st.vram.allocOk (st.vram.allocCalls + 1) = true ∧
     st.vram.allocOk (st.vram.allocCalls + 2) = true ∧
     st.vram.allocOk (st.vram.allocCalls + 3) = true) := by
  cases h0 : st.vram.allocOk st.vram.allocCalls
  · exact Or.inl ⟨0, by decide, by simpa using h0⟩
  · cases h1 : st.vram.allocOk (st.vram.allocCalls + 1)
    · exact Or.inl ⟨1, by decide, h1⟩
    · cases h2 : st.vram.allocOk (st.vram.allocCalls + 2)
      · exact Or.inl ⟨2, by decide, h2⟩
      · cases h3 : st.vram.allocOk (st.vram.allocCalls + 3)
        · exact Or.inl ⟨3, by decide, h3⟩
        · exact Or.inr ⟨rfl, rfl, rfl, rfl⟩

theorem areTargetsCreated_iff (st : StereoState) :
    stereo3dsAreTargetsCreated st = true ↔
      st.stereoLeftEyeTarget ≠ none ∧ st.stereoRightEyeTarget ≠ none ∧
      st.stereoLeftEyeDepth ≠ none ∧ st.stereoRightEyeDepth ≠ none := by
  simp [stereo3dsAreTargetsCreated, and_assoc]

theorem create_result_present (st : StereoState) :
    (stereo3dsCreateRenderTargets st).1
      = stereo3dsAreTargetsCreated (stereo3dsCreateRenderTargets st).2 := by
  rcases create_fails_or_ok st with hf | ⟨h0, h1, h2, h3⟩
  · obtain ⟨_, hr, _, _, _, _, _, hheld⟩ := create_fail_shape st hf
    have hn : (stereo3dsCreateRenderTargets st).2.stereoLeftEyeTarget = none := by
      have := hheld
      simp only [heldSurfaces, List.append_eq_nil, toList_eq_nil] at this
      exact this.1.1.1
    rw [hr]
    simp [stereo3dsAreTargetsCreated, hn]
  · obtain ⟨hr, hl, hrr, hld, hrd, _, _⟩ := create_ok_shape st h0 h1 h2 h3
    rw [hr]
    simp [stereo3dsAreTargetsCreated, hl, hrr, hld, hrd]

theorem targetsInv_destroy (st : StereoState) :
    TargetsInv (stereo3dsDestroyRenderTargets st) := by
  obtain ⟨h1, h2, h3, h4, _⟩ := destroy_handles st
  refine ⟨Or.inl ⟨h1, h2, h3, h4⟩, ?_, ?_⟩
  · simp [heldSurfaces, h1, h2, h3, h4]
  · intro tex h
    simp [h1, h2, h3, h4] at h

theorem targetsInv_create (st : StereoState) :
    TargetsInv (stereo3dsCreateRenderTargets st).2 := by
  rcases create_fails_or_ok st with hf | ⟨h0, h1, h2, h3⟩
  · obtain ⟨_, _, _, _, _, _, _, hheld⟩ := create_fail_shape st hf
    have hn := hheld
    simp only [heldSurfaces, List.append_eq_nil, toList_eq_nil] at hn
    refine ⟨Or.inl ⟨hn.1.1.1, hn.1.1.2, hn.1.2, hn.2⟩, ?_, ?_⟩
    · rw [hheld]
      exact List.nodup_nil
    · intro tex h
      simp [hn.1.1.1, hn.1.1.2, hn.1.2, hn.2] at h
  · obtain ⟨_, hl, hr, hld, hrd, hc, _⟩ := create_ok_shape st h0 h1 h2 h3
    refine ⟨Or.inr ?_, ?_, ?_⟩
    · simp [hl, hr, hld, hrd]
    · simp [heldSurfaces, hl, hr, hld, hrd]
    · intro tex h
      rw [hl, hr, hld, hrd] at h
      rw [hc]
      rcases h with h | h | h | h <;>
        · simp only [Option.some.injEq] at h
          subst h
          simp

theorem targetsInv_ensure (st : StereoState) (h : TargetsInv st) :
    TargetsInv (stereo3dsEnsureTargetsCreated st).2 := by
  unfold stereo3dsEnsureTargetsCreated
  by_cases hp : stereo3dsAreTargetsCreated st = true
  · simpa [hp] using h
  · simp only [hp]
    have hc := targetsInv_create st
    rcases hcr : stereo3dsCreateRenderTargets st with ⟨b, st2⟩
    rw [hcr] at hc
    cases b <;> simpa using hc

theorem targetsInv_update (settings3DS : S9xSettings3DS) (s : ℚ) (st : StereoState)
    (h : TargetsInv st) :
    TargetsInv (stereo3dsUpdateLayerOffsetsFromSlider settings3DS s st) := by
  unfold stereo3dsUpdateLayerOffsetsFromSlider
  split_ifs <;> exact h

theorem targetsInv_logFrameUpdate (e : ℚ) (a : Bool) (st : StereoState)
    (h : TargetsInv st) : TargetsInv (stereo3dsLogFrameUpdate e a st) := by
  unfold stereo3dsLogFrameUpdate
  simp only
  split_ifs <;> first | exact h | exact targetsInv_destroy _

theorem targetsInv_transfer (m : Machine) (h : TargetsInv m.stereo) :
    TargetsInv (stereo3dsTransferToScreenBuffers m).2.stereo := by
  have he := targetsInv_ensure m.stereo h
  unfold stereo3dsTransferToScreenBuffers
  rcases hcr : stereo3dsEnsureTargetsCreated m.stereo with ⟨b, st2⟩
  rw [hcr] at he
  cases b
  · simpa using he
  · simp only
    split <;> simpa using he

/-- Every reachable state satisfies the invariant of the four handles. -/
theorem reachable_targetsInv (m : Machine) (h : Reachable m) : TargetsInv m.stereo := by
  induction h with
  | start v g =>
    refine ⟨Or.inl ⟨rfl, rfl, rfl, rfl⟩, ?_, ?_⟩
    · simp [heldSurfaces, StereoState.initial]
    · intro tex h
      simp [StereoState.initial] at h
  | gpuSide m g _ ih => exact ih
  | initStep m _ ih =>
    unfold stereo3dsInitialize
    split_ifs
    · exact ih
    · exact ih
  | finalStep m _ ih =>
    unfold stereo3dsFinalize
    split_ifs
    · exact ih
    · exact targetsInv_destroy m.stereo
  | enableStep enabled m _ ih => exact ih
  | createStep m _ _ => exact targetsInv_create m.stereo
  | destroyStep m _ _ => exact targetsInv_destroy m.stereo
  | ensureStep m _ ih => exact targetsInv_ensure m.stereo ih
  | offsetsStep settings3DS sliderValue m _ ih =>
    exact targetsInv_update settings3DS sliderValue m.stereo ih
  | logStep e a m _ ih => exact targetsInv_logFrameUpdate e a m.stereo ih
  | transferStep m _ ih => exact targetsInv_transfer m ih

theorem machinePresent_reachable : Reachable machinePresent :=
  Reachable.createStep _ (Reachable.start vramFailsAtSix (GpuState.initial true))

/-- C11: `stereo3dsEnsureTargetsCreated` returns true if and only if the four eye
surfaces are present when it returns, from every state and under every allocator
behaviour; when the targets are present on entry it returns true and leaves the whole
state as it is (no allocation, no deallocation, the four handles unchanged). -/
theorem ensureTargetsCreated_true_iff_present (st : StereoState) :
    ((stereo3dsEnsureTargetsCreated st).1 = true ↔
      stereo3dsAreTargetsCreated (stereo3dsEnsureTargetsCreated st).2 = true) ∧
    (stereo3dsAreTargetsCreated st = true →
      stereo3dsEnsureTargetsCreated st = (true, st) ∧
      allocatedSince st (stereo3dsEnsureTargetsCreated st).2 = [] ∧
      destroyedSince st (stereo3dsEnsureTargetsCreated st).2 = []) := by
  constructor
  · unfold stereo3dsEnsureTargetsCreated
    by_cases hp : stereo3dsAreTargetsCreated st = true
    · simp [hp]
    · simp only [hp]
      have hc := create_result_present st
      rcases hcr : stereo3dsCreateRenderTargets st with ⟨b, st2⟩
      rw [hcr] at hc
      simp only at hc
      cases b
      · simp [← hc]
      · simp [← hc]
  · intro hp
    have he : stereo3dsEnsureTargetsCreated st = (true, st) := by
      simp [stereo3dsEnsureTargetsCreated, hp]
    rw [he]
    simp [allocatedSince, destroyedSince]

/-- An instance of C11: from the state with the targets present the call is a no-op
that returns true. -/
theorem ensureTargetsCreated_true_iff_present_witness :
    stereo3dsAreTargetsCreated statePresent = true ∧
    stereo3dsEnsureTargetsCreated statePresent = (true, statePresent) :=
  ⟨rfl, ((ensureTargetsCreated_true_iff_present statePresent).2 rfl).1⟩

theorem destroy_destroy (st : StereoState) :
    stereo3dsDestroyRenderTargets (stereo3dsDestroyRenderTargets st)
      = stereo3dsDestroyRenderTargets st := by
  obtain ⟨h1, h2, h3, h4, h5⟩ := destroy_handles st
  generalize stereo3dsDestroyRenderTargets st = s at *
  cases s
  simp only at h1 h2 h3 h4 h5
  subst h1 h2 h3 h4 h5
  rfl

/-- C12: release ends in Absent and is idempotent. From every reachable state,
`stereo3dsDestroyRenderTargets` leaves the four handles null, so
`stereo3dsAreTargetsCreated` is false; the destroy calls it makes are those of the
surfaces that were held, each destroyed exactly once; and a second consecutive call
destroys nothing and leaves the state unchanged. -/
theorem destroyRenderTargets_absent_idempotent (m : Machine) (h : Reachable m) :
    ((stereo3dsDestroyRenderTargets m.stereo).stereoLeftEyeTarget = none ∧
     (stereo3dsDestroyRenderTargets m.stereo).stereoRightEyeTarget = none ∧
     (stereo3dsDestroyRenderTargets m.stereo).stereoLeftEyeDepth = none ∧
     (stereo3dsDestroyRenderTargets m.stereo).stereoRightEyeDepth = none) ∧
    stereo3dsAreTargetsCreated (stereo3dsDestroyRenderTargets m.stereo) = false ∧
    destroyedSince m.stereo (stereo3dsDestroyRenderTargets m.stereo)
      = heldSurfaces m.stereo ∧
    (∀ tex ∈ heldSurfaces m.stereo,
      (destroyedSince m.stereo (stereo3dsDestroyRenderTargets m.stereo)).count tex = 1) ∧
    stereo3dsDestroyRenderTargets (stereo3dsDestroyRenderTargets m.stereo)
      = stereo3dsDestroyRenderTargets m.stereo ∧
    destroyedSince (stereo3dsDestroyRenderTargets m.stereo)
      (stereo3dsDestroyRenderTargets (stereo3dsDestroyRenderTargets m.stereo)) = [] := by
  obtain ⟨h1, h2, h3, h4, _⟩ := destroy_handles m.stereo
  have hinv := reachable_targetsInv m h
  have hd : destroyedSince m.stereo (stereo3dsDestroyRenderTargets m.stereo)
      = heldSurfaces m.stereo := by
    simp [destroyedSince, destroy_vram]
  refine ⟨⟨h1, h2, h3, h4⟩, ?_, hd, ?_, destroy_destroy m.stereo, ?_⟩
  · simp [stereo3dsAreTargetsCreated, h1]
  · intro tex htex
    rw [hd]
    exact List.count_eq_one_of_mem hinv.2.1 htex
  · rw [destroy_destroy]
    simp [destroyedSince]

/-- An instance of C12: released from the state with the targets present, the four
surfaces 0 to 3 are destroyed once each and no target remains. -/
theorem destroyRenderTargets_absent_idempotent_witness :
    Reachable machinePresent ∧
    stereo3dsAreTargetsCreated machinePresent.stereo = true ∧
    stereo3dsAreTargetsCreated (stereo3dsDestroyRenderTargets machinePresent.stereo) = false ∧
    destroyedSince machinePresent.stereo
        (stereo3dsDestroyRenderTargets machinePresent.stereo)
      = [⟨0, 256, 256⟩, ⟨1, 256, 256⟩, ⟨2, 256, 240⟩, ⟨3, 256, 240⟩] ∧
    stereo3dsDestroyRenderTargets (stereo3dsDestroyRenderTargets machinePresent.stereo)
      = stereo3dsDestroyRenderTargets machinePresent.stereo :=
  ⟨machinePresent_reachable, rfl,
   (destroyRenderTargets_absent_idempotent machinePresent machinePresent_reachable).2.1,
   rfl,
   (destroyRenderTargets_absent_idempotent machinePresent
      machinePresent_reachable).2.2.2.2.1⟩

/-- The colour and depth handles of an eye. -/
theorem setActive_eq (eye : StereoEye) (st : StereoState) (g : GpuState)
    (hinv : TargetsInv st) :
    stereo3dsSetActiveRenderTarget eye st g =
      if stereo3dsAreTargetsCreated st then
        (true, gpu3dsSetRenderTargetToTexture
          (match eye with
            | .STEREO_EYE_LEFT => st.stereoLeftEyeTarget
            | .STEREO_EYE_RIGHT => st.stereoRightEyeTarget)
          (match eye with
            | .STEREO_EYE_LEFT => st.stereoLeftEyeDepth
            | .STEREO_EYE_RIGHT => st.stereoRightEyeDepth) g)
      else (false, g) := by
  rcases hinv.1 with ⟨h1, h2, h3, h4⟩ | ⟨h1, h2, h3, h4⟩
  · cases eye <;> simp [stereo3dsSetActiveRenderTarget, stereo3dsAreTargetsCreated, h1, h2, h3, h4]
  · cases eye <;> simp [stereo3dsSetActiveRenderTarget, stereo3dsAreTargetsCreated, h1, h2, h3, h4]

/-- C13: from every reachable state and for each eye, `stereo3dsSetActiveRenderTarget`
returns true if and only if the targets are present. When it returns true it makes one
bind, of that eye's colour and depth surfaces, which become the draw destination; when
it returns false it leaves the GPU side as it is (no bind, same draw destination). -/
theorem setActiveRenderTarget_iff_present (m : Machine) (h : Reachable m)
    (eye : StereoEye) :
    (stereo3dsSetActiveRenderTarget eye m.stereo m.gpu).1
      = stereo3dsAreTargetsCreated m.stereo ∧
    (stereo3dsAreTargetsCreated m.stereo = true →
      (stereo3dsSetActiveRenderTarget eye m.stereo m.gpu).2.renderTarget
        = (match eye with
            | .STEREO_EYE_LEFT =>
              .texture m.stereo.stereoLeftEyeTarget m.stereo.stereoLeftEyeDepth
            | .STEREO_EYE_RIGHT =>
              .texture m.stereo.stereoRightEyeTarget m.stereo.stereoRightEyeDepth) ∧
      (stereo3dsSetActiveRenderTarget eye m.stereo m.gpu).2.calls
        = m.gpu.calls ++
          [match eye with
            | .STEREO_EYE_LEFT =>
              .setRenderTargetToTexture m.stereo.stereoLeftEyeTarget
                m.stereo.stereoLeftEyeDepth
            | .STEREO_EYE_RIGHT =>
              .setRenderTargetToTexture m.stereo.stereoRightEyeTarget
                m.stereo.stereoRightEyeDepth]) ∧
    (stereo3dsAreTargetsCreated m.stereo = false →
      (stereo3dsSetActiveRenderTarget eye m.stereo m.gpu).2 = m.gpu) := by
  have hinv := reachable_targetsInv m h
  rw [setActive_eq eye m.stereo m.gpu hinv]
  cases hp : stereo3dsAreTargetsCreated m.stereo
  · simp
  · cases eye <;> simp [gpu3dsSetRenderTargetToTexture, GpuState.call]

/-- An instance of C13: with the targets present the left eye binds the surfaces 0
(colour) and 2 (depth), the right eye the surfaces 1 and 3; in the initial state, with
no target, the call returns false and binds nothing. -/
theorem setActiveRenderTarget_iff_present_witness :
    Reachable machinePresent ∧
    (stereo3dsSetActiveRenderTarget .STEREO_EYE_LEFT machinePresent.stereo
        machinePresent.gpu).1 = true ∧
    (stereo3dsSetActiveRenderTarget .STEREO_EYE_LEFT machinePresent.stereo
        machinePresent.gpu).2.renderTarget
      = .texture (some ⟨0, 256, 256⟩) (some ⟨2, 256, 240⟩) ∧
    (stereo3dsSetActiveRenderTarget .STEREO_EYE_RIGHT machinePresent.stereo
        machinePresent.gpu).2.renderTarget
      = .texture (some ⟨1, 256, 256⟩) (some ⟨3, 256, 240⟩) ∧
    (stereo3dsSetActiveRenderTarget .STEREO_EYE_LEFT
        (Machine.initial vramAllOk true).stereo (Machine.initial vramAllOk true).gpu)
      = (false, (Machine.initial vramAllOk true).gpu) :=
  ⟨machinePresent_reachable,
   (setActiveRenderTarget_iff_present machinePresent machinePresent_reachable
      .STEREO_EYE_LEFT).1,
   rfl, rfl, rfl⟩

/-! ## Idle release -/

theorem ensure_of_present (st : StereoState) (hp : stereo3dsAreTargetsCreated st = true) :
    stereo3dsEnsureTargetsCreated st = (true, st) := by
  simp [stereo3dsEnsureTargetsCreated, hp]

/-- The shape of an idle frame: after the logging part, which keeps the handles, video
memory and the idle counter, the counter is advanced when the targets are present and
the targets are released when it reaches 300. -/
theorem log_idle_shape (e : ℚ) (st : StereoState) :
    ∃ s1 : StereoState,
      s1.stereoLeftEyeTarget = st.stereoLeftEyeTarget ∧
      s1.stereoRightEyeTarget = st.stereoRightEyeTarget ∧
      s1.stereoLeftEyeDepth = st.stereoLeftEyeDepth ∧
      s1.stereoRightEyeDepth = st.stereoRightEyeDepth ∧
      s1.vram = st.vram ∧ s1.sliderZeroFrames = st.sliderZeroFrames ∧
      stereo3dsLogFrameUpdate e false st =
        if stereo3dsAreTargetsCreated s1 then
          if s1.sliderZeroFrames + 1 = 300 then
            stereo3dsDestroyRenderTargets
              { s1 with sliderZeroFrames := s1.sliderZeroFrames + 1 }
          else { s1 with sliderZeroFrames := s1.sliderZeroFrames + 1 }
        else s1 := by
  by_cases hlog : |e - st.lastLoggedSlider| > 1 / 20
  · refine ⟨{ st with frameCounter := st.frameCounter + 1, lastLoggedSlider := e,
                      lastLoggedFrame := st.frameCounter + 1,
                      monoFrameCount := st.monoFrameCount + 1 },
      rfl, rfl, rfl, rfl, rfl, rfl, ?_⟩
    unfold stereo3dsLogFrameUpdate
    simp only [hlog, true_or, if_true, Bool.false_eq_true, if_false]
  · refine ⟨{ st with frameCounter := st.frameCounter + 1,
                      monoFrameCount := st.monoFrameCount + 1 },
      rfl, rfl, rfl, rfl, rfl, rfl, ?_⟩
    unfold stereo3dsLogFrameUpdate
    simp only [hlog, Bool.false_eq_true, false_and, or_false, if_false]

theorem areTargetsCreated_congr (s st : StereoState)
    (a : s.stereoLeftEyeTarget = st.stereoLeftEyeTarget)
    (b : s.stereoRightEyeTarget = st.stereoRightEyeTarget)
    (c : s.stereoLeftEyeDepth = st.stereoLeftEyeDepth)
    (d : s.stereoRightEyeDepth = st.stereoRightEyeDepth) :
    stereo3dsAreTargetsCreated s = stereo3dsAreTargetsCreated st := by
  simp [stereo3dsAreTargetsCreated, a, b, c, d]

/-- An idle frame that does not reach the count of 300 keeps the handles and video
memory and adds one to the idle counter. -/
theorem log_idle_keep (e : ℚ) (st : StereoState)
    (hp : stereo3dsAreTargetsCreated st = true) (hc : st.sliderZeroFrames + 1 ≠ 300) :
    stereo3dsAreTargetsCreated (stereo3dsLogFrameUpdate e false st) = true ∧
    (stereo3dsLogFrameUpdate e false st).sliderZeroFrames = st.sliderZeroFrames + 1 ∧
    (stereo3dsLogFrameUpdate e false st).vram = st.vram ∧
    heldSurfaces (stereo3dsLogFrameUpdate e false st) = heldSurfaces st := by
  obtain ⟨s1, a, b, c, d, hv, hz, heq⟩ := log_idle_shape e st
  have hp1 : stereo3dsAreTargetsCreated s1 = true := by
    rw [areTargetsCreated_congr s1 st a b c d]; exact hp
  rw [heq]
  simp only [hp1, if_true, hz, hc, if_false]
  refine ⟨?_, trivial, hv, ?_⟩
  · rw [← hp]
    exact areTargetsCreated_congr _ st a b c d
  · simp [heldSurfaces, a, b, c, d]

/-- The idle frame that reaches the count of 300 releases the targets. -/
theorem log_idle_release (e : ℚ) (st : StereoState)
    (hp : stereo3dsAreTargetsCreated st = true) (hc : st.sliderZeroFrames + 1 = 300) :
    stereo3dsAreTargetsCreated (stereo3dsLogFrameUpdate e false st) = false ∧
    (stereo3dsLogFrameUpdate e false st).vram.allocOk = st.vram.allocOk ∧
    (stereo3dsLogFrameUpdate e false st).vram.allocCalls = st.vram.allocCalls := by
  obtain ⟨s1, a, b, c, d, hv, hz, heq⟩ := log_idle_shape e st
  have hp1 : stereo3dsAreTargetsCreated s1 = true := by
    rw [areTargetsCreated_congr s1 st a b c d]; exact hp
  rw [heq]
  simp only [hp1, if_true, hz, hc]
  refine ⟨?_, ?_, ?_⟩
  · simp [stereo3dsAreTargetsCreated, destroy_leftTarget]
  · simp [destroy_vram, hv]
  · simp [destroy_vram, hv]

theorem idleFrames_append (xs ys : List ℚ) (st : StereoState) :
    idleFrames (xs ++ ys) st = idleFrames ys (idleFrames xs st) := by
  simp [idleFrames, List.foldl_append]

/-- Idle frames that stay below the count of 300 keep the targets. -/
theorem idleFrames_keep (sliders : List ℚ) (st : StereoState)
    (hp : stereo3dsAreTargetsCreated st = true) (h0 : 0 ≤ st.sliderZeroFrames)
    (hc : st.sliderZeroFrames + sliders.length < 300) :
    stereo3dsAreTargetsCreated (idleFrames sliders st) = true ∧
    (idleFrames sliders st).sliderZeroFrames = st.sliderZeroFrames + sliders.length ∧
    (idleFrames sliders st).vram = st.vram ∧
    heldSurfaces (idleFrames sliders st) = heldSurfaces st := by
  induction sliders generalizing st with
  | nil => simp [idleFrames, hp]
  | cons e rest ih =>
    simp only [List.length_cons, Nat.cast_add, Nat.cast_one] at hc
    obtain ⟨k1, k2, k3, k4⟩ := log_idle_keep e st hp (by omega)
    have := ih (stereo3dsLogFrameUpdate e false st) k1 (by omega) (by rw [k2]; omega)
    obtain ⟨j1, j2, j3, j4⟩ := this
    refine ⟨j1, ?_, ?_, ?_⟩
    · show (idleFrames rest (stereo3dsLogFrameUpdate e false st)).sliderZeroFrames = _
      rw [j2, k2]
      simp only [List.length_cons, Nat.cast_add, Nat.cast_one]
      ring
    · show (idleFrames rest (stereo3dsLogFrameUpdate e false st)).vram = _
      rw [j3, k3]
    · show heldSurfaces (idleFrames rest (stereo3dsLogFrameUpdate e false st)) = _
      rw [j4, k4]

theorem ensure_result_present (st : StereoState) :
    (stereo3dsEnsureTargetsCreated st).1
      = stereo3dsAreTargetsCreated (stereo3dsEnsureTargetsCreated st).2 := by
  unfold stereo3dsEnsureTargetsCreated
  by_cases hp : stereo3dsAreTargetsCreated st = true
  · simp [hp]
  · simp only [hp]
    have hc := create_result_present st
    rcases hcr : stereo3dsCreateRenderTargets st with ⟨b, st2⟩
    rw [hcr] at hc
    simp only at hc
    cases b <;> simp [← hc]

/-- From a state without targets, `stereo3dsEnsureTargetsCreated` succeeds when its four
allocation requests succeed. -/
theorem ensure_of_absent_ok (st : StereoState)
    (hok : ∀ k, k < 4 → st.vram.allocOk (st.vram.allocCalls + k) = true) :
    (stereo3dsEnsureTargetsCreated st).1 = true := by
  by_cases hp : stereo3dsAreTargetsCreated st = true
  · rw [ensure_of_present st hp]
  · have h := create_ok_shape st (by simpa using hok 0 (by decide)) (hok 1 (by decide))
      (hok 2 (by decide)) (hok 3 (by decide))
    unfold stereo3dsEnsureTargetsCreated
    simp only [hp]
    rcases hcr : stereo3dsCreateRenderTargets st with ⟨b, st2⟩
    rw [hcr] at h
    have hb : b = true := h.1
    subst hb
    rfl

/-- Idle frames whose last one brings the idle counter to 300 release the targets. -/
theorem idleFrames_release (sliders : List ℚ) (n : ℕ) (st : StereoState)
    (hp : stereo3dsAreTargetsCreated st = true) (h0 : 0 ≤ st.sliderZeroFrames)
    (hlen : sliders.length = n + 1) (hc : st.sliderZeroFrames + n + 1 = 300) :
    stereo3dsAreTargetsCreated (idleFrames sliders st) = false := by
  have hsplit : sliders = sliders.take n ++ sliders.drop n :=
    (List.take_append_drop n sliders).symm
  have hd : (sliders.drop n).length = 1 := by
    rw [List.length_drop, hlen]; omega
  obtain ⟨e, he⟩ := List.length_eq_one.mp hd
  have hl : (sliders.take n).length = n := by
    rw [List.length_take, hlen]; omega
  have hn := idleFrames_keep (sliders.take n) st hp h0 (by rw [hl]; omega)
  rw [hsplit, idleFrames_append, he]
  exact (log_idle_release e _ hn.1 (by rw [hn.2.1, hl]; omega)).1

/-- C14, as stated, fails: `stateEnsuredAgain` is reached by a successful
`stereo3dsEnsureTargetsCreated`, one idle frame and a second
`stereo3dsEnsureTargetsCreated`, which has just returned true; the targets are then
released by the 299th of the following idle frames, not by the 300th. -/
theorem idle_release_counterexample :
    Reachable ⟨stateEnsuredAgain, GpuState.initial true⟩ ∧
    (stereo3dsEnsureTargetsCreated (stereo3dsLogFrameUpdate 0 false stateEnsured)).1 = true ∧
    stereo3dsAreTargetsCreated (idleFrames (List.replicate 299 0) stateEnsuredAgain)
      = false := by
  have hp0 : stereo3dsAreTargetsCreated stateEnsured = true := rfl
  have hz0 : stateEnsured.sliderZeroFrames = 0 := rfl
  obtain ⟨k1, k2, _, _⟩ := log_idle_keep 0 stateEnsured hp0 (by rw [hz0]; norm_num)
  have hens := ensure_of_present _ k1
  have hst : stateEnsuredAgain = stereo3dsLogFrameUpdate 0 false stateEnsured := by
    unfold stateEnsuredAgain
    rw [hens]
  refine ⟨?_, ?_, ?_⟩
  · exact Reachable.ensureStep _ (Reachable.logStep 0 false _
      (Reachable.ensureStep _ (Reachable.start vramAllOk (GpuState.initial true))))
  · rw [hens]
  · rw [hst]
    rw [hz0] at k2
    exact idleFrames_release (List.replicate 299 0) 298 _ k1 (by rw [k2]; norm_num)
      (List.length_replicate 299 0) (by rw [k2]; norm_num)

/-- C14, amended: when `stereo3dsEnsureTargetsCreated` has just returned true and the
idle counter `sliderZeroFrames` is 0 (as after a frame with `stereoActive = true`), 300
consecutive calls of `stereo3dsLogFrameUpdate` with `stereoActive = false` leave the
targets present after each of the first 299 calls and released after the 300th; a
following `stereo3dsEnsureTargetsCreated` whose four allocation requests succeed
returns true with the targets present again. -/
theorem idle_release_after_300_frames (st0 : StereoState)
    (hens : (stereo3dsEnsureTargetsCreated st0).1 = true)
    (hzero : (stereo3dsEnsureTargetsCreated st0).2.sliderZeroFrames = 0)
    (sliders : List ℚ) (hlen : sliders.length = 300) :
    (∀ k, 1 ≤ k → k ≤ 299 →
      stereo3dsAreTargetsCreated
        (idleFrames (sliders.take k) (stereo3dsEnsureTargetsCreated st0).2) = true) ∧
    stereo3dsAreTargetsCreated
      (idleFrames sliders (stereo3dsEnsureTargetsCreated st0).2) = false ∧
    ((∀ k, k < 4 →
        (idleFrames sliders (stereo3dsEnsureTargetsCreated st0).2).vram.allocOk
          ((idleFrames sliders (stereo3dsEnsureTargetsCreated st0).2).vram.allocCalls + k)
          = true) →
      (stereo3dsEnsureTargetsCreated
        (idleFrames sliders (stereo3dsEnsureTargetsCreated st0).2)).1 = true ∧
      stereo3dsAreTargetsCreated (stereo3dsEnsureTargetsCreated
        (idleFrames sliders (stereo3dsEnsureTargetsCreated st0).2)).2 = true) := by
  have hp : stereo3dsAreTargetsCreated (stereo3dsEnsureTargetsCreated st0).2 = true := by
    rw [← ensure_result_present]; exact hens
  generalize (stereo3dsEnsureTargetsCreated st0).2 = st at *
  refine ⟨?_, ?_, ?_⟩
  · intro k _ hk
    have hl : (sliders.take k).length = k := by
      rw [List.length_take, hlen]; omega
    exact (idleFrames_keep (sliders.take k) st hp (by rw [hzero])
      (by rw [hzero, hl]; omega)).1
  · exact idleFrames_release sliders 299 st hp (by rw [hzero]) hlen
      (by rw [hzero]; norm_num)
  · intro hok
    have h1 := ensure_of_absent_ok _ hok
    exact ⟨h1, by rw [← ensure_result_present]; exact h1⟩

/-- An instance of the amended C14: from the state after a first successful
`stereo3dsEnsureTargetsCreated`, the targets are present after 299 idle frames and
released after 300. -/
theorem idle_release_after_300_frames_witness :
    (stereo3dsEnsureTargetsCreated (StereoState.initial vramAllOk)).1 = true ∧
    (stereo3dsEnsureTargetsCreated (StereoState.initial vramAllOk)).2.sliderZeroFrames = 0 ∧
    (List.replicate 300 (0 : ℚ)).length = 300 ∧
    stereo3dsAreTargetsCreated
      (idleFrames ((List.replicate 300 (0 : ℚ)).take 299)
        (stereo3dsEnsureTargetsCreated (StereoState.initial vramAllOk)).2) = true ∧
    stereo3dsAreTargetsCreated
      (idleFrames (List.replicate 300 (0 : ℚ))
        (stereo3dsEnsureTargetsCreated (StereoState.initial vramAllOk)).2) = false :=
  ⟨rfl, rfl, List.length_replicate 300 0,
   (idle_release_after_300_frames (StereoState.initial vramAllOk) rfl rfl
      (List.replicate 300 0) (List.length_replicate 300 0)).1 299 (by decide) (by decide),
   (idle_release_after_300_frames (StereoState.initial vramAllOk) rfl rfl
      (List.replicate 300 0) (List.length_replicate 300 0)).2.1⟩

/-! ## Transfer to the display -/

/-- C16: `stereo3dsTransferToScreenBuffers` first calls
`stereo3dsEnsureTargetsCreated`. It returns false exactly when the targets are absent
after that call, which is when they were absent on entry and the allocation failed; it
then makes no GPU call (no display copy) and leaves the clear flag as it was. Otherwise
it returns true after four GPU calls (a wait for the previous flush, the copy of the
left-eye surface to the left frame buffer, a wait, the copy of the right-eye surface
to the right frame buffer) and the reset of the clear flag. -/
theorem transferToScreenBuffers_spec (m : Machine) :
    (stereo3dsTransferToScreenBuffers m).2.stereo
      = (stereo3dsEnsureTargetsCreated m.stereo).2 ∧
    ((stereo3dsTransferToScreenBuffers m).1 = false ↔
      stereo3dsAreTargetsCreated (stereo3dsEnsureTargetsCreated m.stereo).2 = false) ∧
    ((stereo3dsTransferToScreenBuffers m).1 = false ↔
      (stereo3dsAreTargetsCreated m.stereo = false ∧
       (stereo3dsCreateRenderTargets m.stereo).1 = false)) ∧
    ((stereo3dsTransferToScreenBuffers m).1 = false →
      (stereo3dsTransferToScreenBuffers m).2.gpu = m.gpu) ∧
    ((stereo3dsTransferToScreenBuffers m).1 = true →
      ∃ left right,
        (stereo3dsEnsureTargetsCreated m.stereo).2.stereoLeftEyeTarget = some left ∧
        (stereo3dsEnsureTargetsCreated m.stereo).2.stereoRightEyeTarget = some right ∧
        (stereo3dsTransferToScreenBuffers m).2.gpu.calls
          = m.gpu.calls ++ [.waitForPreviousFlush, .displayTransfer left false,
              .waitForPreviousFlush, .displayTransfer right true] ∧
        (stereo3dsTransferToScreenBuffers m).2.gpu.g_stereoClearedThisFrame = false ∧
        (stereo3dsTransferToScreenBuffers m).2.gpu.renderTarget = m.gpu.renderTarget ∧
        (stereo3dsTransferToScreenBuffers m).2.gpu.GPU3DSExt = m.gpu.GPU3DSExt) := by
  have hpres := ensure_result_present m.stereo
  have hfail : (stereo3dsEnsureTargetsCreated m.stereo).1 = false ↔
      (stereo3dsAreTargetsCreated m.stereo = false ∧
       (stereo3dsCreateRenderTargets m.stereo).1 = false) := by
    unfold stereo3dsEnsureTargetsCreated
    by_cases hp : stereo3dsAreTargetsCreated m.stereo = true
    · simp [hp]
    · simp only [hp]
      rcases stereo3dsCreateRenderTargets m.stereo with ⟨b, st2⟩
      cases b <;> simp
  unfold stereo3dsTransferToScreenBuffers
  rcases he : stereo3dsEnsureTargetsCreated m.stereo with ⟨b, st⟩
  rw [he] at hpres hfail
  simp only at hpres hfail
  cases b
  · refine ⟨rfl, ?_, ?_, ?_, ?_⟩
    · simp [← hpres]
    · simpa using hfail
    · intro _; rfl
    · intro h; simp at h
  · have hp : stereo3dsAreTargetsCreated st = true := hpres.symm
    rw [areTargetsCreated_iff] at hp
    obtain ⟨left, hl⟩ := Option.ne_none_iff_exists'.mp hp.1
    obtain ⟨right, hr⟩ := Option.ne_none_iff_exists'.mp hp.2.1
    simp only [hl, hr]
    refine ⟨trivial, ?_, ?_, ?_, ?_⟩
    · simp [← hpres]
    · simpa using hfail
    · intro h; simp at h
    · intro _
      refine ⟨left, right, ?_⟩
      simp [gpu3dsResetStereoClearFlag, GpuState.call]

/-! ## Clearing the eye surfaces once per frame -/

theorem setActive_present (eye : StereoEye) (st : StereoState) (g : GpuState)
    (hp : stereo3dsAreTargetsCreated st = true) :
    stereo3dsSetActiveRenderTarget eye st g =
      (true, gpu3dsSetRenderTargetToTexture
        (match eye with
          | .STEREO_EYE_LEFT => st.stereoLeftEyeTarget
          | .STEREO_EYE_RIGHT => st.stereoRightEyeTarget)
        (match eye with
          | .STEREO_EYE_LEFT => st.stereoLeftEyeDepth
          | .STEREO_EYE_RIGHT => st.stereoRightEyeDepth) g) := by
  rw [areTargetsCreated_iff] at hp
  obtain ⟨h1, h2, h3, h4⟩ := hp
  cases eye <;> simp [stereo3dsSetActiveRenderTarget, h1, h2, h3, h4]

theorem drawEyes_present (r : Bool) (s : ℤ) (st : StereoState)
    (hp : stereo3dsAreTargetsCreated st = true) (eyes : List (Fin 2)) (g : GpuState) :
    (drawEyes r s st eyes g).calls
        = g.calls ++ eyes.flatMap (eyeDrawCalls r s st) ∧
    (drawEyes r s st eyes g).g_stereoClearedThisFrame = g.g_stereoClearedThisFrame := by
  induction eyes generalizing g with
  | nil => simp [drawEyes]
  | cons eye rest ih =>
    rw [drawEyes, setActive_present _ st g hp]
    simp only
    rw [(ih _).1, (ih _).2]
    fin_cases eye <;>
      simp [gpu3dsDrawVertexList, gpu3dsSetRenderTargetToTexture, GpuState.call,
        eyeDrawCalls]

/-- The GPU calls and the clear flag of one `gpu3dsDrawVertexes` with stereo enabled
and the targets present. -/
theorem drawVertexes_present (r : Bool) (s : ℤ) (st : StereoState) (g : GpuState)
    (he : stereo3dsIsEnabled st = true) (hp : stereo3dsAreTargetsCreated st = true) :
    (gpu3dsDrawVertexes r s st g).calls
        = g.calls ++
          ((if g.g_stereoClearedThisFrame then []
            else eyeClearCalls st.stereoLeftEyeTarget st.stereoLeftEyeDepth ++
              eyeClearCalls st.stereoRightEyeTarget st.stereoRightEyeDepth) ++
           stereoDrawCalls r s st) ∧
    (gpu3dsDrawVertexes r s st g).g_stereoClearedThisFrame = true := by
  unfold gpu3dsDrawVertexes
  simp only [he, hp, Bool.not_true, Bool.false_eq_true, if_false]
  rw [(drawEyes_present r s st hp _ _).1, (drawEyes_present r s st hp _ _).2]
  have hs : (100 : ℚ)⁻¹ ≤ stereo3dsGetSliderValue st ∨
      ¬ (100 : ℚ)⁻¹ ≤ stereo3dsGetSliderValue st := em _
  cases hf : g.g_stereoClearedThisFrame
  · simp only [Bool.not_false, if_true, Bool.false_eq_true, if_false]
    constructor
    · simp only [clearEye, setActive_present _ st _ hp]
      rcases hs with hs | hs
      · simp [hs, stereoDrawCalls, eyeClearCalls, gpu3dsClearColorAndDepth,
          gpu3dsDrawRectangle, gpu3dsAddRectangleVertexes, gpu3dsDrawVertexList,
          gpu3dsSetRenderTargetToTexture, GpuState.call, apply_ite]
      · simp [hs, stereoDrawCalls, eyeClearCalls, gpu3dsClearColorAndDepth,
          gpu3dsDrawRectangle, gpu3dsAddRectangleVertexes, gpu3dsDrawVertexList,
          gpu3dsSetRenderTargetToTexture, GpuState.call, apply_ite]
    · simp
  · simp only [Bool.not_true, Bool.false_eq_true, if_false, if_true, List.nil_append]
    constructor
    · rcases hs with hs | hs
      · simp [hs, stereoDrawCalls]
      · simp [hs, stereoDrawCalls]
    · exact hf

theorem clearedTargets_append_noclear (xs ys : List GpuCall)
    (h : ∀ rt, clearedTargets rt ys = []) (rt : RenderTarget) :
    clearedTargets rt (xs ++ ys) = clearedTargets rt xs := by
  induction xs generalizing rt with
  | nil => simpa [clearedTargets] using h rt
  | cons x rest ih =>
    cases x with
    | setDepthTestAndWriteMask always =>
      cases always <;> simp [clearedTargets, ih]
    | _ => simp [clearedTargets, ih]

theorem noclear_append (xs ys : List GpuCall) (hx : ∀ rt, clearedTargets rt xs = [])
    (hy : ∀ rt, clearedTargets rt ys = []) (rt : RenderTarget) :
    clearedTargets rt (xs ++ ys) = [] := by
  rw [clearedTargets_append_noclear xs ys hy rt]
  exact hx rt

theorem stereoDrawCalls_noclear (r : Bool) (s : ℤ) (st : StereoState) (rt : RenderTarget) :
    clearedTargets rt (stereoDrawCalls r s st) = [] := by
  unfold stereoDrawCalls
  split_ifs <;> simp [eyeDrawCalls, clearedTargets]

theorem callsSince_append (g g1 : GpuState) (xs : List GpuCall)
    (h : g1.calls = g.calls ++ xs) : callsSince g g1 = xs := by
  simp [callsSince, h]

/-- Further calls of `gpu3dsDrawVertexes` with the clear flag set make draw calls
only. -/
theorem drawVertexesCalls_flag_set (st : StereoState)
    (he : stereo3dsIsEnabled st = true) (hp : stereo3dsAreTargetsCreated st = true)
    (args : List (Bool × ℤ)) (g : GpuState) (hf : g.g_stereoClearedThisFrame = true) :
    (drawVertexesCalls args st g).calls
      = g.calls ++ args.flatMap (fun a => stereoDrawCalls a.1 a.2 st) := by
  induction args generalizing g with
  | nil => simp [drawVertexesCalls]
  | cons a rest ih =>
    obtain ⟨h1, h2⟩ := drawVertexes_present a.1 a.2 st g he hp
    have := ih (gpu3dsDrawVertexes a.1 a.2 st g) h2
    simp only [drawVertexesCalls, List.foldl_cons] at this ⊢
    rw [this, h1, hf]
    simp

theorem flatMap_noclear (args : List (Bool × ℤ)) (st : StereoState) (rt : RenderTarget) :
    clearedTargets rt (args.flatMap (fun a => stereoDrawCalls a.1 a.2 st)) = [] := by
  induction args generalizing rt with
  | nil => simp [clearedTargets]
  | cons a rest ih =>
    rw [List.flatMap_cons]
    exact noclear_append _ _ (stereoDrawCalls_noclear a.1 a.2 st) ih rt

/-- C17: clear once per frame. In a sequence of one or more consecutive calls of
`gpu3dsDrawVertexes` with stereo enabled and the targets present, started with the clear
flag false, `gpu3dsClearColorAndDepth` is called exactly twice, on the left-eye surfaces
and then on the right-eye surfaces; both clears belong to the first call and come
before any draw of a per-eye vertex list; the later calls clear nothing. -/
theorem drawVertexes_clears_once (st : StereoState) (g : GpuState) (a : Bool × ℤ)
    (rest : List (Bool × ℤ)) (he : stereo3dsIsEnabled st = true)
    (hp : stereo3dsAreTargetsCreated st = true)
    (hf : g.g_stereoClearedThisFrame = false) :
    clearedTargets g.renderTarget (callsSince g (drawVertexesCalls (a :: rest) st g))
      = [.texture st.stereoLeftEyeTarget st.stereoLeftEyeDepth,
         .texture st.stereoRightEyeTarget st.stereoRightEyeDepth] ∧
    (∃ pre post,
      callsSince g (gpu3dsDrawVertexes a.1 a.2 st g) = pre ++ post ∧
      clearedTargets g.renderTarget pre
        = [.texture st.stereoLeftEyeTarget st.stereoLeftEyeDepth,
           .texture st.stereoRightEyeTarget st.stereoRightEyeDepth] ∧
      (∀ c ∈ pre, isPerEyeDraw c = false) ∧
      (∀ rt, clearedTargets rt post = [])) ∧
    (∀ rt, clearedTargets rt
      (callsSince (gpu3dsDrawVertexes a.1 a.2 st g) (drawVertexesCalls (a :: rest) st g))
        = []) := by
  obtain ⟨h1, h2⟩ := drawVertexes_present a.1 a.2 st g he hp
  rw [hf] at h1
  simp only [Bool.false_eq_true, if_false] at h1
  have hrest := drawVertexesCalls_flag_set st he hp rest (gpu3dsDrawVertexes a.1 a.2 st g) h2
  have hall : drawVertexesCalls (a :: rest) st g
      = drawVertexesCalls rest st (gpu3dsDrawVertexes a.1 a.2 st g) := rfl
  have hclear : clearedTargets g.renderTarget
      (eyeClearCalls st.stereoLeftEyeTarget st.stereoLeftEyeDepth ++
        eyeClearCalls st.stereoRightEyeTarget st.stereoRightEyeDepth)
      = [.texture st.stereoLeftEyeTarget st.stereoLeftEyeDepth,
         .texture st.stereoRightEyeTarget st.stereoRightEyeDepth] := by
    simp [eyeClearCalls, clearedTargets]
  refine ⟨?_, ?_, ?_⟩
  · rw [hall, callsSince_append g _ _ (by rw [hrest, h1, List.append_assoc])]
    rw [List.append_assoc, clearedTargets_append_noclear _ _ ?_ _]
    · exact hclear
    · intro rt
      exact noclear_append _ _ (stereoDrawCalls_noclear a.1 a.2 st)
        (flatMap_noclear rest st) rt
  · refine ⟨_, _, callsSince_append g _ _ h1, hclear, ?_,
      stereoDrawCalls_noclear a.1 a.2 st⟩
    intro c hc
    simp only [eyeClearCalls, List.mem_append, List.mem_cons, List.mem_singleton,
      List.not_mem_nil, or_false] at hc
    rcases hc with hc | hc <;> rcases hc with h | h | h | h | h | h | h | h <;>
      (subst h; rfl)
  · intro rt
    rw [hall, callsSince_append _ _ _ hrest]
    exact flatMap_noclear rest st rt

theorem drawVertexes_clears_once_witness :
    stereo3dsIsEnabled stateStereoOn = true ∧
    stereo3dsAreTargetsCreated stateStereoOn = true ∧
    (GpuState.initial true).g_stereoClearedThisFrame = false ∧
    clearedTargets (GpuState.initial true).renderTarget
        (callsSince (GpuState.initial true)
          (drawVertexesCalls [(false, 0), (true, 1)] stateStereoOn (GpuState.initial true)))
      = [.texture stateStereoOn.stereoLeftEyeTarget stateStereoOn.stereoLeftEyeDepth,
         .texture stateStereoOn.stereoRightEyeTarget stateStereoOn.stereoRightEyeDepth] :=
  ⟨rfl, rfl, rfl,
   (drawVertexes_clears_once stateStereoOn (GpuState.initial true) (false, 0) [(true, 1)]
      rfl rfl rfl).1⟩

/-! ## Vertex emission -/

theorem toInt16_of_inRange (n : ℤ) (h : -32768 ≤ n ∧ n < 32768) : toInt16 n = n := by
  unfold toInt16
  omega

/-- C19: mono emission is unmodified. With `stereo3dsIsEnabled` false,
`gpu3dsAddTileVertexes` appends the primitive once to the mono buffer with `x0` and `x1`
as given (the two vertices `(x0, y0, data; tx0, ty0)` and `(x1, y1, data; tx1, ty1)` to
`tileVertexes` with a geometry shader, the six vertices of the quad to `quadVertexes`
without), for every table and layer index, and changes nothing else, so the per-eye
buffers keep their contents; `gpu3dsAddMode7LineVertexes` does the same with
`mode7LineVertexes`. A stored coordinate within the `int16` range is the argument itself. -/
theorem mono_emission_unmodified (settings3DS : S9xSettings3DS)
    (x0 y0 x1 y1 tx0 ty0 tx1 ty1 data : ℤ) (ftx0 fty0 ftx1 fty1 : ℚ)
    (st : StereoState) (g : GpuState) (h : stereo3dsIsEnabled st = false) :
    (gpu3dsAddTileVertexes x0 y0 x1 y1 tx0 ty0 tx1 ty1 data st g
      = if g.isReal3DS then
          { g with GPU3DSExt := { g.GPU3DSExt with
              tileVertexes := g.GPU3DSExt.tileVertexes ++
                [tileVertex x0 y0 data tx0 ty0, tileVertex x1 y1 data tx1 ty1] } }
        else
          { g with GPU3DSExt := { g.GPU3DSExt with
              quadVertexes := g.GPU3DSExt.quadVertexes ++
                quadVertices x0 y0 x1 y1 tx0 ty0 tx1 ty1 data } }) ∧
    (g.isReal3DS = true →
      (gpu3dsAddTileVertexes x0 y0 x1 y1 tx0 ty0 tx1 ty1 data st g).GPU3DSExt.tileVertexes
          = g.GPU3DSExt.tileVertexes ++
            [tileVertex x0 y0 data tx0 ty0, tileVertex x1 y1 data tx1 ty1] ∧
      (gpu3dsAddTileVertexes x0 y0 x1 y1 tx0 ty0 tx1 ty1 data st
          g).GPU3DSExt.tileVertexes.length = g.GPU3DSExt.tileVertexes.length + 2) ∧
    (gpu3dsAddTileVertexes x0 y0 x1 y1 tx0 ty0 tx1 ty1 data st g).GPU3DSExt.stereoTileVertexes
      = g.GPU3DSExt.stereoTileVertexes ∧
    (gpu3dsAddTileVertexes x0 y0 x1 y1 tx0 ty0 tx1 ty1 data st g).GPU3DSExt.stereoQuadVertexes
      = g.GPU3DSExt.stereoQuadVertexes ∧
    (-32768 ≤ x0 ∧ x0 < 32768 → (tileVertex x0 y0 data tx0 ty0).Position.x = x0) ∧
    (-32768 ≤ x1 ∧ x1 < 32768 → (tileVertex x1 y1 data tx1 ty1).Position.x = x1) ∧
    gpu3dsAddMode7LineVertexes settings3DS x0 y0 x1 y1 ftx0 fty0 ftx1 fty1 st g
      = { g with GPU3DSExt := { g.GPU3DSExt with
            mode7LineVertexes := g.GPU3DSExt.mode7LineVertexes ++
              mode7LineVertices g.isReal3DS x0 y0 x1 y1 ftx0 fty0 ftx1 fty1 } } ∧
    (gpu3dsAddMode7LineVertexes settings3DS x0 y0 x1 y1 ftx0 fty0 ftx1 fty1 st
        g).GPU3DSExt.stereoMode7LineVertexes = g.GPU3DSExt.stereoMode7LineVertexes ∧
    (-32768 ≤ x0 ∧ x0 < 32768 → (mode7LineVertex x0 y0 ftx0 fty0).Position.x = x0) ∧
    (-32768 ≤ x1 ∧ x1 < 32768 → (mode7LineVertex x1 y0 ftx1 fty1).Position.x = x1) := by
  refine ⟨?_, ?_, ?_, ?_, ?_, ?_, ?_, ?_, ?_, ?_⟩
  · simp [gpu3dsAddTileVertexes, h]
  · intro hr
    simp [gpu3dsAddTileVertexes, h, hr]
  · unfold gpu3dsAddTileVertexes
    simp only [h, Bool.false_eq_true, if_false]
    split_ifs <;> rfl
  · unfold gpu3dsAddTileVertexes
    simp only [h, Bool.false_eq_true, if_false]
    split_ifs <;> rfl
  · intro hx
    exact toInt16_of_inRange x0 hx
  · intro hx
    exact toInt16_of_inRange x1 hx
  · simp [gpu3dsAddMode7LineVertexes, h]
  · simp [gpu3dsAddMode7LineVertexes, h]
  · intro hx
    exact toInt16_of_inRange x0 hx
  · intro hx
    exact toInt16_of_inRange x1 hx

theorem mono_emission_unmodified_witness :
    stereo3dsIsEnabled stateAllSeven = false ∧
    (gpu3dsAddTileVertexes 8 16 16 24 0 0 8 8 3 stateAllSeven
        (GpuState.initial true)).GPU3DSExt.tileVertexes
      = (GpuState.initial true).GPU3DSExt.tileVertexes ++
          [tileVertex 8 16 3 0 0, tileVertex 16 24 3 8 8] ∧
    (gpu3dsAddTileVertexes 8 16 16 24 0 0 8 8 3 stateAllSeven
        (GpuState.initial true)).GPU3DSExt.stereoTileVertexes
      = (GpuState.initial true).GPU3DSExt.stereoTileVertexes :=
  ⟨rfl,
   ((mono_emission_unmodified (MockSettings.toSettings testSettings) 8 16 16 24 0 0 8 8 3
      0 0 8 8 stateAllSeven (GpuState.initial true) rfl).2.1 rfl).1,
   (mono_emission_unmodified (MockSettings.toSettings testSettings) 8 16 16 24 0 0 8 8 3
      0 0 8 8 stateAllSeven (GpuState.initial true) rfl).2.2.1⟩

theorem layerOffsetAt_inRange (t : OffsetTable) (e : Fin 2) (L : ℤ)
    (hL : 0 ≤ L ∧ L < 5) :
    layerOffsetAt t e L = some (t e ⟨L.toNat, by omega⟩) := by
  unfold layerOffsetAt
  rw [dif_pos hL]

theorem truncToInt_toward_zero (f : ℚ) :
    |(truncToInt f : ℚ)| ≤ |f| ∧ |f - (truncToInt f : ℚ)| < 1 ∧
    (0 ≤ f → truncToInt f = ⌊f⌋) ∧ (f ≤ 0 → truncToInt f = ⌈f⌉) := by
  unfold truncToInt
  by_cases h : 0 ≤ f
  · have h1 : ((⌊f⌋ : ℤ) : ℚ) ≤ f := Int.floor_le f
    have h2 : f < (⌊f⌋ : ℚ) + 1 := Int.lt_floor_add_one f
    have h3 : (0 : ℚ) ≤ ((⌊f⌋ : ℤ) : ℚ) := by exact_mod_cast Int.floor_nonneg.2 h
    rw [if_pos h]
    refine ⟨?_, ?_, fun _ => rfl, ?_⟩
    · rw [abs_of_nonneg h3, abs_of_nonneg h]
      exact h1
    · rw [abs_lt]
      constructor <;> linarith
    · intro hle
      have h0 : f = 0 := le_antisymm hle h
      subst h0
      simp
  · have hneg : f < 0 := lt_of_not_ge h
    have h1 : f ≤ ((⌈f⌉ : ℤ) : ℚ) := Int.le_ceil f
    have h2 : ((⌈f⌉ : ℤ) : ℚ) < f + 1 := Int.ceil_lt_add_one f
    have h3 : ((⌈f⌉ : ℤ) : ℚ) ≤ 0 := by
      have : ⌈f⌉ ≤ 0 := Int.ceil_le.2 (by simpa using hneg.le)
      exact_mod_cast this
    rw [if_neg h]
    refine ⟨?_, ?_, fun h0 => absurd h0 h, fun _ => rfl⟩
    · rw [abs_of_nonpos h3, abs_of_neg hneg]
      linarith
    · rw [abs_lt]
      constructor <;> linarith

theorem layerOffsetAt_fin (t : OffsetTable) (e : Fin 2) (L : Fin 5) :
    layerOffsetAt t e (L.val : ℤ) = some (t e L) := by
  rw [layerOffsetAt_inRange t e (L.val : ℤ) ⟨by omega, by omega⟩]
  simp

theorem addTileVertexesEye_real (x0 y0 x1 y1 tx0 ty0 tx1 ty1 data : ℤ)
    (st : StereoState) (g : GpuState) (L : Fin 5) (e : Fin 2)
    (hL : g.g_currentLayerIndex = (L.val : ℤ)) (hr : g.isReal3DS = true) :
    addTileVertexesEye x0 y0 x1 y1 tx0 ty0 tx1 ty1 data st g e
      = { g with GPU3DSExt := { g.GPU3DSExt with
            stereoTileVertexes := Function.update g.GPU3DSExt.stereoTileVertexes e
              (g.GPU3DSExt.stereoTileVertexes e ++
                [tileVertex (x0 + eyeShift st e L) y0 data tx0 ty0,
                 tileVertex (x1 + eyeShift st e L) y1 data tx1 ty1]) } } := by
  unfold addTileVertexesEye
  rw [hL, layerOffsetAt_fin]
  simp [hr, eyeShift]

theorem addTileVertexesEye_quad (x0 y0 x1 y1 tx0 ty0 tx1 ty1 data : ℤ)
    (st : StereoState) (g : GpuState) (L : Fin 5) (e : Fin 2)
    (hL : g.g_currentLayerIndex = (L.val : ℤ)) (hr : g.isReal3DS = false) :
    addTileVertexesEye x0 y0 x1 y1 tx0 ty0 tx1 ty1 data st g e
      = { g with GPU3DSExt := { g.GPU3DSExt with
            stereoQuadVertexes := Function.update g.GPU3DSExt.stereoQuadVertexes e
              (g.GPU3DSExt.stereoQuadVertexes e ++
                quadVertices (x0 + eyeShift st e L) y0 (x1 + eyeShift st e L) y1
                  tx0 ty0 tx1 ty1 data) } } := by
  unfold addTileVertexesEye
  rw [hL, layerOffsetAt_fin]
  simp [hr, eyeShift]

theorem addTileVertexes_stereo (x0 y0 x1 y1 tx0 ty0 tx1 ty1 data : ℤ)
    (st : StereoState) (g : GpuState) (L : Fin 5)
    (he : stereo3dsIsEnabled st = true) (hL : g.g_currentLayerIndex = (L.val : ℤ)) :
    gpu3dsAddTileVertexes x0 y0 x1 y1 tx0 ty0 tx1 ty1 data st g
      = if g.isReal3DS then
          { g with GPU3DSExt := { g.GPU3DSExt with
              stereoTileVertexes := fun e => g.GPU3DSExt.stereoTileVertexes e ++
                [tileVertex (x0 + eyeShift st e L) y0 data tx0 ty0,
                 tileVertex (x1 + eyeShift st e L) y1 data tx1 ty1] } }
        else
          { g with GPU3DSExt := { g.GPU3DSExt with
              stereoQuadVertexes := fun e => g.GPU3DSExt.stereoQuadVertexes e ++
                quadVertices (x0 + eyeShift st e L) y0 (x1 + eyeShift st e L) y1
                  tx0 ty0 tx1 ty1 data } } := by
  unfold gpu3dsAddTileVertexes
  rw [finRange_two]
  simp only [he, if_true, List.foldl]
  by_cases hr : g.isReal3DS = true
  · rw [if_pos hr, addTileVertexesEye_real x0 y0 x1 y1 tx0 ty0 tx1 ty1 data st g L 0 hL hr,
      addTileVertexesEye_real x0 y0 x1 y1 tx0 ty0 tx1 ty1 data st _ L 1 ?_ ?_]
    · dsimp only
      congr 2
      funext e
      fin_cases e <;> simp [Function.update]
    · exact hL
    · exact hr
  · have hr2 : g.isReal3DS = false := by simpa using hr
    rw [if_neg hr, addTileVertexesEye_quad x0 y0 x1 y1 tx0 ty0 tx1 ty1 data st g L 0 hL hr2,
      addTileVertexesEye_quad x0 y0 x1 y1 tx0 ty0 tx1 ty1 data st _ L 1 ?_ ?_]
    · dsimp only
      congr 2
      funext e
      fin_cases e <;> simp [Function.update]
    · exact hL
    · exact hr2
/-- C20: stereo tile emission. With `stereo3dsIsEnabled` true and `g_currentLayerIndex`
a layer `L` in 0..4, `gpu3dsAddTileVertexes` appends for each eye `e` one copy of the
primitive to that eye's buffer (`stereoTileVertexes[e]` with a geometry shader,
`stereoQuadVertexes[e]` without) whose X coordinates are `x0 + k` and `x1 + k` with
`k = eyeShift st e L`, the table entry truncated toward zero; `y0`, `y1`, the texture
coordinates and the data word are those of the mono primitive; both eyes grow by the
same count; the mono tile and quad buffers are unchanged and no read is out of bounds. -/
theorem stereo_tile_emission (x0 y0 x1 y1 tx0 ty0 tx1 ty1 data : ℤ)
    (st : StereoState) (g : GpuState) (L : Fin 5)
    (he : stereo3dsIsEnabled st = true) (hL : g.g_currentLayerIndex = (L.val : ℤ)) :
    (∀ e : Fin 2,
      (g.isReal3DS = true →
        (gpu3dsAddTileVertexes x0 y0 x1 y1 tx0 ty0 tx1 ty1 data st
            g).GPU3DSExt.stereoTileVertexes e
          = g.GPU3DSExt.stereoTileVertexes e ++
              [tileVertex (x0 + eyeShift st e L) y0 data tx0 ty0,
               tileVertex (x1 + eyeShift st e L) y1 data tx1 ty1] ∧
        (gpu3dsAddTileVertexes x0 y0 x1 y1 tx0 ty0 tx1 ty1 data st
            g).GPU3DSExt.stereoQuadVertexes e = g.GPU3DSExt.stereoQuadVertexes e) ∧
      (g.isReal3DS = false →
        (gpu3dsAddTileVertexes x0 y0 x1 y1 tx0 ty0 tx1 ty1 data st
            g).GPU3DSExt.stereoQuadVertexes e
          = g.GPU3DSExt.stereoQuadVertexes e ++
              quadVertices (x0 + eyeShift st e L) y0 (x1 + eyeShift st e L) y1
                tx0 ty0 tx1 ty1 data ∧
        (gpu3dsAddTileVertexes x0 y0 x1 y1 tx0 ty0 tx1 ty1 data st
            g).GPU3DSExt.stereoTileVertexes e = g.GPU3DSExt.stereoTileVertexes e) ∧
      ((gpu3dsAddTileVertexes x0 y0 x1 y1 tx0 ty0 tx1 ty1 data st
            g).GPU3DSExt.stereoTileVertexes e).length
          = (g.GPU3DSExt.stereoTileVertexes e).length + (if g.isReal3DS then 2 else 0) ∧
      ((gpu3dsAddTileVertexes x0 y0 x1 y1 tx0 ty0 tx1 ty1 data st
            g).GPU3DSExt.stereoQuadVertexes e).length
          = (g.GPU3DSExt.stereoQuadVertexes e).length + (if g.isReal3DS then 0 else 6)) ∧
    (gpu3dsAddTileVertexes x0 y0 x1 y1 tx0 ty0 tx1 ty1 data st g).GPU3DSExt.tileVertexes
      = g.GPU3DSExt.tileVertexes ∧
    (gpu3dsAddTileVertexes x0 y0 x1 y1 tx0 ty0 tx1 ty1 data st g).GPU3DSExt.quadVertexes
      = g.GPU3DSExt.quadVertexes ∧
    (gpu3dsAddTileVertexes x0 y0 x1 y1 tx0 ty0 tx1 ty1 data st g).outOfBounds
      = g.outOfBounds ∧
    (∀ e : Fin 2,
      |(eyeShift st e L : ℚ)| ≤ |st.g_stereoLayerOffsets e L| ∧
      |st.g_stereoLayerOffsets e L - (eyeShift st e L : ℚ)| < 1 ∧
      (0 ≤ st.g_stereoLayerOffsets e L → eyeShift st e L = ⌊st.g_stereoLayerOffsets e L⌋) ∧
      (st.g_stereoLayerOffsets e L ≤ 0 → eyeShift st e L = ⌈st.g_stereoLayerOffsets e L⌉)) ∧
    (∀ e : Fin 2, (x1 + eyeShift st e L) - (x0 + eyeShift st e L) = x1 - x0) ∧
    (∀ k x y tx ty : ℤ,
      (tileVertex (x + k) y data tx ty).Position.y = (tileVertex x y data tx ty).Position.y ∧
      (tileVertex (x + k) y data tx ty).Position.z = (tileVertex x y data tx ty).Position.z ∧
      (tileVertex (x + k) y data tx ty).TexCoord = (tileVertex x y data tx ty).TexCoord ∧
      (-32768 ≤ x + k ∧ x + k < 32768 →
        (tileVertex (x + k) y data tx ty).Position.x = x + k)) := by
  have hG := addTileVertexes_stereo x0 y0 x1 y1 tx0 ty0 tx1 ty1 data st g L he hL
  refine ⟨?_, ?_, ?_, ?_, ?_, ?_, ?_⟩
  · intro e
    by_cases hr : g.isReal3DS = true
    · rw [hG, if_pos hr]
      simp [hr]
    · have hr2 : g.isReal3DS = false := by simpa using hr
      rw [hG, if_neg hr]
      simp [hr2, quadVertices]
  · rw [hG]
    split_ifs <;> rfl
  · rw [hG]
    split_ifs <;> rfl
  · rw [hG]
    split_ifs <;> rfl
  · intro e
    exact truncToInt_toward_zero (st.g_stereoLayerOffsets e L)
  · intro e
    ring
  · intro k x y tx ty
    exact ⟨rfl, rfl, rfl, fun h => toInt16_of_inRange (x + k) h⟩

theorem stereo_tile_emission_witness :
    stereo3dsIsEnabled stateShifted = true ∧
    gpuLayerTwo.g_currentLayerIndex = (((2 : Fin 5).val : ℕ) : ℤ) ∧
    (gpu3dsAddTileVertexes 8 16 16 24 0 0 8 8 3 stateShifted
        gpuLayerTwo).GPU3DSExt.stereoTileVertexes 0
      = gpuLayerTwo.GPU3DSExt.stereoTileVertexes 0 ++
          [tileVertex (8 + eyeShift stateShifted 0 2) 16 3 0 0,
           tileVertex (16 + eyeShift stateShifted 0 2) 24 3 8 8] ∧
    (gpu3dsAddTileVertexes 8 16 16 24 0 0 8 8 3 stateShifted
        gpuLayerTwo).GPU3DSExt.tileVertexes = gpuLayerTwo.GPU3DSExt.tileVertexes :=
  ⟨rfl, rfl,
   (((stereo_tile_emission 8 16 16 24 0 0 8 8 3 stateShifted gpuLayerTwo 2 rfl rfl).1
      0).1 rfl).1,
   (stereo_tile_emission 8 16 16 24 0 0 8 8 3 stateShifted gpuLayerTwo 2 rfl rfl).2.1⟩

theorem eyeShift_stateShifted :
    eyeShift stateShifted 0 2 = -2 ∧ eyeShift stateShifted 1 2 = 2 := by
  constructor
  · show truncToInt (-5 / 2) = -2
    unfold truncToInt
    rw [if_neg (by norm_num)]
    rw [Int.ceil_eq_iff]
    norm_num
  · show truncToInt (5 / 2) = 2
    unfold truncToInt
    rw [if_pos (by norm_num)]
    rw [Int.floor_eq_iff]
    norm_num

/-! ## The stereo module across a frame -/

/-- The function `stereo3dsDestroyRenderTargets` writes the handles, video memory and
`stereoDepthShared` only. -/
theorem destroy_keeps (st : StereoState) :
    (stereo3dsDestroyRenderTargets st).sliderZeroFrames = st.sliderZeroFrames ∧
    (stereo3dsDestroyRenderTargets st).stereoInitialized = st.stereoInitialized ∧
    (stereo3dsDestroyRenderTargets st).stereoConfig = st.stereoConfig := by
  unfold stereo3dsDestroyRenderTargets
  rcases h1 : st.stereoLeftEyeTarget with _ | a <;>
  rcases h2 : st.stereoRightEyeTarget with _ | b <;>
  rcases h3 : st.stereoLeftEyeDepth with _ | c <;>
  rcases h4 : st.stereoRightEyeDepth with _ | d <;>
  simp [h1, h2, h3, h4]

theorem create_keeps (st : StereoState) :
    (stereo3dsCreateRenderTargets st).2.sliderZeroFrames = st.sliderZeroFrames ∧
    (stereo3dsCreateRenderTargets st).2.stereoInitialized = st.stereoInitialized ∧
    (stereo3dsCreateRenderTargets st).2.stereoConfig = st.stereoConfig := by
  unfold stereo3dsCreateRenderTargets
  simp only
  split
  · simp [destroy_keeps]
  · split
    · simp [destroy_keeps]
    · split
      · simp [destroy_keeps]
      · split <;> simp [destroy_keeps]

theorem ensure_keeps (st : StereoState) :
    (stereo3dsEnsureTargetsCreated st).2.sliderZeroFrames = st.sliderZeroFrames ∧
    (stereo3dsEnsureTargetsCreated st).2.stereoInitialized = st.stereoInitialized ∧
    (stereo3dsEnsureTargetsCreated st).2.stereoConfig = st.stereoConfig := by
  have hc := create_keeps st
  unfold stereo3dsEnsureTargetsCreated
  split_ifs
  · exact ⟨rfl, rfl, rfl⟩
  · rcases hcr : stereo3dsCreateRenderTargets st with ⟨b, st2⟩
    rw [hcr] at hc
    cases b <;> exact hc

theorem transfer_stereo (m : Machine) :
    (stereo3dsTransferToScreenBuffers m).2.stereo
      = (stereo3dsEnsureTargetsCreated m.stereo).2 := by
  unfold stereo3dsTransferToScreenBuffers
  rcases hcr : stereo3dsEnsureTargetsCreated m.stereo with ⟨b, st2⟩
  cases b
  · rfl
  · simp only
    split <;> rfl

/-- The stereo module after the transfer step of a frame. -/
theorem frameTransfer_stereo (inp : FrameInput) (a : Bool) (m : Machine) :
    (frameTransfer inp a m).stereo
      = if (!inp.firstFrame && (a && stereo3dsIsEnabled m.stereo)) = true then
          (stereo3dsEnsureTargetsCreated m.stereo).2
        else m.stereo := by
  have ht := transfer_stereo m
  unfold frameTransfer
  cases hf : inp.firstFrame
  · cases hc : (a && stereo3dsIsEnabled m.stereo)
    · simp
    · simp only [Bool.not_false, Bool.true_and, if_true]
      rcases hT : stereo3dsTransferToScreenBuffers m with ⟨b, m2⟩
      rw [hT] at ht
      cases b <;> exact ht
  · simp

theorem frameSetup_eq (inp : FrameInput) (m : Machine) :
    frameSetup inp m
      = if (!inp.emulating) = true then (frameStereoActive inp, frameLogged inp m)
        else if (frameStereoActive inp && stereo3dsIsEnabled (frameOffsets inp m).stereo)
            = true then
          match stereo3dsEnsureTargetsCreated (frameOffsets inp m).stereo with
          | (true, st) => (frameStereoActive inp, { frameOffsets inp m with stereo := st })
          | (false, st) =>
            (false, stereo3dsSetEnabled false { frameOffsets inp m with stereo := st })
        else (frameStereoActive inp, frameOffsets inp m) := rfl

theorem update_keeps (settings3DS : S9xSettings3DS) (s : ℚ) (st : StereoState) :
    stereo3dsUpdateLayerOffsetsFromSlider settings3DS s st
      = { st with
          currentSliderValue := s
          g_stereoLayerOffsets :=
            (stereo3dsUpdateLayerOffsetsFromSlider settings3DS s st).g_stereoLayerOffsets } := by
  unfold stereo3dsUpdateLayerOffsetsFromSlider
  split_ifs <;> rfl

/-- After the setup of an emulated frame, stereo that is still active and enabled has
its eye surfaces. -/
theorem frameSetup_active_present (inp : FrameInput) (m : Machine)
    (he : inp.emulating = true) (h1 : (frameSetup inp m).1 = true)
    (h2 : stereo3dsIsEnabled (frameSetup inp m).2.stereo = true) :
    stereo3dsAreTargetsCreated (frameSetup inp m).2.stereo = true := by
  rw [frameSetup_eq] at h1 h2 ⊢
  simp only [he, Bool.not_true, Bool.false_eq_true, if_false] at h1 h2 ⊢
  by_cases hc : (frameStereoActive inp && stereo3dsIsEnabled (frameOffsets inp m).stereo)
      = true
  · rw [if_pos hc] at h1 h2 ⊢
    have hr := ensure_result_present (frameOffsets inp m).stereo
    rcases hcr : stereo3dsEnsureTargetsCreated (frameOffsets inp m).stereo with ⟨b, st2⟩
    rw [hcr] at h1 h2 hr
    cases b
    · simp at h1
    · exact hr.symm
  · rw [if_neg hc] at h1 h2
    simp only at h1 h2
    rw [h1, h2] at hc
    exact absurd rfl hc

/-- The stereo module after a frame is the one the setup of the frame leaves: the
transfer step finds the surfaces present whenever it runs. -/
theorem impl_stereo_eq (inp : FrameInput) (m : Machine) :
    (impl3dsRunOneFrame inp m).stereo = (frameSetup inp m).2.stereo := by
  have hp := frameSetup_active_present inp m
  unfold impl3dsRunOneFrame
  rcases hfs : frameSetup inp m with ⟨a, m1⟩
  rw [hfs] at hp
  simp only at hp ⊢
  cases he : inp.emulating
  · rfl
  · simp only [Bool.not_true, Bool.false_eq_true, if_false]
    show (frameTransfer inp a _).stereo = m1.stereo
    rw [frameTransfer_stereo]
    dsimp only
    by_cases hc : (!inp.firstFrame && (a && stereo3dsIsEnabled m1.stereo)) = true
    · rw [if_pos hc]
      simp only [Bool.and_eq_true] at hc
      rw [ensure_of_present m1.stereo (hp he hc.2.1 hc.2.2)]
    · rw [if_neg hc]

theorem log_keeps (e : ℚ) (a : Bool) (st : StereoState) :
    (stereo3dsLogFrameUpdate e a st).stereoInitialized = st.stereoInitialized ∧
    (stereo3dsLogFrameUpdate e a st).stereoConfig = st.stereoConfig := by
  unfold stereo3dsLogFrameUpdate
  simp only
  split_ifs <;> simp [destroy_keeps]

/-- A frame with stereo active resets the idle counter and keeps the handles and video
memory. -/
theorem log_active_fields (e : ℚ) (st : StereoState) :
    (stereo3dsLogFrameUpdate e true st).sliderZeroFrames = 0 ∧
    (stereo3dsLogFrameUpdate e true st).stereoLeftEyeTarget = st.stereoLeftEyeTarget ∧
    (stereo3dsLogFrameUpdate e true st).stereoRightEyeTarget = st.stereoRightEyeTarget ∧
    (stereo3dsLogFrameUpdate e true st).stereoLeftEyeDepth = st.stereoLeftEyeDepth ∧
    (stereo3dsLogFrameUpdate e true st).stereoRightEyeDepth = st.stereoRightEyeDepth ∧
    (stereo3dsLogFrameUpdate e true st).vram = st.vram := by
  unfold stereo3dsLogFrameUpdate
  simp only [if_true]
  split_ifs <;> exact ⟨trivial, rfl, rfl, rfl, rfl, rfl⟩

theorem frameLogged_stereo (inp : FrameInput) (m : Machine) :
    (frameLogged inp m).stereo
      = stereo3dsLogFrameUpdate (effectiveDepth inp) (frameStereoActive inp)
          { m.stereo with stereoConfig := { enabled := frameStereoActive inp } } := rfl

/-- The stereo module after a frame with stereo active: the idle counter is zero. -/
theorem frame_active (inp : FrameInput) (m : Machine) (hA : frameStereoActive inp = true) :
    (impl3dsRunOneFrame inp m).stereo.sliderZeroFrames = 0 ∧
    (impl3dsRunOneFrame inp m).stereo.stereoInitialized = m.stereo.stereoInitialized := by
  have hl : (frameLogged inp m).stereo.sliderZeroFrames = 0 ∧
      (frameLogged inp m).stereo.stereoInitialized = m.stereo.stereoInitialized := by
    rw [frameLogged_stereo, hA]
    exact ⟨(log_active_fields _ _).1, (log_keeps _ _ _).1⟩
  have ho : (frameOffsets inp m).stereo.sliderZeroFrames = 0 ∧
      (frameOffsets inp m).stereo.stereoInitialized = m.stereo.stereoInitialized := by
    constructor
    · show (stereo3dsUpdateLayerOffsetsFromSlider _ _ _).sliderZeroFrames = _
      rw [update_keeps]
      exact hl.1
    · show (stereo3dsUpdateLayerOffsetsFromSlider _ _ _).stereoInitialized = _
      rw [update_keeps]
      exact hl.2
  have hk := ensure_keeps (frameOffsets inp m).stereo
  rw [impl_stereo_eq, frameSetup_eq]
  split_ifs
  · exact hl
  · rcases hcr : stereo3dsEnsureTargetsCreated (frameOffsets inp m).stereo with ⟨b, st2⟩
    rw [hcr] at hk
    cases b
    · exact ⟨hk.1.trans ho.1, hk.2.1.trans ho.2⟩
    · exact ⟨hk.1.trans ho.1, hk.2.1.trans ho.2⟩
  · exact ho

/-! ## The lifetime of the eye surfaces in the frame loop -/

/-- The handles and video memory at the lazy allocation of an active frame are those at
the start of the frame, and stereo is enabled there when the module is initialised. -/
theorem frameOffsets_active (inp : FrameInput) (m : Machine)
    (hA : frameStereoActive inp = true) :
    (frameOffsets inp m).stereo.stereoLeftEyeTarget = m.stereo.stereoLeftEyeTarget ∧
    (frameOffsets inp m).stereo.stereoRightEyeTarget = m.stereo.stereoRightEyeTarget ∧
    (frameOffsets inp m).stereo.stereoLeftEyeDepth = m.stereo.stereoLeftEyeDepth ∧
    (frameOffsets inp m).stereo.stereoRightEyeDepth = m.stereo.stereoRightEyeDepth ∧
    (frameOffsets inp m).stereo.vram = m.stereo.vram ∧
    stereo3dsIsEnabled (frameOffsets inp m).stereo = m.stereo.stereoInitialized := by
  have hl := log_active_fields (effectiveDepth inp)
    { m.stereo with stereoConfig := { enabled := frameStereoActive inp } }
  have hk := log_keeps (effectiveDepth inp) true
    { m.stereo with stereoConfig := { enabled := frameStereoActive inp } }
  have ho : (frameOffsets inp m).stereo
      = stereo3dsUpdateLayerOffsetsFromSlider inp.settings3DS (effectiveDepth inp)
          (stereo3dsLogFrameUpdate (effectiveDepth inp) true
            { m.stereo with stereoConfig := { enabled := frameStereoActive inp } }) := by
    show stereo3dsUpdateLayerOffsetsFromSlider _ _ (frameLogged inp m).stereo = _
    rw [frameLogged_stereo, hA]
  rw [ho, update_keeps]
  refine ⟨hl.2.1, hl.2.2.1, hl.2.2.2.1, hl.2.2.2.2.1, hl.2.2.2.2.2, ?_⟩
  show ((stereo3dsLogFrameUpdate _ _ _).stereoConfig.enabled &&
    (stereo3dsLogFrameUpdate _ _ _).stereoInitialized) = _
  rw [hk.1, hk.2]
  simp [hA]

/-- After an active, emulated frame of the initialised module the eye surfaces are
present exactly when the lazy allocation of the frame succeeded. -/
theorem frame_active_emulated (inp : FrameInput) (m : Machine)
    (hA : frameStereoActive inp = true) (he : inp.emulating = true)
    (hi : m.stereo.stereoInitialized = true) :
    stereo3dsAreTargetsCreated (impl3dsRunOneFrame inp m).stereo
      = (stereo3dsEnsureTargetsCreated (frameOffsets inp m).stereo).1 := by
  have hen : stereo3dsIsEnabled (frameOffsets inp m).stereo = true := by
    rw [(frameOffsets_active inp m hA).2.2.2.2.2, hi]
  have hr := ensure_result_present (frameOffsets inp m).stereo
  rw [impl_stereo_eq, frameSetup_eq]
  simp only [he, hA, hen, Bool.not_true, Bool.false_eq_true, if_false, Bool.and_self, if_true]
  rcases hcr : stereo3dsEnsureTargetsCreated (frameOffsets inp m).stereo with ⟨b, st2⟩
  rw [hcr] at hr
  cases b
  · exact hr.symm
  · exact hr.symm

theorem ensure_fails (st : StereoState) (hp : stereo3dsAreTargetsCreated st = false)
    (hfail : ∃ k, k < 4 ∧ st.vram.allocOk (st.vram.allocCalls + k) = false) :
    (stereo3dsEnsureTargetsCreated st).1 = false := by
  obtain ⟨_, hr, _⟩ := create_fail_shape st hfail
  unfold stereo3dsEnsureTargetsCreated
  simp only [hp, Bool.false_eq_true, if_false]
  rcases hcr : stereo3dsCreateRenderTargets st with ⟨b, st2⟩
  rw [hcr] at hr
  cases b
  · rfl
  · simp at hr

/-- An active, emulated frame of the initialised module ends with the eye surfaces
present when they were present at its start or the four allocation requests succeed. -/
theorem frame_active_alloc_ok (inp : FrameInput) (m : Machine)
    (hA : frameStereoActive inp = true) (he : inp.emulating = true)
    (hi : m.stereo.stereoInitialized = true)
    (hok : stereo3dsAreTargetsCreated m.stereo = true ∨
      ∀ k, k < 4 → m.stereo.vram.allocOk (m.stereo.vram.allocCalls + k) = true) :
    stereo3dsAreTargetsCreated (impl3dsRunOneFrame inp m).stereo = true := by
  obtain ⟨a, b, c, d, hv, _⟩ := frameOffsets_active inp m hA
  rw [frame_active_emulated inp m hA he hi]
  rcases hok with hp | hok
  · have hp2 : stereo3dsAreTargetsCreated (frameOffsets inp m).stereo = true := by
      rw [areTargetsCreated_congr _ m.stereo a b c d]
      exact hp
    rw [ensure_of_present _ hp2]
  · apply ensure_of_absent_ok
    rw [hv]
    exact hok

theorem frameStereoOn_active :
    frameStereoActive frameStereoOn = true ∧ frameStereoActive frameNotEmulated = true ∧
    frameStereoActive frameFirst = true := by
  refine ⟨?_, ?_, ?_⟩ <;>
  · simp only [frameStereoActive, effectiveDepth, frameStereoOn, frameNotEmulated,
      frameFirst, MockSettings.toSettings, testSettings]
    norm_num

theorem frameSetup_flag (inp : FrameInput) (m : Machine) :
    (frameSetup inp m).2.gpu.g_stereoClearedThisFrame = m.gpu.g_stereoClearedThisFrame := by
  rw [frameSetup_eq]
  split_ifs
  · rfl
  · rcases hcr : stereo3dsEnsureTargetsCreated (frameOffsets inp m).stereo with ⟨b, st2⟩
    cases b <;> rfl
  · rfl

theorem drawRectangle_flag (x0 y0 x1 y1 depth : ℤ) (color : ℕ) (g : GpuState) :
    (gpu3dsDrawRectangle x0 y0 x1 y1 depth color g).g_stereoClearedThisFrame
      = g.g_stereoClearedThisFrame := by
  unfold gpu3dsDrawRectangle gpu3dsAddRectangleVertexes
  simp only
  split_ifs <;> rfl

theorem call_flag (g : GpuState) (c : GpuCall) :
    (g.call c).g_stereoClearedThisFrame = g.g_stereoClearedThisFrame := rfl

theorem setRenderTargetToTexture_flag (color depth : Option SGPUTexture) (g : GpuState) :
    (gpu3dsSetRenderTargetToTexture color depth g).g_stereoClearedThisFrame
      = g.g_stereoClearedThisFrame := rfl

theorem clearColorAndDepth_flag (w h : ℤ) (g : GpuState) :
    (gpu3dsClearColorAndDepth w h g).g_stereoClearedThisFrame
      = g.g_stereoClearedThisFrame := by
  unfold gpu3dsClearColorAndDepth
  simp only [call_flag, drawRectangle_flag]

theorem framePrepareTargets_flag (g : GpuState) :
    (framePrepareTargets g).g_stereoClearedThisFrame = g.g_stereoClearedThisFrame := by
  unfold framePrepareTargets gpu3dsSetRenderTargetToMainScreenTexture
    gpu3dsSetRenderTargetToSubScreenTexture
  simp only [call_flag, clearColorAndDepth_flag, setRenderTargetToTexture_flag]

theorem frameAtMainLoop_flag (inp : FrameInput) (m : Machine) :
    (frameAtMainLoop inp m).gpu.g_stereoClearedThisFrame = m.gpu.g_stereoClearedThisFrame := by
  show (framePrepareTargets _).g_stereoClearedThisFrame = _
  rw [framePrepareTargets_flag, frameSetup_flag]

theorem frameComposite_flag (inp : FrameInput) (st : StereoState) (g : GpuState) :
    (frameComposite inp true st g).g_stereoClearedThisFrame = g.g_stereoClearedThisFrame := by
  unfold frameComposite
  simp only [Bool.not_true, Bool.false_eq_true, if_false]
  split_ifs
  · simp only [call_flag, drawRectangle_flag]
  · simp only [call_flag]

/-- The setup of an active, emulated frame of the initialised module whose eye surfaces
are present or can be allocated leaves stereo active, enabled and with its surfaces. -/
theorem frameSetup_active_ok (inp : FrameInput) (m : Machine)
    (hA : frameStereoActive inp = true) (he : inp.emulating = true)
    (hi : m.stereo.stereoInitialized = true)
    (hok : stereo3dsAreTargetsCreated m.stereo = true ∨
      ∀ k, k < 4 → m.stereo.vram.allocOk (m.stereo.vram.allocCalls + k) = true) :
    (frameSetup inp m).1 = true ∧
    stereo3dsIsEnabled (frameSetup inp m).2.stereo = true ∧
    stereo3dsAreTargetsCreated (frameSetup inp m).2.stereo = true := by
  have hen : stereo3dsIsEnabled (frameOffsets inp m).stereo = true := by
    rw [(frameOffsets_active inp m hA).2.2.2.2.2, hi]
  have hp := frame_active_alloc_ok inp m hA he hi hok
  rw [frame_active_emulated inp m hA he hi] at hp
  have hr := ensure_result_present (frameOffsets inp m).stereo
  have hk := ensure_keeps (frameOffsets inp m).stereo
  rw [frameSetup_eq]
  simp only [he, hA, hen, Bool.not_true, Bool.false_eq_true, if_false, Bool.and_self, if_true]
  rcases hcr : stereo3dsEnsureTargetsCreated (frameOffsets inp m).stereo with ⟨b, st2⟩
  rw [hcr] at hp hr hk
  simp only at hp
  subst hp
  refine ⟨rfl, ?_, hr.symm⟩
  show (st2.stereoConfig.enabled && st2.stereoInitialized) = true
  rw [hk.2.1, hk.2.2]
  exact hen

/-- A first frame with stereo active whose emulator core calls `gpu3dsDrawVertexes`
ends with the clear flag set: the transfer that resets it is skipped. -/
theorem first_frame_leaves_flag (inp : FrameInput) (m : Machine) (r : Bool) (s : ℤ)
    (hA : frameStereoActive inp = true) (he : inp.emulating = true)
    (hz : inp.paused = false) (hf : inp.firstFrame = true)
    (hml : inp.mainLoop = [.drawVertexes r s])
    (hi : m.stereo.stereoInitialized = true)
    (hok : stereo3dsAreTargetsCreated m.stereo = true ∨
      ∀ k, k < 4 → m.stereo.vram.allocOk (m.stereo.vram.allocCalls + k) = true) :
    (impl3dsRunOneFrame inp m).gpu.g_stereoClearedThisFrame = true := by
  obtain ⟨h1, h2, h3⟩ := frameSetup_active_ok inp m hA he hi hok
  unfold impl3dsRunOneFrame
  rcases hfs : frameSetup inp m with ⟨a, m1⟩
  rw [hfs] at h1 h2 h3
  simp only at h1 h2 h3 ⊢
  subst h1
  simp only [he, hz, hml, Bool.not_true, Bool.not_false, Bool.false_eq_true, if_false,
    if_true, S9xMainLoop, List.foldl, runRenderOp]
  unfold frameTransfer
  simp only [hf, Bool.not_true, Bool.false_eq_true, if_false]
  show (frameComposite inp true m1.stereo _).g_stereoClearedThisFrame = true
  rw [frameComposite_flag]
  exact (drawVertexes_present r s m1.stereo _ h2 h3).2

/-- C18: the clear flag is not reset after a first frame. From the booted state, a first
frame with stereo active whose emulator core calls `gpu3dsDrawVertexes` ends with
`g_stereoClearedThisFrame` true, because the transfer that resets it is skipped; the
flag is still true when the first `gpu3dsDrawVertexes` call of the next frame begins,
and that call clears no eye surface. -/
theorem clear_flag_not_reset_after_first_frame :
    (impl3dsRunOneFrame frameFirst
        (Machine.booted vramAllOk true)).gpu.g_stereoClearedThisFrame = true ∧
    frameStereoOn.mainLoop = [.drawVertexes false 0] ∧
    (frameAtMainLoop frameStereoOn
        (impl3dsRunOneFrame frameFirst
          (Machine.booted vramAllOk true))).gpu.g_stereoClearedThisFrame = true ∧
    (∀ rt, clearedTargets rt
      (callsSince
        (frameAtMainLoop frameStereoOn
          (impl3dsRunOneFrame frameFirst (Machine.booted vramAllOk true))).gpu
        (gpu3dsDrawVertexes false 0
          (frameAtMainLoop frameStereoOn
            (impl3dsRunOneFrame frameFirst (Machine.booted vramAllOk true))).stereo
          (frameAtMainLoop frameStereoOn
            (impl3dsRunOneFrame frameFirst (Machine.booted vramAllOk true))).gpu)) = []) := by
  have hflag := first_frame_leaves_flag frameFirst (Machine.booted vramAllOk true) false 0
    frameStereoOn_active.2.2 rfl rfl rfl rfl rfl (Or.inr (fun _ _ => rfl))
  have hi : (impl3dsRunOneFrame frameFirst
      (Machine.booted vramAllOk true)).stereo.stereoInitialized = true :=
    (frame_active frameFirst _ frameStereoOn_active.2.2).2
  have hp : stereo3dsAreTargetsCreated (impl3dsRunOneFrame frameFirst
      (Machine.booted vramAllOk true)).stereo = true :=
    frame_active_alloc_ok frameFirst _ frameStereoOn_active.2.2 rfl rfl
      (Or.inr (fun _ _ => rfl))
  obtain ⟨_, h2, h3⟩ := frameSetup_active_ok frameStereoOn
    (impl3dsRunOneFrame frameFirst (Machine.booted vramAllOk true))
    frameStereoOn_active.1 rfl hi (Or.inl hp)
  have hflag2 := frameAtMainLoop_flag frameStereoOn
    (impl3dsRunOneFrame frameFirst (Machine.booted vramAllOk true))
  rw [hflag] at hflag2
  refine ⟨hflag, rfl, hflag2, ?_⟩
  intro rt
  have hd := (drawVertexes_present false 0
    (frameAtMainLoop frameStereoOn
      (impl3dsRunOneFrame frameFirst (Machine.booted vramAllOk true))).stereo
    (frameAtMainLoop frameStereoOn
      (impl3dsRunOneFrame frameFirst (Machine.booted vramAllOk true))).gpu h2 h3).1
  rw [hflag2] at hd
  simp only [if_true, List.nil_append] at hd
  rw [callsSince_append _ _ _ hd]
  exact stereoDrawCalls_noclear false 0 _ rt

/-! ## Rectangles, fallbacks and the right-eye skip in `gpu3dsDrawVertexes` -/

theorem eyeClearCalls_noPerEyeDraw (color depth : Option SGPUTexture) :
    ∀ c ∈ eyeClearCalls color depth, isPerEyeDraw c = false := by
  intro c hc
  simp only [eyeClearCalls, List.mem_cons, List.mem_singleton, List.not_mem_nil,
    or_false] at hc
  rcases hc with h | h | h | h | h | h | h | h <;> (subst h; rfl)

/-- C21: rectangles never get parallax. `gpu3dsAddRectangleVertexes`, which reads
neither the stereo module nor the offset table, appends its vertices (two with a
geometry shader, six without) to the mono list `rectangleVertexes` with `x0` and `x1`
as given and changes nothing else, so no per-eye list is touched; and
`gpu3dsDrawVertexes` with stereo enabled and the targets present draws, for each eye
it draws, that eye's quad list, then that eye's tile list, then the mono list
`rectangleVertexes`. -/
theorem rectangles_without_parallax (x0 y0 x1 y1 depth : ℤ) (color : ℕ) (r : Bool)
    (s : ℤ) (st : StereoState) (g : GpuState)
    (he : stereo3dsIsEnabled st = true) (hp : stereo3dsAreTargetsCreated st = true) :
    gpu3dsAddRectangleVertexes x0 y0 x1 y1 depth color g
      = { g with GPU3DSExt := { g.GPU3DSExt with
            rectangleVertexes := g.GPU3DSExt.rectangleVertexes ++
              (if g.isReal3DS then
                [vertexColor x0 y0 depth (swappedColor color),
                 vertexColor x1 y1 depth (swappedColor color)]
              else
                [vertexColor x0 y0 depth (swappedColor color),
                 vertexColor x1 y0 depth (swappedColor color),
                 vertexColor x0 y1 depth (swappedColor color),
                 vertexColor x1 y1 depth (swappedColor color),
                 vertexColor x1 y0 depth (swappedColor color),
                 vertexColor x0 y1 depth (swappedColor color)]) } } ∧
    (gpu3dsAddRectangleVertexes x0 y0 x1 y1 depth color g).GPU3DSExt.stereoQuadVertexes
      = g.GPU3DSExt.stereoQuadVertexes ∧
    (gpu3dsAddRectangleVertexes x0 y0 x1 y1 depth color g).GPU3DSExt.stereoTileVertexes
      = g.GPU3DSExt.stereoTileVertexes ∧
    (gpu3dsAddRectangleVertexes x0 y0 x1 y1 depth color g).GPU3DSExt.stereoMode7LineVertexes
      = g.GPU3DSExt.stereoMode7LineVertexes ∧
    (∀ x y : ℤ, -32768 ≤ x ∧ x < 32768 →
      (vertexColor x y depth (swappedColor color)).Position.x = x) ∧
    (∃ pre : List GpuCall,
      callsSince g (gpu3dsDrawVertexes r s st g)
        = pre ++ (eyeDrawCalls r s st 0 ++
            (if stereo3dsGetSliderValue st ≥ 1 / 100 then eyeDrawCalls r s st 1 else [])) ∧
      (∀ c ∈ pre, isPerEyeDraw c = false)) ∧
    (∀ e : Fin 2, ∃ bind : GpuCall,
      eyeDrawCalls r s st e
        = [bind, .enableAlphaBlending, .enableDepthTest,
           .drawVertexList (.stereoQuadVertexes e) .GPU_TRIANGLES r 0 s,
           .drawVertexList (.stereoTileVertexes e) .GPU_GEOMETRY_PRIM r 1 s,
           .drawVertexList .rectangleVertexes .GPU_GEOMETRY_PRIM r 2 s]) := by
  refine ⟨?_, ?_, ?_, ?_, ?_, ?_, ?_⟩
  · unfold gpu3dsAddRectangleVertexes
    simp only
    split_ifs <;> rfl
  · unfold gpu3dsAddRectangleVertexes
    simp only
    split_ifs <;> rfl
  · unfold gpu3dsAddRectangleVertexes
    simp only
    split_ifs <;> rfl
  · unfold gpu3dsAddRectangleVertexes
    simp only
    split_ifs <;> rfl
  · intro x y hx
    exact toInt16_of_inRange x hx
  · obtain ⟨h1, _⟩ := drawVertexes_present r s st g he hp
    refine ⟨_, callsSince_append g _ _ h1, ?_⟩
    intro c hc
    split_ifs at hc
    · simp at hc
    · rcases List.mem_append.mp hc with h | h
      · exact eyeClearCalls_noPerEyeDraw _ _ c h
      · exact eyeClearCalls_noPerEyeDraw _ _ c h
  · intro e
    exact ⟨_, rfl⟩

theorem rectangles_without_parallax_witness :
    stereo3dsIsEnabled stateStereoOn = true ∧
    stereo3dsAreTargetsCreated stateStereoOn = true ∧
    (gpu3dsAddRectangleVertexes 0 0 256 240 0 255
        (GpuState.initial true)).GPU3DSExt.stereoTileVertexes
      = (GpuState.initial true).GPU3DSExt.stereoTileVertexes ∧
    (∃ bind : GpuCall,
      eyeDrawCalls false 0 stateStereoOn 1
        = [bind, .enableAlphaBlending, .enableDepthTest,
           .drawVertexList (.stereoQuadVertexes 1) .GPU_TRIANGLES false 0 0,
           .drawVertexList (.stereoTileVertexes 1) .GPU_GEOMETRY_PRIM false 1 0,
           .drawVertexList .rectangleVertexes .GPU_GEOMETRY_PRIM false 2 0]) :=
  ⟨rfl, rfl,
   (rectangles_without_parallax 0 0 256 240 0 255 false 0 stateStereoOn
      (GpuState.initial true) rfl rfl).2.2.1,
   (rectangles_without_parallax 0 0 256 240 0 255 false 0 stateStereoOn
      (GpuState.initial true) rfl rfl).2.2.2.2.2.2 1⟩

theorem setActive_fail (eye : StereoEye) (st : StereoState) (g : GpuState)
    (h : (stereo3dsSetActiveRenderTarget eye st g).1 = false) :
    stereo3dsSetActiveRenderTarget eye st g = (false, g) := by
  unfold stereo3dsSetActiveRenderTarget at h ⊢
  cases eye <;> simp only at h ⊢ <;> split_ifs at h ⊢ <;> rfl

theorem drawMonoLists_calls (r : Bool) (s : ℤ) (g : GpuState) :
    drawMonoLists r s g
      = { g with calls := g.calls ++
          [.drawVertexList .quadVertexes .GPU_TRIANGLES r 0 s,
           .drawVertexList .tileVertexes .GPU_GEOMETRY_PRIM r 1 s,
           .drawVertexList .rectangleVertexes .GPU_GEOMETRY_PRIM r 2 s] } := by
  simp [drawMonoLists, gpu3dsDrawVertexList, GpuState.call]

/-- C25: the fallbacks of `gpu3dsDrawVertexes` when eye surfaces are missing. With
stereo enabled and the eye surfaces absent, the call makes exactly the three draws of
the mono lists (quads, tiles, rectangles), in that order, to the draw destination bound
on entry: no bind, no clear, no draw of a per-eye list, and the clear flag and the
vertex lists are unchanged. In the per-eye loop, a failed bind of an eye's surfaces
binds the main screen surface, draws the three mono lists there only when the eye is
eye 0, and ends the loop: the eyes after it are not drawn. -/
theorem drawVertexes_missing_targets (r : Bool) (s : ℤ) (st : StereoState) (g : GpuState)
    (he : stereo3dsIsEnabled st = true) (hp : stereo3dsAreTargetsCreated st = false) :
    gpu3dsDrawVertexes r s st g
      = { g with calls := g.calls ++
          [.drawVertexList .quadVertexes .GPU_TRIANGLES r 0 s,
           .drawVertexList .tileVertexes .GPU_GEOMETRY_PRIM r 1 s,
           .drawVertexList .rectangleVertexes .GPU_GEOMETRY_PRIM r 2 s] } ∧
    callsSince g (gpu3dsDrawVertexes r s st g)
      = [.drawVertexList .quadVertexes .GPU_TRIANGLES r 0 s,
         .drawVertexList .tileVertexes .GPU_GEOMETRY_PRIM r 1 s,
         .drawVertexList .rectangleVertexes .GPU_GEOMETRY_PRIM r 2 s] ∧
    (gpu3dsDrawVertexes r s st g).renderTarget = g.renderTarget ∧
    (gpu3dsDrawVertexes r s st g).g_stereoClearedThisFrame = g.g_stereoClearedThisFrame ∧
    (∀ c ∈ callsSince g (gpu3dsDrawVertexes r s st g), isPerEyeDraw c = false) ∧
    clearedTargets g.renderTarget (callsSince g (gpu3dsDrawVertexes r s st g)) = [] ∧
    (∀ (st1 : StereoState) (g1 : GpuState) (eye : Fin 2) (rest : List (Fin 2)),
      (stereo3dsSetActiveRenderTarget
        (if eye = 0 then .STEREO_EYE_LEFT else .STEREO_EYE_RIGHT) st1 g1).1 = false →
      drawEyes r s st1 (eye :: rest) g1
        = (if eye = 0 then
            drawMonoLists r s (gpu3dsSetRenderTargetToMainScreenTexture g1)
          else gpu3dsSetRenderTargetToMainScreenTexture g1) ∧
      callsSince g1 (drawEyes r s st1 (eye :: rest) g1)
        = .setRenderTargetToTexture g1.snesMainScreenTarget g1.snesDepthForScreens ::
          (if eye = 0 then
            [.drawVertexList .quadVertexes .GPU_TRIANGLES r 0 s,
             .drawVertexList .tileVertexes .GPU_GEOMETRY_PRIM r 1 s,
             .drawVertexList .rectangleVertexes .GPU_GEOMETRY_PRIM r 2 s]
          else []) ∧
      (drawEyes r s st1 (eye :: rest) g1).renderTarget
        = .texture g1.snesMainScreenTarget g1.snesDepthForScreens) := by
  have hd : gpu3dsDrawVertexes r s st g = drawMonoLists r s g := by
    unfold gpu3dsDrawVertexes
    simp [he, hp]
  have hc : callsSince g (gpu3dsDrawVertexes r s st g)
      = [.drawVertexList .quadVertexes .GPU_TRIANGLES r 0 s,
         .drawVertexList .tileVertexes .GPU_GEOMETRY_PRIM r 1 s,
         .drawVertexList .rectangleVertexes .GPU_GEOMETRY_PRIM r 2 s] := by
    apply callsSince_append
    rw [hd, drawMonoLists_calls]
  refine ⟨?_, hc, ?_, ?_, ?_, ?_, ?_⟩
  · rw [hd, drawMonoLists_calls]
  · rw [hd, drawMonoLists_calls]
  · rw [hd, drawMonoLists_calls]
  · rw [hc]
    intro c h
    simp only [List.mem_cons, List.mem_singleton, List.not_mem_nil, or_false] at h
    rcases h with h | h | h <;> (subst h; rfl)
  · rw [hc]
    simp [clearedTargets]
  · intro st1 g1 eye rest hfail
    have hf := setActive_fail _ st1 g1 hfail
    have hde : drawEyes r s st1 (eye :: rest) g1
        = (if eye = 0 then
            drawMonoLists r s (gpu3dsSetRenderTargetToMainScreenTexture g1)
          else gpu3dsSetRenderTargetToMainScreenTexture g1) := by
      rw [drawEyes, hf]
    refine ⟨hde, ?_, ?_⟩
    · apply callsSince_append
      rw [hde]
      split_ifs
      · rw [drawMonoLists_calls]
        simp [gpu3dsSetRenderTargetToMainScreenTexture, gpu3dsSetRenderTargetToTexture,
          GpuState.call]
      · simp [gpu3dsSetRenderTargetToMainScreenTexture, gpu3dsSetRenderTargetToTexture,
          GpuState.call]
    · rw [hde]
      split_ifs
      · rw [drawMonoLists_calls]
        rfl
      · rfl

theorem drawVertexes_missing_targets_witness :
    stereo3dsIsEnabled (Machine.booted vramAllOk true).stereo = true ∧
    stereo3dsAreTargetsCreated (Machine.booted vramAllOk true).stereo = false ∧
    callsSince (GpuState.initial true)
        (gpu3dsDrawVertexes false 0 (Machine.booted vramAllOk true).stereo
          (GpuState.initial true))
      = [.drawVertexList .quadVertexes .GPU_TRIANGLES false 0 0,
         .drawVertexList .tileVertexes .GPU_GEOMETRY_PRIM false 1 0,
         .drawVertexList .rectangleVertexes .GPU_GEOMETRY_PRIM false 2 0] :=
  ⟨rfl, rfl,
   (drawVertexes_missing_targets false 0 (Machine.booted vramAllOk true).stereo
      (GpuState.initial true) rfl rfl).2.1⟩

theorem truncToInt_neg (f : ℚ) : truncToInt (-f) = -truncToInt f := by
  unfold truncToInt
  rcases lt_trichotomy f 0 with h | h | h
  · rw [if_pos (by linarith), if_neg (by linarith), Int.floor_neg]
  · subst h
    simp
  · rw [if_neg (by linarith), if_pos (by linarith), Int.ceil_neg]

theorem abs_truncToInt_le (f : ℚ) (n : ℕ) (h : |f| ≤ (n : ℚ)) :
    |truncToInt f| ≤ (n : ℤ) := by
  have h1 := (truncToInt_toward_zero f).1
  have h2 : |((truncToInt f : ℤ) : ℚ)| ≤ (n : ℚ) := le_trans h1 h
  have h3 : ((|truncToInt f| : ℤ) : ℚ) ≤ ((n : ℤ) : ℚ) := by
    rw [Int.cast_abs]
    exact_mod_cast h2
  exact_mod_cast h3

/-- The table written by `stereo3dsUpdateLayerOffsetsFromSlider` is mirrored between the
eyes and bounded by 17, for every slider value. -/
theorem offsets_mirror_bounded (settings3DS : S9xSettings3DS) (s : ℚ) (st : StereoState)
    (j : Fin 5) :
    (stereo3dsUpdateLayerOffsetsFromSlider settings3DS s st).g_stereoLayerOffsets 0 j
      = -(stereo3dsUpdateLayerOffsetsFromSlider settings3DS s st).g_stereoLayerOffsets 1 j ∧
    ∀ e : Fin 2,
      |(stereo3dsUpdateLayerOffsetsFromSlider settings3DS s st).g_stereoLayerOffsets e j|
        ≤ 17 := by
  by_cases hs : s < 1 / 100
  · constructor
    · rw [offsets_of_lt settings3DS s hs, offsets_of_lt settings3DS s hs, neg_zero]
    · intro e
      rw [offsets_of_lt settings3DS s hs, abs_zero]
      norm_num
  · have hs2 : 1 / 100 ≤ s := not_lt.mp hs
    constructor
    · rw [offsets_of_ge settings3DS s hs2, offsets_of_ge settings3DS s hs2]
      simp
    · intro e
      rw [abs_offsets_of_ge settings3DS s hs2]
      exact min_le_left _ _

/-- C27: the parallax budget at emission. When the table was written by
`stereo3dsUpdateLayerOffsetsFromSlider(s)`, for every configuration, slider value and
layer `L` in 0..4, the integer shifts that `gpu3dsAddTileVertexes` applies to the
copies of the two eyes have magnitude at most 17 and are opposite, so the two copies of
a vertex are at most 34 pixels apart. -/
theorem emission_parallax_budget (settings3DS : S9xSettings3DS) (s : ℚ)
    (st0 : StereoState) (g : GpuState) (L : Fin 5)
    (x0 y0 x1 y1 tx0 ty0 tx1 ty1 data : ℤ)
    (he : stereo3dsIsEnabled st0 = true) (hL : g.g_currentLayerIndex = (L.val : ℤ)) :
    (gpu3dsAddTileVertexes x0 y0 x1 y1 tx0 ty0 tx1 ty1 data
        (stereo3dsUpdateLayerOffsetsFromSlider settings3DS s st0) g
      = if g.isReal3DS then
          { g with GPU3DSExt := { g.GPU3DSExt with
              stereoTileVertexes := fun e => g.GPU3DSExt.stereoTileVertexes e ++
                [tileVertex
                  (x0 + eyeShift (stereo3dsUpdateLayerOffsetsFromSlider settings3DS s st0) e L)
                  y0 data tx0 ty0,
                 tileVertex
                  (x1 + eyeShift (stereo3dsUpdateLayerOffsetsFromSlider settings3DS s st0) e L)
                  y1 data tx1 ty1] } }
        else
          { g with GPU3DSExt := { g.GPU3DSExt with
              stereoQuadVertexes := fun e => g.GPU3DSExt.stereoQuadVertexes e ++
                quadVertices
                  (x0 + eyeShift (stereo3dsUpdateLayerOffsetsFromSlider settings3DS s st0) e L)
                  y0
                  (x1 + eyeShift (stereo3dsUpdateLayerOffsetsFromSlider settings3DS s st0) e L)
                  y1 tx0 ty0 tx1 ty1 data } }) ∧
    (∀ e : Fin 2,
      |eyeShift (stereo3dsUpdateLayerOffsetsFromSlider settings3DS s st0) e L| ≤ 17) ∧
    eyeShift (stereo3dsUpdateLayerOffsetsFromSlider settings3DS s st0) 0 L
      = -eyeShift (stereo3dsUpdateLayerOffsetsFromSlider settings3DS s st0) 1 L ∧
    (∀ x : ℤ,
      |(x + eyeShift (stereo3dsUpdateLayerOffsetsFromSlider settings3DS s st0) 0 L)
        - (x + eyeShift (stereo3dsUpdateLayerOffsetsFromSlider settings3DS s st0) 1 L)|
        ≤ 34) := by
  obtain ⟨hm, hb⟩ := offsets_mirror_bounded settings3DS s st0 L
  have he2 : stereo3dsIsEnabled (stereo3dsUpdateLayerOffsetsFromSlider settings3DS s st0)
      = true := by
    rw [update_keeps]
    exact he
  have hk : ∀ e : Fin 2,
      |eyeShift (stereo3dsUpdateLayerOffsetsFromSlider settings3DS s st0) e L| ≤ 17 := by
    intro e
    exact abs_truncToInt_le _ 17 (by exact_mod_cast hb e)
  have hneg : eyeShift (stereo3dsUpdateLayerOffsetsFromSlider settings3DS s st0) 0 L
      = -eyeShift (stereo3dsUpdateLayerOffsetsFromSlider settings3DS s st0) 1 L := by
    unfold eyeShift
    rw [hm, truncToInt_neg]
  refine ⟨addTileVertexes_stereo x0 y0 x1 y1 tx0 ty0 tx1 ty1 data _ g L he2 hL,
    hk, hneg, ?_⟩
  intro x
  have h1 := hk 1
  rw [hneg]
  rw [abs_le] at h1 ⊢
  constructor <;> omega

theorem emission_parallax_budget_witness :
    stereo3dsIsEnabled stateStereoOn = true ∧
    gpuLayerTwo.g_currentLayerIndex = (((2 : Fin 5).val : ℕ) : ℤ) ∧
    eyeShift (stereo3dsUpdateLayerOffsetsFromSlider (MockSettings.toSettings testSettings)
        1 stateStereoOn) 0 2
      = -eyeShift (stereo3dsUpdateLayerOffsetsFromSlider
          (MockSettings.toSettings testSettings) 1 stateStereoOn) 1 2 :=
  ⟨rfl, rfl,
   (emission_parallax_budget (MockSettings.toSettings testSettings) 1 stateStereoOn
      gpuLayerTwo 2 8 16 16 24 0 0 8 8 3 rfl rfl).2.2.1⟩

/-! ## All-or-nothing handles and the bounds of the table lookup -/

/-- C28: all-or-nothing target state. In every state reached from the initial state by
any sequence of the public operations of the stereo module (among them
`stereo3dsInitialize`, `stereo3dsFinalize`, `stereo3dsCreateRenderTargets`,
`stereo3dsDestroyRenderTargets`, `stereo3dsEnsureTargetsCreated`,
`stereo3dsLogFrameUpdate` and `stereo3dsTransferToScreenBuffers`), under any allocator
behaviour, the four handles are all null or all non-null. -/
theorem handles_all_or_nothing (m : Machine) (h : Reachable m) :
    (m.stereo.stereoLeftEyeTarget = none ∧ m.stereo.stereoRightEyeTarget = none ∧
      m.stereo.stereoLeftEyeDepth = none ∧ m.stereo.stereoRightEyeDepth = none) ∨
    (m.stereo.stereoLeftEyeTarget ≠ none ∧ m.stereo.stereoRightEyeTarget ≠ none ∧
      m.stereo.stereoLeftEyeDepth ≠ none ∧ m.stereo.stereoRightEyeDepth ≠ none) :=
  (reachable_targetsInv m h).1

theorem handles_all_or_nothing_witness :
    Reachable machinePresent ∧
    ((machinePresent.stereo.stereoLeftEyeTarget = none ∧
        machinePresent.stereo.stereoRightEyeTarget = none ∧
        machinePresent.stereo.stereoLeftEyeDepth = none ∧
        machinePresent.stereo.stereoRightEyeDepth = none) ∨
      (machinePresent.stereo.stereoLeftEyeTarget ≠ none ∧
        machinePresent.stereo.stereoRightEyeTarget ≠ none ∧
        machinePresent.stereo.stereoLeftEyeDepth ≠ none ∧
        machinePresent.stereo.stereoRightEyeDepth ≠ none)) :=
  ⟨machinePresent_reachable, handles_all_or_nothing machinePresent machinePresent_reachable⟩

/-- C30: the table lookup of `gpu3dsAddTileVertexes` is not guarded. With stereo enabled
and `g_currentLayerIndex = -1`, the value the header documents as "unknown", the read
`g_stereoLayerOffsets[eye][g_currentLayerIndex]` is outside the table for both eyes;
for the layers 0..4 it is inside. -/
theorem layer_lookup_out_of_bounds_at_unknown :
    stereo3dsIsEnabled stateStereoOn = true ∧
    gpuLayerUnknown.g_currentLayerIndex = -1 ∧
    (∀ e : Fin 2,
      layerOffsetAt stateStereoOn.g_stereoLayerOffsets e
        gpuLayerUnknown.g_currentLayerIndex = none) ∧
    (gpu3dsAddTileVertexes 8 16 16 24 0 0 8 8 3 stateStereoOn gpuLayerUnknown).outOfBounds
      = true ∧
    gpuLayerUnknown.outOfBounds = false ∧
    (∀ (t : OffsetTable) (e : Fin 2) (L : Fin 5),
      layerOffsetAt t e (L.val : ℤ) = some (t e L)) := by
  refine ⟨rfl, rfl, ?_, ?_, rfl, layerOffsetAt_fin⟩
  · intro e
    rfl
  · rfl

/-! ## The mode-7 emitter and the offset calculator -/

theorem mode7OffsetBase_eq (settings3DS : S9xSettings3DS) (st : StereoState) (y0 : ℤ) :
    mode7OffsetBase settings3DS st y0
      = clampOffset ((mode7DepthLine settings3DS y0
          - planeDepthOf settings3DS.LayerDepth settings3DS.ScreenPlaneLayer)
          * settings3DS.StereoDepthStrength * stereo3dsGetSliderValue st) := rfl

/-- The per-eye lists after `gpu3dsAddMode7LineVertexes` with stereo enabled. -/
theorem addMode7_stereo (settings3DS : S9xSettings3DS) (x0 y0 x1 y1 : ℤ)
    (tx0 ty0 tx1 ty1 : ℚ) (st : StereoState) (g : GpuState)
    (he : stereo3dsIsEnabled st = true) :
    gpu3dsAddMode7LineVertexes settings3DS x0 y0 x1 y1 tx0 ty0 tx1 ty1 st g
      = { g with GPU3DSExt := { g.GPU3DSExt with
            stereoMode7LineVertexes := fun e =>
              g.GPU3DSExt.stereoMode7LineVertexes e ++
                mode7LineVertices g.isReal3DS (x0 + mode7EyeShift settings3DS st y0 e) y0
                  (x1 + mode7EyeShift settings3DS st y0 e) y1 tx0 ty0 tx1 ty1 } } := by
  unfold gpu3dsAddMode7LineVertexes
  rw [finRange_two]
  simp only [he, if_true, List.foldl]
  congr 2
  funext e
  fin_cases e <;> simp [Function.update, mode7EyeShift]

/-- For a scanline whose depth is that of layer `i`, the shift the mode-7 emitter gives
an eye is the truncated table entry of the other eye: the same magnitude as that eye's
own entry, with the opposite sign. -/
theorem mode7_shift_vs_calculator (settings3DS : S9xSettings3DS) (s : ℚ)
    (hs : 1 / 100 ≤ s) (st0 : StereoState) (y0 : ℤ) (i : Fin 5)
    (hd : mode7DepthLine settings3DS y0 = settings3DS.LayerDepth i) (e : Fin 2) :
    mode7EyeShift settings3DS (stereo3dsUpdateLayerOffsetsFromSlider settings3DS s st0) y0 e
      = -eyeShift (stereo3dsUpdateLayerOffsetsFromSlider settings3DS s st0) e i := by
  have hsl : stereo3dsGetSliderValue
      (stereo3dsUpdateLayerOffsetsFromSlider settings3DS s st0) = s := by
    rw [update_keeps]
    rfl
  unfold mode7EyeShift eyeShift
  rw [mode7OffsetBase_eq, hsl, hd, offsets_of_ge settings3DS s hs, ← truncToInt_neg]
  fin_cases e <;> simp [layerOffset]

theorem truncToInt_intCast (n : ℤ) : truncToInt (n : ℚ) = n := by
  unfold truncToInt
  split_ifs <;> simp

theorem stateMode7_table :
    stateMode7.g_stereoLayerOffsets 0 0 = -12 ∧ stateMode7.g_stereoLayerOffsets 1 0 = 12 := by
  have hp : planeDepthOf testSettings.LayerDepth testSettings.ScreenPlaneLayer = 0 :=
    planeDepthOf_fin testSettings.LayerDepth 3
  have hs : (1 : ℚ) / 100 ≤ 1 := by norm_num
  unfold stateMode7
  simp only [offsets_of_ge settingsMode7 1 hs]
  simp only [settingsMode7, MockSettings.toSettings, hp]
  norm_num [layerOffset, clampOffset, maxPerEye, testSettings, testLayerDepth]

/-- C22: the mode-7 emitter mirrors the other way round than the offset calculator. At
the test configuration with the mode-7 plane at the depth of BG0 (12, no gradient) and
slider 1, `stereo3dsUpdateLayerOffsetsFromSlider` assigns BG0 the entries -12 (eye 0)
and +12 (eye 1), while `gpu3dsAddMode7LineVertexes` shifts a scanline of the same depth
by +12 for eye 0 and by -12 for eye 1: the same clamp and magnitude, the negated value
on the other eye. -/
theorem mode7_mirror_opposite_to_calculator :
    stereo3dsIsEnabled stateMode7 = true ∧
    stereo3dsGetSliderValue stateMode7 = 1 ∧
    mode7DepthLine settingsMode7 100 = settingsMode7.LayerDepth 0 ∧
    (eyeShift stateMode7 0 0 = -12 ∧ eyeShift stateMode7 1 0 = 12) ∧
    (mode7EyeShift settingsMode7 stateMode7 100 0 = 12 ∧
      mode7EyeShift settingsMode7 stateMode7 100 1 = -12) ∧
    (gpu3dsAddMode7LineVertexes settingsMode7 0 100 256 101 0 0 1 1 stateMode7
        (GpuState.initial true)).GPU3DSExt.stereoMode7LineVertexes 0
      = [mode7LineVertex (0 + 12) 100 0 0, mode7LineVertex (256 + 12) (-16384) 1 1] ∧
    (gpu3dsAddMode7LineVertexes settingsMode7 0 100 256 101 0 0 1 1 stateMode7
        (GpuState.initial true)).GPU3DSExt.stereoMode7LineVertexes 1
      = [mode7LineVertex (0 + -12) 100 0 0, mode7LineVertex (256 + -12) (-16384) 1 1] := by
  have he : stereo3dsIsEnabled stateMode7 = true := by
    unfold stateMode7
    rw [update_keeps]
    rfl
  have hsl : stereo3dsGetSliderValue stateMode7 = 1 := by
    unfold stateMode7
    rw [update_keeps]
    rfl
  have hd : mode7DepthLine settingsMode7 100 = settingsMode7.LayerDepth 0 := by
    simp [mode7DepthLine, settingsMode7, MockSettings.toSettings, testSettings,
      testLayerDepth]
  have hk : eyeShift stateMode7 0 0 = -12 ∧ eyeShift stateMode7 1 0 = 12 := by
    unfold eyeShift
    rw [stateMode7_table.1, stateMode7_table.2]
    exact ⟨by exact_mod_cast truncToInt_intCast (-12), by exact_mod_cast truncToInt_intCast 12⟩
  have hm : mode7EyeShift settingsMode7 stateMode7 100 0 = 12 ∧
      mode7EyeShift settingsMode7 stateMode7 100 1 = -12 := by
    have hs : (1 : ℚ) / 100 ≤ 1 := by norm_num
    have h0 := mode7_shift_vs_calculator settingsMode7 1 hs stateStereoOn 100 0 hd 0
    have h1 := mode7_shift_vs_calculator settingsMode7 1 hs stateStereoOn 100 0 hd 1
    have e0 : eyeShift (stereo3dsUpdateLayerOffsetsFromSlider settingsMode7 1 stateStereoOn)
        0 0 = -12 := hk.1
    have e1 : eyeShift (stereo3dsUpdateLayerOffsetsFromSlider settingsMode7 1 stateStereoOn)
        1 0 = 12 := hk.2
    rw [e0] at h0
    rw [e1] at h1
    exact ⟨by simpa using h0, h1⟩
  refine ⟨he, hsl, hd, hk, hm, ?_, ?_⟩
  · rw [addMode7_stereo _ _ _ _ _ _ _ _ _ _ _ he]
    simp only [hm.1]
    rfl
  · rw [addMode7_stereo _ _ _ _ _ _ _ _ _ _ _ he]
    simp only [hm.2]
    rfl

/-! ## The activation decision of a frame -/

theorem frameSetup_calls (inp : FrameInput) (m : Machine) :
    ∃ extra : List GpuCall,
      (frameSetup inp m).2.gpu.calls
        = m.gpu.calls ++ [.enableAlphaBlending, .set3D (frameStereoActive inp)] ++ extra ∧
      (extra = [] ∨ extra = [.set3D false]) := by
  have hl : (frameLogged inp m).gpu.calls
      = m.gpu.calls ++ [.enableAlphaBlending, .set3D (frameStereoActive inp)] := by
    simp [frameLogged, stereo3dsSetEnabled, GpuState.call]
  have ho : (frameOffsets inp m).gpu.calls
      = m.gpu.calls ++ [.enableAlphaBlending, .set3D (frameStereoActive inp)] := hl
  rw [frameSetup_eq]
  split_ifs
  · exact ⟨[], by simpa using hl, Or.inl rfl⟩
  · rcases hcr : stereo3dsEnsureTargetsCreated (frameOffsets inp m).stereo with ⟨b, st2⟩
    cases b
    · refine ⟨[.set3D false], ?_, Or.inr rfl⟩
      show ((frameOffsets inp m).gpu.call (.set3D false)).calls = _
      simp [GpuState.call, ho]
    · exact ⟨[], by simpa using ho, Or.inl rfl⟩
  · exact ⟨[], by simpa using ho, Or.inl rfl⟩

theorem destroy_table (st : StereoState) :
    (stereo3dsDestroyRenderTargets st).g_stereoLayerOffsets = st.g_stereoLayerOffsets ∧
    (stereo3dsDestroyRenderTargets st).currentSliderValue = st.currentSliderValue := by
  unfold stereo3dsDestroyRenderTargets
  rcases h1 : st.stereoLeftEyeTarget with _ | a <;>
  rcases h2 : st.stereoRightEyeTarget with _ | b <;>
  rcases h3 : st.stereoLeftEyeDepth with _ | c <;>
  rcases h4 : st.stereoRightEyeDepth with _ | d <;>
  simp [h1, h2, h3, h4]

theorem create_table (st : StereoState) :
    (stereo3dsCreateRenderTargets st).2.g_stereoLayerOffsets = st.g_stereoLayerOffsets ∧
    (stereo3dsCreateRenderTargets st).2.currentSliderValue = st.currentSliderValue := by
  unfold stereo3dsCreateRenderTargets
  simp only
  split
  · simp [destroy_table]
  · split
    · simp [destroy_table]
    · split
      · simp [destroy_table]
      · split <;> simp [destroy_table]

theorem ensure_table (st : StereoState) :
    (stereo3dsEnsureTargetsCreated st).2.g_stereoLayerOffsets = st.g_stereoLayerOffsets ∧
    (stereo3dsEnsureTargetsCreated st).2.currentSliderValue = st.currentSliderValue := by
  have hc := create_table st
  unfold stereo3dsEnsureTargetsCreated
  split_ifs
  · exact ⟨rfl, rfl⟩
  · rcases hcr : stereo3dsCreateRenderTargets st with ⟨b, st2⟩
    rw [hcr] at hc
    cases b <;> exact hc

/-- After an emulated frame the offset table and the stored slider value are those
`stereo3dsUpdateLayerOffsetsFromSlider` computed from the effective depth. -/
theorem frame_table (inp : FrameInput) (m : Machine) (he : inp.emulating = true) :
    (impl3dsRunOneFrame inp m).stereo.g_stereoLayerOffsets
      = (frameOffsets inp m).stereo.g_stereoLayerOffsets ∧
    (impl3dsRunOneFrame inp m).stereo.currentSliderValue = effectiveDepth inp := by
  have hk := ensure_table (frameOffsets inp m).stereo
  have hs : (frameOffsets inp m).stereo.currentSliderValue = effectiveDepth inp := by
    show (stereo3dsUpdateLayerOffsetsFromSlider _ _ _).currentSliderValue = _
    rw [update_keeps]
  rw [impl_stereo_eq, frameSetup_eq]
  simp only [he, Bool.not_true, Bool.false_eq_true, if_false]
  split_ifs
  · rcases hcr : stereo3dsEnsureTargetsCreated (frameOffsets inp m).stereo with ⟨b, st2⟩
    rw [hcr] at hk
    cases b
    · exact ⟨hk.1, hk.2.trans hs⟩
    · exact ⟨hk.1, hk.2.trans hs⟩
  · exact ⟨rfl, hs⟩

/-- C29: the depth strength is applied twice in the frame loop. In an emulated frame
with hardware slider `h` (the slider not disabled), user maximum `u = StereoSliderValue`
and strength `g = StereoDepthStrength` such that `h * u * g ≥ 0.01`, the right-eye
entry computed for layer `i` is `(LayerDepth[i] - planeDepth) * g * (h * u * g)` clamped
to [-17, 17], the left-eye entry is its negation, and the unclamped offset is
`(LayerDepth[i] - planeDepth) * h * u * g²`. -/
theorem depth_strength_applied_twice (inp : FrameInput) (m : Machine) (i : Fin 5)
    (hd : inp.settings3DS.Disable3DSlider = false) (he : inp.emulating = true)
    (hge : inp.sliderState * inp.settings3DS.StereoSliderValue
      * inp.settings3DS.StereoDepthStrength ≥ 1 / 100) :
    (impl3dsRunOneFrame inp m).stereo.g_stereoLayerOffsets 1 i
      = clampOffset
          ((inp.settings3DS.LayerDepth i
              - planeDepthOf inp.settings3DS.LayerDepth inp.settings3DS.ScreenPlaneLayer)
            * inp.settings3DS.StereoDepthStrength
            * (inp.sliderState * inp.settings3DS.StereoSliderValue
                * inp.settings3DS.StereoDepthStrength)) ∧
    (impl3dsRunOneFrame inp m).stereo.g_stereoLayerOffsets 0 i
      = -(impl3dsRunOneFrame inp m).stereo.g_stereoLayerOffsets 1 i ∧
    (inp.settings3DS.LayerDepth i
          - planeDepthOf inp.settings3DS.LayerDepth inp.settings3DS.ScreenPlaneLayer)
        * inp.settings3DS.StereoDepthStrength
        * (inp.sliderState * inp.settings3DS.StereoSliderValue
            * inp.settings3DS.StereoDepthStrength)
      = (inp.settings3DS.LayerDepth i
          - planeDepthOf inp.settings3DS.LayerDepth inp.settings3DS.ScreenPlaneLayer)
        * inp.sliderState * inp.settings3DS.StereoSliderValue
        * inp.settings3DS.StereoDepthStrength ^ 2 ∧
    clampOffset
        ((inp.settings3DS.LayerDepth i
            - planeDepthOf inp.settings3DS.LayerDepth inp.settings3DS.ScreenPlaneLayer)
          * inp.settings3DS.StereoDepthStrength
          * (inp.sliderState * inp.settings3DS.StereoSliderValue
              * inp.settings3DS.StereoDepthStrength))
      = max (-17) (min 17
          ((inp.settings3DS.LayerDepth i
              - planeDepthOf inp.settings3DS.LayerDepth inp.settings3DS.ScreenPlaneLayer)
            * inp.settings3DS.StereoDepthStrength
            * (inp.sliderState * inp.settings3DS.StereoSliderValue
                * inp.settings3DS.StereoDepthStrength))) := by
  have heff : effectiveDepth inp
      = inp.sliderState * inp.settings3DS.StereoSliderValue
          * inp.settings3DS.StereoDepthStrength := by
    unfold effectiveDepth
    simp [hd]
  have hs : 1 / 100 ≤ effectiveDepth inp := by
    rw [heff]
    exact hge
  have ht := (frame_table inp m he).1
  have hval : ∀ e : Fin 2, (impl3dsRunOneFrame inp m).stereo.g_stereoLayerOffsets e i
      = if e = 0
        then -layerOffset inp.settings3DS.LayerDepth
          (planeDepthOf inp.settings3DS.LayerDepth inp.settings3DS.ScreenPlaneLayer)
          inp.settings3DS.StereoDepthStrength (effectiveDepth inp) i
        else layerOffset inp.settings3DS.LayerDepth
          (planeDepthOf inp.settings3DS.LayerDepth inp.settings3DS.ScreenPlaneLayer)
          inp.settings3DS.StereoDepthStrength (effectiveDepth inp) i := by
    intro e
    rw [ht]
    exact offsets_of_ge inp.settings3DS (effectiveDepth inp) hs _ e i
  refine ⟨?_, ?_, by ring, clampOffset_eq _⟩
  · rw [hval 1, heff]
    simp [layerOffset]
  · rw [hval 0, hval 1]
    simp

theorem frameStereoOn_depth :
    frameStereoOn.sliderState * frameStereoOn.settings3DS.StereoSliderValue
      * frameStereoOn.settings3DS.StereoDepthStrength ≥ 1 / 100 := by
  norm_num [frameStereoOn, MockSettings.toSettings, testSettings]

theorem depth_strength_applied_twice_witness :
    frameStereoOn.settings3DS.Disable3DSlider = false ∧
    frameStereoOn.emulating = true ∧
    frameStereoOn.sliderState * frameStereoOn.settings3DS.StereoSliderValue
      * frameStereoOn.settings3DS.StereoDepthStrength ≥ 1 / 100 ∧
    (impl3dsRunOneFrame frameStereoOn
        (Machine.booted vramAllOk true)).stereo.g_stereoLayerOffsets 1 0
      = clampOffset
          ((frameStereoOn.settings3DS.LayerDepth 0
              - planeDepthOf frameStereoOn.settings3DS.LayerDepth
                  frameStereoOn.settings3DS.ScreenPlaneLayer)
            * frameStereoOn.settings3DS.StereoDepthStrength
            * (frameStereoOn.sliderState * frameStereoOn.settings3DS.StereoSliderValue
                * frameStereoOn.settings3DS.StereoDepthStrength)) :=
  ⟨rfl, rfl, frameStereoOn_depth,
   (depth_strength_applied_twice frameStereoOn (Machine.booted vramAllOk true) 0
      rfl rfl frameStereoOn_depth).1⟩

/-! ## Degradation to mono when the allocation fails -/

/-- The setup of an active, emulated frame whose lazy allocation fails: stereo is
disabled and the local `stereoActive` becomes false. -/
theorem frameSetup_alloc_fails (inp : FrameInput) (m : Machine)
    (hA : frameStereoActive inp = true) (he : inp.emulating = true)
    (hen : stereo3dsIsEnabled (frameOffsets inp m).stereo = true)
    (hfail : (stereo3dsEnsureTargetsCreated (frameOffsets inp m).stereo).1 = false) :
    frameSetup inp m
      = (false, stereo3dsSetEnabled false
          { frameOffsets inp m with
            stereo := (stereo3dsEnsureTargetsCreated (frameOffsets inp m).stereo).2 }) := by
  rw [frameSetup_eq]
  simp only [he, hA, hen, Bool.not_true, Bool.false_eq_true, if_false, Bool.and_self, if_true]
  rcases hcr : stereo3dsEnsureTargetsCreated (frameOffsets inp m).stereo with ⟨b, st2⟩
  rw [hcr] at hfail
  simp only at hfail
  subst hfail
  rfl

theorem frameTransfer_mono (inp : FrameInput) (m : Machine) :
    frameTransfer inp false m
      = if inp.firstFrame = true then m
        else { m with gpu := (m.gpu.call .transferToScreenBuffer).call .swapScreenBuffers } := by
  unfold frameTransfer
  cases inp.firstFrame <;> simp

/-- The draws and emissions of the GPU layer when stereo is not enabled. -/
theorem renderOps_mono (settings3DS : S9xSettings3DS) (st : StereoState) (g : GpuState)
    (h : stereo3dsIsEnabled st = false) :
    (∀ r s, runRenderOp settings3DS st g (.drawVertexes r s) = drawMonoLists r s g) ∧
    (∀ r s, runRenderOp settings3DS st g (.drawMode7LineVertexes r s)
      = gpu3dsDrawVertexList .mode7LineVertexes
          (if g.isReal3DS then .GPU_GEOMETRY_PRIM else .GPU_TRIANGLES) r 3 s g) ∧
    (∀ x0 y0 x1 y1 tx0 ty0 tx1 ty1 data,
      runRenderOp settings3DS st g (.addTileVertexes x0 y0 x1 y1 tx0 ty0 tx1 ty1 data)
        = if g.isReal3DS then
            { g with GPU3DSExt := { g.GPU3DSExt with
                tileVertexes := g.GPU3DSExt.tileVertexes ++
                  [tileVertex x0 y0 data tx0 ty0, tileVertex x1 y1 data tx1 ty1] } }
          else
            { g with GPU3DSExt := { g.GPU3DSExt with
                quadVertexes := g.GPU3DSExt.quadVertexes ++
                  quadVertices x0 y0 x1 y1 tx0 ty0 tx1 ty1 data } }) ∧
    (∀ x0 y0 x1 y1 tx0 ty0 tx1 ty1,
      runRenderOp settings3DS st g (.addMode7LineVertexes x0 y0 x1 y1 tx0 ty0 tx1 ty1)
        = { g with GPU3DSExt := { g.GPU3DSExt with
              mode7LineVertexes := g.GPU3DSExt.mode7LineVertexes ++
                mode7LineVertices g.isReal3DS x0 y0 x1 y1 tx0 ty0 tx1 ty1 } }) := by
  refine ⟨?_, ?_, ?_, ?_⟩
  · intro r s
    simp [runRenderOp, gpu3dsDrawVertexes, h]
  · intro r s
    simp [runRenderOp, gpu3dsDrawMode7LineVertexes, h]
  · intro x0 y0 x1 y1 tx0 ty0 tx1 ty1 data
    simp [runRenderOp, gpu3dsAddTileVertexes, h]
  · intro x0 y0 x1 y1 tx0 ty0 tx1 ty1
    simp [runRenderOp, gpu3dsAddMode7LineVertexes, h]

/-- The compositing step when the local `stereoActive` is false and stereo is not
enabled: it ends with the draw of the screen quad through the mono lists. -/
theorem frameComposite_mono (inp : FrameInput) (st : StereoState) (g : GpuState)
    (h : stereo3dsIsEnabled st = false) :
    ∃ g1 : GpuState,
      frameComposite inp false st g
        = drawMonoLists false (-1)
            (gpu3dsAddQuadVertexes inp.screenQuad.x0 inp.screenQuad.y0 inp.screenQuad.x1
              inp.screenQuad.y1 inp.screenQuad.tx0 inp.screenQuad.ty0 inp.screenQuad.tx1
              inp.screenQuad.ty1 inp.screenQuad.data
              (((g1.call .bindTextureMainScreen).call
                .setTextureEnvironmentReplaceTexture0).call .disableStencilTest)) := by
  have hd : ∀ g2 : GpuState, gpu3dsDrawVertexes false (-1) st g2
      = drawMonoLists false (-1) g2 := by
    intro g2
    simp [gpu3dsDrawVertexes, h]
  unfold frameComposite
  simp only [Bool.not_false, if_true, hd]
  exact ⟨_, rfl⟩

theorem dt_of_calls (g g1 : GpuState) (l : List GpuCall) (h : g1.calls = g.calls ++ l)
    (hl : ∀ c ∈ l, isDisplayTransfer c = false) :
    displayTransfers g1 = displayTransfers g := by
  unfold displayTransfers
  rw [h, List.filter_append]
  have : l.filter isDisplayTransfer = [] := by
    rw [List.filter_eq_nil_iff]
    intro c hc
    rw [hl c hc]
    decide
  rw [this, List.append_nil]

theorem dt_call (g : GpuState) (c : GpuCall) (h : isDisplayTransfer c = false) :
    displayTransfers (g.call c) = displayTransfers g := by
  apply dt_of_calls g _ [c] rfl
  intro d hd
  rw [List.mem_singleton.mp hd]
  exact h

theorem dt_call_if (g : GpuState) (c : GpuCall) :
    displayTransfers (g.call c)
      = if isDisplayTransfer c = true then displayTransfers g ++ [c]
        else displayTransfers g := by
  unfold displayTransfers GpuState.call
  simp only [List.filter_append, List.filter_cons, List.filter_nil]
  split_ifs <;> simp

theorem dt_same_calls (g g1 : GpuState) (h : g1.calls = g.calls) :
    displayTransfers g1 = displayTransfers g := by
  unfold displayTransfers
  rw [h]

theorem dt_drawMono (r : Bool) (s : ℤ) (g : GpuState) :
    displayTransfers (drawMonoLists r s g) = displayTransfers g := by
  apply dt_of_calls g _ _ (by rw [drawMonoLists_calls])
  intro c hc
  simp only [List.mem_cons, List.mem_singleton, List.not_mem_nil, or_false] at hc
  rcases hc with h | h | h <;> (subst h; rfl)

theorem dt_drawRectangle (x0 y0 x1 y1 depth : ℤ) (color : ℕ) (g : GpuState) :
    displayTransfers (gpu3dsDrawRectangle x0 y0 x1 y1 depth color g)
      = displayTransfers g := by
  unfold gpu3dsDrawRectangle gpu3dsDrawVertexList
  simp only
  rw [dt_call _ _ (by rfl)]
  apply dt_same_calls
  unfold gpu3dsAddRectangleVertexes
  simp only
  split_ifs <;> rfl

theorem dt_clear (w h : ℤ) (g : GpuState) :
    displayTransfers (gpu3dsClearColorAndDepth w h g) = displayTransfers g := by
  unfold gpu3dsClearColorAndDepth
  simp only
  simp only [dt_call_if, dt_drawRectangle, isDisplayTransfer, Bool.false_eq_true, if_false]

theorem dt_setRenderTarget (color depth : Option SGPUTexture) (g : GpuState) :
    displayTransfers (gpu3dsSetRenderTargetToTexture color depth g) = displayTransfers g :=
  dt_call g (.setRenderTargetToTexture color depth) rfl

theorem dt_prepare (g : GpuState) :
    displayTransfers (framePrepareTargets g) = displayTransfers g := by
  unfold framePrepareTargets gpu3dsSetRenderTargetToMainScreenTexture
    gpu3dsSetRenderTargetToSubScreenTexture
  simp only
  simp only [dt_call_if, dt_setRenderTarget, dt_clear, isDisplayTransfer,
    Bool.false_eq_true, if_false]

theorem dt_renderOp (settings3DS : S9xSettings3DS) (st : StereoState) (g : GpuState)
    (h : stereo3dsIsEnabled st = false) (op : RenderOp) :
    displayTransfers (runRenderOp settings3DS st g op) = displayTransfers g := by
  obtain ⟨h1, h2, h3, h4⟩ := renderOps_mono settings3DS st g h
  cases op with
  | setCurrentLayer layer => rfl
  | addTileVertexes x0 y0 x1 y1 tx0 ty0 tx1 ty1 data =>
    rw [h3]
    split_ifs <;> rfl
  | addQuadVertexes x0 y0 x1 y1 tx0 ty0 tx1 ty1 data => rfl
  | addMode7LineVertexes x0 y0 x1 y1 tx0 ty0 tx1 ty1 =>
    rw [h4]
    rfl
  | drawVertexes r s =>
    rw [h1, dt_drawMono]
  | drawMode7LineVertexes r s =>
    rw [h2]
    exact dt_call _ _ rfl

theorem dt_mainLoop (settings3DS : S9xSettings3DS) (st : StereoState)
    (h : stereo3dsIsEnabled st = false) (ops : List RenderOp) (g : GpuState) :
    displayTransfers (S9xMainLoop settings3DS ops st g) = displayTransfers g := by
  induction ops generalizing g with
  | nil => rfl
  | cons op rest ih =>
    show displayTransfers (S9xMainLoop settings3DS rest st (runRenderOp settings3DS st g op))
      = _
    rw [ih, dt_renderOp settings3DS st g h]

theorem dt_composite (inp : FrameInput) (st : StereoState) (g : GpuState)
    (h : stereo3dsIsEnabled st = false) :
    displayTransfers (frameComposite inp false st g) = displayTransfers g := by
  have hd : ∀ g2 : GpuState, gpu3dsDrawVertexes false (-1) st g2
      = drawMonoLists false (-1) g2 := by
    intro g2
    simp [gpu3dsDrawVertexes, h]
  have hq : ∀ (q : QuadArgs) (g2 : GpuState),
      displayTransfers (gpu3dsAddQuadVertexes q.x0 q.y0 q.x1 q.y1 q.tx0 q.ty0 q.tx1 q.ty1
        q.data g2) = displayTransfers g2 := fun _ _ => rfl
  have hrt : ∀ g2 : GpuState,
      displayTransfers { g2 with renderTarget := .frameBuffer } = displayTransfers g2 :=
    fun _ => rfl
  unfold frameComposite
  simp only [Bool.not_false, if_true, hd]
  split_ifs
  all_goals
    simp only [dt_drawMono, hq, hrt, dt_drawRectangle, dt_call_if, isDisplayTransfer,
      Bool.false_eq_true, if_false]

/-- The GPU side after an emulated frame whose setup leaves the local `stereoActive`
false: the emulator core, the compositing with its draws, the mono transfer unless the
frame is a first frame, and the flush. -/
theorem impl_gpu_mono (inp : FrameInput) (m : Machine) (he : inp.emulating = true)
    (h1 : (frameSetup inp m).1 = false) :
    (impl3dsRunOneFrame inp m).gpu
      = (if inp.firstFrame = true then
          frameComposite inp false (frameSetup inp m).2.stereo
            (if inp.paused = true then framePrepareTargets (frameSetup inp m).2.gpu
             else S9xMainLoop inp.settings3DS inp.mainLoop (frameSetup inp m).2.stereo
               (framePrepareTargets (frameSetup inp m).2.gpu))
        else
          ((frameComposite inp false (frameSetup inp m).2.stereo
            (if inp.paused = true then framePrepareTargets (frameSetup inp m).2.gpu
             else S9xMainLoop inp.settings3DS inp.mainLoop (frameSetup inp m).2.stereo
               (framePrepareTargets (frameSetup inp m).2.gpu))).call
            .transferToScreenBuffer).call .swapScreenBuffers).call .flush := by
  unfold impl3dsRunOneFrame
  rcases hfs : frameSetup inp m with ⟨a, m1⟩
  rw [hfs] at h1
  simp only at h1
  subst h1
  simp only [he, Bool.not_true, Bool.false_eq_true, if_false, frameTransfer_mono]
  cases inp.firstFrame <;> cases inp.paused <;> rfl

theorem dt_frameSetup (inp : FrameInput) (m : Machine) :
    displayTransfers (frameSetup inp m).2.gpu = displayTransfers m.gpu := by
  obtain ⟨extra, hc, hx⟩ := frameSetup_calls inp m
  apply dt_of_calls m.gpu _ _ (by rw [hc, List.append_assoc])
  intro c hmem
  rcases hx with hx | hx <;> subst hx <;>
    simp only [List.append_nil, List.mem_append, List.mem_cons, List.mem_singleton,
      List.not_mem_nil, or_false] at hmem
  · rcases hmem with h | h <;> (subst h; rfl)
  · rcases hmem with (h | h) | h <;> (subst h; rfl)

/-- C24: graceful degradation on allocation failure. In an emulated frame in which
stereo is active and enabled and `stereo3dsEnsureTargetsCreated()` returns false, the
setup ends with the local `stereoActive` false and `stereo3dsIsEnabled()` false, and the
stereo module stays so to the end of the frame; with stereo not enabled the emitters
write unshifted copies to the mono lists and `gpu3dsDrawVertexes` draws the mono lists;
the compositing step ends with the draw of the screen quad; no display copy of
`stereo3dsTransferToScreenBuffers` is issued, the frame is handed over by
`gpu3dsTransferToScreenBuffer` and `gpu3dsSwapScreenBuffers` unless it is a first frame,
and the frame ends with `gpu3dsFlush`. -/
theorem allocation_failure_degrades_to_mono (inp : FrameInput) (m : Machine)
    (hA : frameStereoActive inp = true) (he : inp.emulating = true)
    (hen : stereo3dsIsEnabled (frameOffsets inp m).stereo = true)
    (hfail : (stereo3dsEnsureTargetsCreated (frameOffsets inp m).stereo).1 = false) :
    (frameSetup inp m).1 = false ∧
    stereo3dsIsEnabled (frameSetup inp m).2.stereo = false ∧
    (impl3dsRunOneFrame inp m).stereo = (frameSetup inp m).2.stereo ∧
    stereo3dsAreTargetsCreated (impl3dsRunOneFrame inp m).stereo = false ∧
    (∀ (g : GpuState) (r : Bool) (s : ℤ),
      runRenderOp inp.settings3DS (frameSetup inp m).2.stereo g (.drawVertexes r s)
        = drawMonoLists r s g) ∧
    (∀ (g : GpuState) (x0 y0 x1 y1 tx0 ty0 tx1 ty1 data : ℤ),
      runRenderOp inp.settings3DS (frameSetup inp m).2.stereo g
          (.addTileVertexes x0 y0 x1 y1 tx0 ty0 tx1 ty1 data)
        = if g.isReal3DS then
            { g with GPU3DSExt := { g.GPU3DSExt with
                tileVertexes := g.GPU3DSExt.tileVertexes ++
                  [tileVertex x0 y0 data tx0 ty0, tileVertex x1 y1 data tx1 ty1] } }
          else
            { g with GPU3DSExt := { g.GPU3DSExt with
                quadVertexes := g.GPU3DSExt.quadVertexes ++
                  quadVertices x0 y0 x1 y1 tx0 ty0 tx1 ty1 data } }) ∧
    (∀ (g : GpuState) (x0 y0 x1 y1 : ℤ) (tx0 ty0 tx1 ty1 : ℚ),
      runRenderOp inp.settings3DS (frameSetup inp m).2.stereo g
          (.addMode7LineVertexes x0 y0 x1 y1 tx0 ty0 tx1 ty1)
        = { g with GPU3DSExt := { g.GPU3DSExt with
              mode7LineVertexes := g.GPU3DSExt.mode7LineVertexes ++
                mode7LineVertices g.isReal3DS x0 y0 x1 y1 tx0 ty0 tx1 ty1 } }) ∧
    (∃ g1 g3 : GpuState,
      g3 = drawMonoLists false (-1)
            (gpu3dsAddQuadVertexes inp.screenQuad.x0 inp.screenQuad.y0 inp.screenQuad.x1
              inp.screenQuad.y1 inp.screenQuad.tx0 inp.screenQuad.ty0 inp.screenQuad.tx1
              inp.screenQuad.ty1 inp.screenQuad.data
              (((g1.call .bindTextureMainScreen).call
                .setTextureEnvironmentReplaceTexture0).call .disableStencilTest)) ∧
      (impl3dsRunOneFrame inp m).gpu
        = (if inp.firstFrame = true then g3
           else (g3.call .transferToScreenBuffer).call .swapScreenBuffers).call .flush) ∧
    displayTransfers (impl3dsRunOneFrame inp m).gpu = displayTransfers m.gpu := by
  have hfs := frameSetup_alloc_fails inp m hA he hen hfail
  have h1 : (frameSetup inp m).1 = false := by rw [hfs]
  have h2 : stereo3dsIsEnabled (frameSetup inp m).2.stereo = false := by
    rw [hfs]
    rfl
  have h3 := impl_stereo_eq inp m
  have h4 : stereo3dsAreTargetsCreated (frameSetup inp m).2.stereo = false := by
    have hr := ensure_result_present (frameOffsets inp m).stereo
    rw [hfail] at hr
    rw [hfs]
    exact hr.symm
  have hg := impl_gpu_mono inp m he h1
  obtain ⟨g1, hcomp⟩ := frameComposite_mono inp (frameSetup inp m).2.stereo
    (if inp.paused = true then framePrepareTargets (frameSetup inp m).2.gpu
     else S9xMainLoop inp.settings3DS inp.mainLoop (frameSetup inp m).2.stereo
       (framePrepareTargets (frameSetup inp m).2.gpu)) h2
  refine ⟨h1, h2, h3, by rw [h3]; exact h4, ?_, ?_, ?_, ?_, ?_⟩
  · intro g r s
    exact (renderOps_mono inp.settings3DS _ g h2).1 r s
  · intro g x0 y0 x1 y1 tx0 ty0 tx1 ty1 data
    exact (renderOps_mono inp.settings3DS _ g h2).2.2.1 x0 y0 x1 y1 tx0 ty0 tx1 ty1 data
  · intro g x0 y0 x1 y1 tx0 ty0 tx1 ty1
    exact (renderOps_mono inp.settings3DS _ g h2).2.2.2 x0 y0 x1 y1 tx0 ty0 tx1 ty1
  · refine ⟨g1, _, rfl, ?_⟩
    rw [hg, hcomp]
  · rw [hg]
    have hloop : displayTransfers
        (if inp.paused = true then framePrepareTargets (frameSetup inp m).2.gpu
         else S9xMainLoop inp.settings3DS inp.mainLoop (frameSetup inp m).2.stereo
           (framePrepareTargets (frameSetup inp m).2.gpu))
        = displayTransfers m.gpu := by
      split_ifs
      · rw [dt_prepare, dt_frameSetup]
      · rw [dt_mainLoop _ _ h2, dt_prepare, dt_frameSetup]
    have key : ∀ gl : GpuState, displayTransfers gl = displayTransfers m.gpu →
        displayTransfers
          ((if inp.firstFrame = true then
              frameComposite inp false (frameSetup inp m).2.stereo gl
            else
              ((frameComposite inp false (frameSetup inp m).2.stereo gl).call
                .transferToScreenBuffer).call .swapScreenBuffers).call .flush)
          = displayTransfers m.gpu := by
      intro gl hgl
      split_ifs
      · simp only [dt_call_if, isDisplayTransfer, Bool.false_eq_true, if_false]
        rw [dt_composite _ _ _ h2, hgl]
      · simp only [dt_call_if, isDisplayTransfer, Bool.false_eq_true, if_false]
        rw [dt_composite _ _ _ h2, hgl]
    exact key _ hloop

theorem frameStereoOn_alloc_fails :
    stereo3dsIsEnabled (frameOffsets frameStereoOn (Machine.booted vramNone true)).stereo
      = true ∧
    (stereo3dsEnsureTargetsCreated
      (frameOffsets frameStereoOn (Machine.booted vramNone true)).stereo).1 = false := by
  obtain ⟨a, b, c, d, hv, hen⟩ := frameOffsets_active frameStereoOn
    (Machine.booted vramNone true) frameStereoOn_active.1
  refine ⟨by rw [hen]; rfl, ?_⟩
  apply ensure_fails
  · rw [areTargetsCreated_congr _ (Machine.booted vramNone true).stereo a b c d]
    rfl
  · rw [hv]
    exact ⟨0, by decide, rfl⟩

theorem allocation_failure_degrades_to_mono_witness :
    frameStereoActive frameStereoOn = true ∧ frameStereoOn.emulating = true ∧
    stereo3dsIsEnabled (frameOffsets frameStereoOn (Machine.booted vramNone true)).stereo
      = true ∧
    (stereo3dsEnsureTargetsCreated
      (frameOffsets frameStereoOn (Machine.booted vramNone true)).stereo).1 = false ∧
    stereo3dsIsEnabled (frameSetup frameStereoOn (Machine.booted vramNone true)).2.stereo
      = false ∧
    displayTransfers (impl3dsRunOneFrame frameStereoOn (Machine.booted vramNone true)).gpu
      = displayTransfers (Machine.booted vramNone true).gpu :=
  ⟨frameStereoOn_active.1, rfl, frameStereoOn_alloc_fails.1, frameStereoOn_alloc_fails.2,
   (allocation_failure_degrades_to_mono frameStereoOn (Machine.booted vramNone true)
      frameStereoOn_active.1 rfl frameStereoOn_alloc_fails.1
      frameStereoOn_alloc_fails.2).2.1,
   (allocation_failure_degrades_to_mono frameStereoOn (Machine.booted vramNone true)
      frameStereoOn_active.1 rfl frameStereoOn_alloc_fails.1
      frameStereoOn_alloc_fails.2).2.2.2.2.2.2.2.2⟩

/-! ## The sign convention of the offset table -/

theorem clampOffset_pos (x : ℚ) (h : 0 < x) : 0 < clampOffset x := by
  rw [clampOffset_eq]
  exact lt_max_of_lt_right (lt_min (by norm_num) h)

theorem clampOffset_neg (x : ℚ) (h : x < 0) : clampOffset x < 0 := by
  rw [clampOffset_eq]
  exact max_lt (by norm_num) (lt_of_le_of_lt (min_le_right _ _) h)

theorem clampOffset_zero : clampOffset 0 = 0 := by
  rw [clampOffset_eq]
  norm_num

/-- C6, as stated, fails. At the test configuration and slider 1 the pop-out sprite
layer (relative depth -15) gets a left-eye entry that is not negative and a right-eye
entry that is not positive (+15 and -15), and the into-screen BG0 (relative depth +12)
gets a left-eye entry that is not positive and a right-eye entry that is not negative
(-12 and +12); and with the depth strength 0 the sprite layer, still at relative depth
-15, gets the entries 0 and 0. -/
theorem sign_convention_counterexample :
    (testSettings.LayerDepth 4
        - planeDepthOf testSettings.LayerDepth testSettings.ScreenPlaneLayer < 0 ∧
      ¬ ((stereo3dsUpdateLayerOffsetsFromSlider testSettings.toSettings 1
          (StereoState.initial vramAllOk)).g_stereoLayerOffsets 0 4 < 0) ∧
      ¬ (0 < (stereo3dsUpdateLayerOffsetsFromSlider testSettings.toSettings 1
          (StereoState.initial vramAllOk)).g_stereoLayerOffsets 1 4)) ∧
    (0 < testSettings.LayerDepth 0
        - planeDepthOf testSettings.LayerDepth testSettings.ScreenPlaneLayer ∧
      ¬ (0 < (stereo3dsUpdateLayerOffsetsFromSlider testSettings.toSettings 1
          (StereoState.initial vramAllOk)).g_stereoLayerOffsets 0 0) ∧
      ¬ ((stereo3dsUpdateLayerOffsetsFromSlider testSettings.toSettings 1
          (StereoState.initial vramAllOk)).g_stereoLayerOffsets 1 0 < 0)) ∧
    (testSettingsZeroStrength.LayerDepth 4
        - planeDepthOf testSettingsZeroStrength.LayerDepth
            testSettingsZeroStrength.ScreenPlaneLayer < 0 ∧
      (stereo3dsUpdateLayerOffsetsFromSlider testSettingsZeroStrength.toSettings 1
          (StereoState.initial vramAllOk)).g_stereoLayerOffsets 0 4 = 0 ∧
      (stereo3dsUpdateLayerOffsetsFromSlider testSettingsZeroStrength.toSettings 1
          (StereoState.initial vramAllOk)).g_stereoLayerOffsets 1 4 = 0) := by
  obtain ⟨⟨r4, r0⟩, ⟨a, b, c, d⟩, _⟩ := updateLayerOffsets_sign_at_test_configuration
  have hs : (1 : ℚ) / 100 ≤ 1 := by norm_num
  refine ⟨⟨r4, ?_, ?_⟩, ⟨r0, ?_, ?_⟩, ⟨r4, ?_, ?_⟩⟩
  · rw [a]; norm_num
  · rw [b]; norm_num
  · rw [c]; norm_num
  · rw [d]; norm_num
  · rw [offsets_of_ge _ 1 hs]
    simp [layerOffset, testSettingsZeroStrength, MockSettings.toSettings, clampOffset_zero]
  · rw [offsets_of_ge _ 1 hs]
    simp [layerOffset, testSettingsZeroStrength, MockSettings.toSettings, clampOffset_zero]

/-- C6 (amended): the sign convention of the production function. For every
configuration with a positive depth strength and every slider value `s ≥ 0.01`, a layer
whose depth relative to the screen plane is negative (pop-out) gets a positive left-eye
entry and a negative right-eye entry, a layer whose relative depth is positive (into
the screen) gets a negative left-eye entry and a positive right-eye entry, and a layer
at the depth of the screen plane gets 0 on both eyes. -/
theorem updateLayerOffsets_sign_convention (settings3DS : S9xSettings3DS) (s : ℚ)
    (hs : 1 / 100 ≤ s) (hg : 0 < settings3DS.StereoDepthStrength) (st : StereoState)
    (i : Fin 5) :
    (settings3DS.LayerDepth i
        - planeDepthOf settings3DS.LayerDepth settings3DS.ScreenPlaneLayer < 0 →
      0 < (stereo3dsUpdateLayerOffsetsFromSlider settings3DS s st).g_stereoLayerOffsets 0 i ∧
      (stereo3dsUpdateLayerOffsetsFromSlider settings3DS s st).g_stereoLayerOffsets 1 i < 0) ∧
    (0 < settings3DS.LayerDepth i
        - planeDepthOf settings3DS.LayerDepth settings3DS.ScreenPlaneLayer →
      (stereo3dsUpdateLayerOffsetsFromSlider settings3DS s st).g_stereoLayerOffsets 0 i < 0 ∧
      0 < (stereo3dsUpdateLayerOffsetsFromSlider settings3DS s st).g_stereoLayerOffsets 1 i) ∧
    (settings3DS.LayerDepth i
        - planeDepthOf settings3DS.LayerDepth settings3DS.ScreenPlaneLayer = 0 →
      (stereo3dsUpdateLayerOffsetsFromSlider settings3DS s st).g_stereoLayerOffsets 0 i = 0 ∧
      (stereo3dsUpdateLayerOffsetsFromSlider settings3DS s st).g_stereoLayerOffsets 1 i = 0) := by
  have hspos : 0 < s := lt_of_lt_of_le (by norm_num) hs
  have h0 := offsets_of_ge settings3DS s hs st 0 i
  have h1 := offsets_of_ge settings3DS s hs st 1 i
  simp only [if_true] at h0
  have h10 : ¬ ((1 : Fin 2) = 0) := by decide
  simp only [h10, if_false] at h1
  rw [h0, h1]
  unfold layerOffset
  refine ⟨?_, ?_, ?_⟩
  · intro hd
    have hneg := clampOffset_neg _ (mul_neg_of_neg_of_pos (mul_neg_of_neg_of_pos hd hg) hspos)
    exact ⟨neg_pos.mpr hneg, hneg⟩
  · intro hd
    have hpos := clampOffset_pos _ (mul_pos (mul_pos hd hg) hspos)
    exact ⟨neg_neg_of_pos hpos, hpos⟩
  · intro hd
    simp only [hd, zero_mul, clampOffset_zero, neg_zero, and_self]

theorem updateLayerOffsets_sign_convention_witness :
    ((1 : ℚ) / 100 ≤ 1) ∧ 0 < testSettings.toSettings.StereoDepthStrength ∧
    testSettings.toSettings.LayerDepth 4
      - planeDepthOf testSettings.toSettings.LayerDepth
          testSettings.toSettings.ScreenPlaneLayer < 0 ∧
    (0 < (stereo3dsUpdateLayerOffsetsFromSlider testSettings.toSettings 1
        (StereoState.initial vramAllOk)).g_stereoLayerOffsets 0 4 ∧
      (stereo3dsUpdateLayerOffsetsFromSlider testSettings.toSettings 1
        (StereoState.initial vramAllOk)).g_stereoLayerOffsets 1 4 < 0) ∧
    0 < testSettings.toSettings.LayerDepth 0
      - planeDepthOf testSettings.toSettings.LayerDepth
          testSettings.toSettings.ScreenPlaneLayer ∧
    ((stereo3dsUpdateLayerOffsetsFromSlider testSettings.toSettings 1
        (StereoState.initial vramAllOk)).g_stereoLayerOffsets 0 0 < 0 ∧
      0 < (stereo3dsUpdateLayerOffsetsFromSlider testSettings.toSettings 1
        (StereoState.initial vramAllOk)).g_stereoLayerOffsets 1 0) := by
  have hs : (1 : ℚ) / 100 ≤ 1 := by norm_num
  have hg : 0 < testSettings.toSettings.StereoDepthStrength := by
    norm_num [MockSettings.toSettings, testSettings]
  have hd : testSettings.toSettings.LayerDepth 4
      - planeDepthOf testSettings.toSettings.LayerDepth
          testSettings.toSettings.ScreenPlaneLayer < 0 := by
    have hp : planeDepthOf testSettings.toSettings.LayerDepth
        testSettings.toSettings.ScreenPlaneLayer = 0 :=
      planeDepthOf_fin testSettings.LayerDepth 3
    rw [hp]
    norm_num [MockSettings.toSettings, testSettings, testLayerDepth]
  have hd0 : 0 < testSettings.toSettings.LayerDepth 0
      - planeDepthOf testSettings.toSettings.LayerDepth
          testSettings.toSettings.ScreenPlaneLayer := by
    have hp : planeDepthOf testSettings.toSettings.LayerDepth
        testSettings.toSettings.ScreenPlaneLayer = 0 :=
      planeDepthOf_fin testSettings.LayerDepth 3
    rw [hp]
    norm_num [MockSettings.toSettings, testSettings, testLayerDepth]
  exact ⟨hs, hg, hd,
    (updateLayerOffsets_sign_convention testSettings.toSettings 1 hs hg
      (StereoState.initial vramAllOk) 4).1 hd, hd0,
    (updateLayerOffsets_sign_convention testSettings.toSettings 1 hs hg
      (StereoState.initial vramAllOk) 0).2.1 hd0⟩

/-! ## Binary32 rounding and the scaling with the slider -/

theorem roundHalfEven_near (x : ℚ) : |(roundHalfEven x : ℚ) - x| ≤ 1 / 2 := by
  have h1 : ((⌊x⌋ : ℤ) : ℚ) ≤ x := Int.floor_le x
  have h2 : x < (⌊x⌋ : ℚ) + 1 := Int.lt_floor_add_one x
  unfold roundHalfEven
  rw [abs_le]
  split_ifs with a b c
  · constructor <;> linarith
  · push_cast
    constructor <;> linarith
  · constructor <;> linarith
  · push_cast
    constructor <;> linarith

/-- A rational within less than one half of an integer rounds to that integer. -/
theorem roundHalfEven_eq (x : ℚ) (n : ℤ) (h : |x - n| < 1 / 2) : roundHalfEven x = n := by
  rw [abs_lt] at h
  obtain ⟨h1, h2⟩ := h
  unfold roundHalfEven
  by_cases hx : (n : ℚ) ≤ x
  · have hf : ⌊x⌋ = n := by
      rw [Int.floor_eq_iff]
      constructor <;> linarith
    rw [hf, if_pos (by linarith)]
  · have hx2 : x < n := lt_of_not_ge hx
    have hf : ⌊x⌋ = n - 1 := by
      rw [Int.floor_eq_iff]
      push_cast
      constructor <;> linarith
    rw [hf]
    push_cast
    rw [if_neg (by linarith), if_pos (by linarith)]
    ring

theorem f32Ulp_eq (q : ℚ) (k : ℤ) (hk : -126 ≤ k) (h1 : (2 : ℚ) ^ k ≤ |q|)
    (h2 : |q| < (2 : ℚ) ^ (k + 1)) : f32Ulp q = k - 23 := by
  have hpos : 0 < |q| := lt_of_lt_of_le (by positivity) h1
  have hlog : Int.log 2 |q| = k := by
    apply le_antisymm
    · have := (Int.lt_zpow_iff_log_lt (b := 2) (by norm_num) hpos (x := k + 1)).mp
        (by exact_mod_cast h2)
      omega
    · exact (Int.zpow_le_iff_le_log (b := 2) (by norm_num) hpos).mp (by exact_mod_cast h1)
  unfold f32Ulp
  rw [hlog, max_eq_left hk]

/-- The binary32 rounding of a number in the normal range, from its binade and the
rounded significand. -/
theorem f32Round_eq (q : ℚ) (k n : ℤ) (hk : -126 ≤ k) (h1 : (2 : ℚ) ^ k ≤ |q|)
    (h2 : |q| < (2 : ℚ) ^ (k + 1)) (hn : |q / 2 ^ (k - 23) - n| < 1 / 2) :
    f32Round q = n * 2 ^ (k - 23) := by
  unfold f32Round
  rw [f32Ulp_eq q k hk h1 h2, roundHalfEven_eq _ n hn]

theorem f32Round_eq_pos (q : ℚ) (k n : ℤ) (hk : -126 ≤ k) (h1 : (2 : ℚ) ^ k ≤ q)
    (h2 : q < (2 : ℚ) ^ (k + 1)) (h3 : (n : ℚ) - 1 / 2 < q / 2 ^ (k - 23))
    (h4 : q / 2 ^ (k - 23) < (n : ℚ) + 1 / 2) :
    f32Round q = n * 2 ^ (k - 23) := by
  have hpos : 0 < q := lt_of_lt_of_le (by positivity) h1
  apply f32Round_eq q k n hk
  · rw [abs_of_pos hpos]; exact h1
  · rw [abs_of_pos hpos]; exact h2
  · rw [abs_lt]
    constructor <;> linarith

theorem f32Round_zero : f32Round 0 = 0 := by
  unfold f32Round roundHalfEven
  simp

/-- The relative error of a binary32 operation with a result in the normal range is at
most `2^-24`. -/
theorem f32Round_error (q : ℚ) (hq : (2 : ℚ) ^ (-126 : ℤ) ≤ |q|) :
    |f32Round q - q| ≤ 2 ^ (-24 : ℤ) * |q| := by
  have hpos : 0 < |q| := lt_of_lt_of_le (by positivity) hq
  have hL : (-126 : ℤ) ≤ Int.log 2 |q| :=
    (Int.zpow_le_iff_le_log (b := 2) (by norm_num) hpos).mp (by exact_mod_cast hq)
  have h1 : (2 : ℚ) ^ Int.log 2 |q| ≤ |q| := by
    have := Int.zpow_log_le_self (b := 2) (by norm_num) hpos
    exact_mod_cast this
  have hu : f32Ulp q = Int.log 2 |q| - 23 := by
    unfold f32Ulp
    rw [max_eq_left hL]
  have h2pos : (0 : ℚ) < 2 ^ f32Ulp q := by positivity
  have hr := roundHalfEven_near (q / 2 ^ f32Ulp q)
  have hsplit : f32Round q - q
      = ((roundHalfEven (q / 2 ^ f32Ulp q) : ℚ) - q / 2 ^ f32Ulp q) * 2 ^ f32Ulp q := by
    unfold f32Round
    field_simp
  rw [hsplit, abs_mul, abs_of_pos h2pos]
  have hpow : (2 : ℚ) ^ f32Ulp q = 2 ^ (-24 : ℤ) * 2 ^ Int.log 2 |q| * 2 := by
    rw [hu, ← zpow_add₀ (by norm_num : (2 : ℚ) ≠ 0)]
    have : (2 : ℚ) ^ (-24 + Int.log 2 |q|) * 2 = 2 ^ (-24 + Int.log 2 |q| + 1) := by
      rw [zpow_add_one₀ (by norm_num : (2 : ℚ) ≠ 0)]
    rw [this]
    congr 1
    ring
  calc |(roundHalfEven (q / 2 ^ f32Ulp q) : ℚ) - q / 2 ^ f32Ulp q| * 2 ^ f32Ulp q
      ≤ 1 / 2 * 2 ^ f32Ulp q := by
        exact mul_le_mul_of_nonneg_right hr (le_of_lt h2pos)
    _ = 2 ^ (-24 : ℤ) * 2 ^ Int.log 2 |q| := by rw [hpow]; ring
    _ ≤ 2 ^ (-24 : ℤ) * |q| := by
        exact mul_le_mul_of_nonneg_left h1 (by positivity)

theorem f32Round_hundredth : f32Round (1 / 100) = 10737418 / 1073741824 := by
  rw [f32Round_eq_pos (1 / 100) (-7) 10737418 (by norm_num) (by norm_num) (by norm_num)
    (by norm_num) (by norm_num)]
  norm_num

/-- The table written by the binary32 function when the slider is on. -/
theorem offsetsF32_of_ge (settings3DS : S9xSettings3DS) (s : ℚ) (hs : 1 / 100 ≤ s)
    (st : StereoState) (e : Fin 2) (j : Fin 5) :
    (stereo3dsUpdateLayerOffsetsFromSliderF32 settings3DS s st).g_stereoLayerOffsets e j
      = if e = 0
        then -layerOffsetF32 settings3DS.LayerDepth
          (planeDepthOf settings3DS.LayerDepth settings3DS.ScreenPlaneLayer)
          settings3DS.StereoDepthStrength s j
        else layerOffsetF32 settings3DS.LayerDepth
          (planeDepthOf settings3DS.LayerDepth settings3DS.ScreenPlaneLayer)
          settings3DS.StereoDepthStrength s j := by
  have hlt : ¬ s < f32Round (1 / 100) := by
    rw [f32Round_hundredth]
    have : (10737418 : ℚ) / 1073741824 ≤ 1 / 100 := by norm_num
    exact not_lt.mpr (le_trans this hs)
  unfold stereo3dsUpdateLayerOffsetsFromSliderF32
  simp only [hlt, if_false]
  exact foldl_set_pair _ _ _ e j

theorem clampOffset_of_abs_le (x : ℚ) (h : |x| ≤ 17) : clampOffset x = x := by
  have h2 := abs_le.mp h
  rw [clampOffset_eq, min_eq_right h2.2, max_eq_right h2.1]

theorem f32Round_error_or_zero (q : ℚ) (hq : q = 0 ∨ (2 : ℚ) ^ (-126 : ℤ) ≤ |q|) :
    |f32Round q - q| ≤ 2 ^ (-24 : ℤ) * |q| := by
  rcases hq with h | h
  · subst h
    rw [f32Round_zero]
    simp
  · exact f32Round_error q h

/-- C9 (amended): linear slider scaling up to rounding. In binary32 arithmetic, for two
slider values `s1, s2 ≥ 0.01` at which the raw offset computed for layer `i` is not
clamped and is zero or in the normal range, the entries computed at `s1` and at `s2`
satisfy `|offset_s1 * s2 - offset_s2 * s1| ≤ 2^-23 * |depth| * s1 * s2`, where `depth`
is the value the loop computes for the layer, on either eye and whatever the tables
held before; when both products `depth * s` are binary32 numbers themselves,
`offset_s1 * s2 = offset_s2 * s1`. -/
theorem updateLayerOffsetsF32_linear_up_to_rounding (settings3DS : S9xSettings3DS)
    (s1 s2 : ℚ) (hs1 : 1 / 100 ≤ s1) (hs2 : 1 / 100 ≤ s2) (st1 st2 : StereoState)
    (eye : Fin 2) (i : Fin 5)
    (hc1 : |f32Round (layerDepthF32 settings3DS.LayerDepth
        (planeDepthOf settings3DS.LayerDepth settings3DS.ScreenPlaneLayer)
        settings3DS.StereoDepthStrength i * s1)| ≤ 17)
    (hc2 : |f32Round (layerDepthF32 settings3DS.LayerDepth
        (planeDepthOf settings3DS.LayerDepth settings3DS.ScreenPlaneLayer)
        settings3DS.StereoDepthStrength i * s2)| ≤ 17)
    (hn1 : layerDepthF32 settings3DS.LayerDepth
        (planeDepthOf settings3DS.LayerDepth settings3DS.ScreenPlaneLayer)
        settings3DS.StereoDepthStrength i * s1 = 0 ∨
      (2 : ℚ) ^ (-126 : ℤ) ≤ |layerDepthF32 settings3DS.LayerDepth
        (planeDepthOf settings3DS.LayerDepth settings3DS.ScreenPlaneLayer)
        settings3DS.StereoDepthStrength i * s1|)
    (hn2 : layerDepthF32 settings3DS.LayerDepth
        (planeDepthOf settings3DS.LayerDepth settings3DS.ScreenPlaneLayer)
        settings3DS.StereoDepthStrength i * s2 = 0 ∨
      (2 : ℚ) ^ (-126 : ℤ) ≤ |layerDepthF32 settings3DS.LayerDepth
        (planeDepthOf settings3DS.LayerDepth settings3DS.ScreenPlaneLayer)
        settings3DS.StereoDepthStrength i * s2|) :
    |(stereo3dsUpdateLayerOffsetsFromSliderF32 settings3DS s1 st1).g_stereoLayerOffsets eye i
          * s2
        - (stereo3dsUpdateLayerOffsetsFromSliderF32 settings3DS s2 st2).g_stereoLayerOffsets
            eye i * s1|
      ≤ 2 ^ (-23 : ℤ)
        * |layerDepthF32 settings3DS.LayerDepth
            (planeDepthOf settings3DS.LayerDepth settings3DS.ScreenPlaneLayer)
            settings3DS.StereoDepthStrength i| * s1 * s2 ∧
    (f32Round (layerDepthF32 settings3DS.LayerDepth
          (planeDepthOf settings3DS.LayerDepth settings3DS.ScreenPlaneLayer)
          settings3DS.StereoDepthStrength i * s1)
        = layerDepthF32 settings3DS.LayerDepth
          (planeDepthOf settings3DS.LayerDepth settings3DS.ScreenPlaneLayer)
          settings3DS.StereoDepthStrength i * s1 →
      f32Round (layerDepthF32 settings3DS.LayerDepth
          (planeDepthOf settings3DS.LayerDepth settings3DS.ScreenPlaneLayer)
          settings3DS.StereoDepthStrength i * s2)
        = layerDepthF32 settings3DS.LayerDepth
          (planeDepthOf settings3DS.LayerDepth settings3DS.ScreenPlaneLayer)
          settings3DS.StereoDepthStrength i * s2 →
      (stereo3dsUpdateLayerOffsetsFromSliderF32 settings3DS s1 st1).g_stereoLayerOffsets
          eye i * s2
        = (stereo3dsUpdateLayerOffsetsFromSliderF32 settings3DS s2 st2).g_stereoLayerOffsets
          eye i * s1) := by
  generalize hD : layerDepthF32 settings3DS.LayerDepth
      (planeDepthOf settings3DS.LayerDepth settings3DS.ScreenPlaneLayer)
      settings3DS.StereoDepthStrength i = D at hc1 hc2 hn1 hn2 ⊢
  have hp1 : 0 < s1 := lt_of_lt_of_le (by norm_num) hs1
  have hp2 : 0 < s2 := lt_of_lt_of_le (by norm_num) hs2
  have ho1 : layerOffsetF32 settings3DS.LayerDepth
      (planeDepthOf settings3DS.LayerDepth settings3DS.ScreenPlaneLayer)
      settings3DS.StereoDepthStrength s1 i = f32Round (D * s1) := by
    unfold layerOffsetF32
    simp only [hD]
    exact clampOffset_of_abs_le _ hc1
  have ho2 : layerOffsetF32 settings3DS.LayerDepth
      (planeDepthOf settings3DS.LayerDepth settings3DS.ScreenPlaneLayer)
      settings3DS.StereoDepthStrength s2 i = f32Round (D * s2) := by
    unfold layerOffsetF32
    simp only [hD]
    exact clampOffset_of_abs_le _ hc2
  have e1 := abs_le.mp (f32Round_error_or_zero (D * s1) hn1)
  have e2 := abs_le.mp (f32Round_error_or_zero (D * s2) hn2)
  rw [abs_mul, abs_of_pos hp1] at e1
  rw [abs_mul, abs_of_pos hp2] at e2
  have hkey : |f32Round (D * s1) * s2 - f32Round (D * s2) * s1|
      ≤ 2 ^ (-23 : ℤ) * |D| * s1 * s2 := by
    have h23 : (2 : ℚ) ^ (-23 : ℤ) = 2 * 2 ^ (-24 : ℤ) := by norm_num
    have hsplit : f32Round (D * s1) * s2 - f32Round (D * s2) * s1
        = (f32Round (D * s1) - D * s1) * s2 - (f32Round (D * s2) - D * s2) * s1 := by ring
    rw [hsplit, h23, abs_le]
    have a1 := mul_le_mul_of_nonneg_right e1.1 (le_of_lt hp2)
    have a2 := mul_le_mul_of_nonneg_right e1.2 (le_of_lt hp2)
    have b1 := mul_le_mul_of_nonneg_right e2.1 (le_of_lt hp1)
    have b2 := mul_le_mul_of_nonneg_right e2.2 (le_of_lt hp1)
    constructor <;> nlinarith
  rw [offsetsF32_of_ge settings3DS s1 hs1, offsetsF32_of_ge settings3DS s2 hs2, ho1, ho2]
  constructor
  · split_ifs
    · have : -f32Round (D * s1) * s2 - -f32Round (D * s2) * s1
          = -(f32Round (D * s1) * s2 - f32Round (D * s2) * s1) := by ring
      rw [this, abs_neg]
      exact hkey
    · exact hkey
  · intro x1 x2
    rw [x1, x2]
    split_ifs <;> ring

theorem testDepthF32 :
    layerDepthF32 testSettings.toSettings.LayerDepth
      (planeDepthOf testSettings.toSettings.LayerDepth
        testSettings.toSettings.ScreenPlaneLayer)
      testSettings.toSettings.StereoDepthStrength 0 = 12 := by
  have hp : planeDepthOf testSettings.toSettings.LayerDepth
      testSettings.toSettings.ScreenPlaneLayer = 0 :=
    planeDepthOf_fin testSettings.LayerDepth 3
  have h12 : f32Round 12 = 12 := by
    rw [f32Round_eq_pos 12 3 12582912 (by norm_num) (by norm_num) (by norm_num)
      (by norm_num) (by norm_num)]
    norm_num
  unfold layerDepthF32
  rw [hp]
  simp only [MockSettings.toSettings, testSettings, testLayerDepth, sub_zero, mul_one]
  rw [h12, h12]

theorem f32Round_tenths :
    f32Round (3 / 10) = sliderThreeTenths ∧ f32Round (7 / 10) = sliderSevenTenths ∧
    f32Round sliderThreeTenths = sliderThreeTenths ∧
    f32Round sliderSevenTenths = sliderSevenTenths := by
  unfold sliderThreeTenths sliderSevenTenths
  refine ⟨?_, ?_, ?_, ?_⟩
  · rw [f32Round_eq_pos (3 / 10) (-2) 10066330 (by norm_num) (by norm_num) (by norm_num)
      (by norm_num) (by norm_num)]
    norm_num
  · rw [f32Round_eq_pos (7 / 10) (-1) 11744051 (by norm_num) (by norm_num) (by norm_num)
      (by norm_num) (by norm_num)]
    norm_num
  · rw [f32Round_eq_pos (10066330 / 33554432) (-2) 10066330 (by norm_num) (by norm_num)
      (by norm_num) (by norm_num) (by norm_num)]
    norm_num
  · rw [f32Round_eq_pos (11744051 / 16777216) (-1) 11744051 (by norm_num) (by norm_num)
      (by norm_num) (by norm_num) (by norm_num)]
    norm_num

theorem f32Round_test_products :
    f32Round (12 * sliderThreeTenths) = 15099495 / 4194304 ∧
    f32Round (12 * sliderSevenTenths) = 8808038 / 1048576 := by
  unfold sliderThreeTenths sliderSevenTenths
  constructor
  · rw [f32Round_eq_pos (12 * (10066330 / 33554432)) 1 15099495 (by norm_num)
      (by norm_num) (by norm_num) (by norm_num) (by norm_num)]
    norm_num
  · rw [f32Round_eq_pos (12 * (11744051 / 16777216)) 3 8808038 (by norm_num)
      (by norm_num) (by norm_num) (by norm_num) (by norm_num)]
    norm_num

/-- C9, as stated, fails in the arithmetic of the program. At the test configuration,
layer 0 (BG0, `depth` 12), the sliders `0.3f` and `0.7f` are at least 0.01 and leave the
raw offset within the clamp; the right-eye entries computed in binary32 are
`15099495 / 2^22` (3.6000001...) and `8808038 / 2^20` (8.3999996...), and
`offset_s1 * s2` differs from `offset_s2 * s1`, on both eyes. -/
theorem linear_scaling_counterexample :
    (f32Round (3 / 10) = sliderThreeTenths ∧ f32Round (7 / 10) = sliderSevenTenths) ∧
    (1 / 100 ≤ sliderThreeTenths ∧ 1 / 100 ≤ sliderSevenTenths) ∧
    (|(testSettings.toSettings.LayerDepth 0
          - planeDepthOf testSettings.toSettings.LayerDepth
              testSettings.toSettings.ScreenPlaneLayer)
        * testSettings.toSettings.StereoDepthStrength * sliderThreeTenths| ≤ 17 ∧
      |(testSettings.toSettings.LayerDepth 0
          - planeDepthOf testSettings.toSettings.LayerDepth
              testSettings.toSettings.ScreenPlaneLayer)
        * testSettings.toSettings.StereoDepthStrength * sliderSevenTenths| ≤ 17) ∧
    ((stereo3dsUpdateLayerOffsetsFromSliderF32 testSettings.toSettings sliderThreeTenths
        (StereoState.initial vramAllOk)).g_stereoLayerOffsets 1 0 = 15099495 / 4194304 ∧
      (stereo3dsUpdateLayerOffsetsFromSliderF32 testSettings.toSettings sliderSevenTenths
        (StereoState.initial vramAllOk)).g_stereoLayerOffsets 1 0 = 8808038 / 1048576) ∧
    (∀ eye : Fin 2,
      (stereo3dsUpdateLayerOffsetsFromSliderF32 testSettings.toSettings sliderThreeTenths
          (StereoState.initial vramAllOk)).g_stereoLayerOffsets eye 0 * sliderSevenTenths
        ≠ (stereo3dsUpdateLayerOffsetsFromSliderF32 testSettings.toSettings
            sliderSevenTenths (StereoState.initial vramAllOk)).g_stereoLayerOffsets eye 0
          * sliderThreeTenths) := by
  have hp : planeDepthOf testSettings.toSettings.LayerDepth
      testSettings.toSettings.ScreenPlaneLayer = 0 :=
    planeDepthOf_fin testSettings.LayerDepth 3
  have hs1 : (1 : ℚ) / 100 ≤ sliderThreeTenths := by
    unfold sliderThreeTenths; norm_num
  have hs2 : (1 : ℚ) / 100 ≤ sliderSevenTenths := by
    unfold sliderSevenTenths; norm_num
  have ho1 : layerOffsetF32 testSettings.toSettings.LayerDepth
      (planeDepthOf testSettings.toSettings.LayerDepth
        testSettings.toSettings.ScreenPlaneLayer)
      testSettings.toSettings.StereoDepthStrength sliderThreeTenths 0
        = 15099495 / 4194304 := by
    unfold layerOffsetF32
    simp only [testDepthF32, f32Round_test_products.1]
    exact clampOffset_of_abs_le _ (by rw [abs_le]; constructor <;> norm_num)
  have ho2 : layerOffsetF32 testSettings.toSettings.LayerDepth
      (planeDepthOf testSettings.toSettings.LayerDepth
        testSettings.toSettings.ScreenPlaneLayer)
      testSettings.toSettings.StereoDepthStrength sliderSevenTenths 0
        = 8808038 / 1048576 := by
    unfold layerOffsetF32
    simp only [testDepthF32, f32Round_test_products.2]
    exact clampOffset_of_abs_le _ (by rw [abs_le]; constructor <;> norm_num)
  have hv : ∀ eye : Fin 2,
      (stereo3dsUpdateLayerOffsetsFromSliderF32 testSettings.toSettings sliderThreeTenths
          (StereoState.initial vramAllOk)).g_stereoLayerOffsets eye 0
        = (if eye = 0 then -(15099495 / 4194304) else 15099495 / 4194304) ∧
      (stereo3dsUpdateLayerOffsetsFromSliderF32 testSettings.toSettings sliderSevenTenths
          (StereoState.initial vramAllOk)).g_stereoLayerOffsets eye 0
        = (if eye = 0 then -(8808038 / 1048576) else 8808038 / 1048576) := by
    intro eye
    rw [offsetsF32_of_ge _ _ hs1, offsetsF32_of_ge _ _ hs2, ho1, ho2]
    exact ⟨rfl, rfl⟩
  refine ⟨⟨f32Round_tenths.1, f32Round_tenths.2.1⟩, ⟨hs1, hs2⟩, ⟨?_, ?_⟩, ⟨?_, ?_⟩, ?_⟩
  · rw [hp, abs_le]
    constructor <;>
      norm_num [MockSettings.toSettings, testSettings, testLayerDepth, sliderThreeTenths]
  · rw [hp, abs_le]
    constructor <;>
      norm_num [MockSettings.toSettings, testSettings, testLayerDepth, sliderSevenTenths]
  · rw [(hv 1).1]
    rfl
  · rw [(hv 1).2]
    rfl
  · intro eye
    rw [(hv eye).1, (hv eye).2]
    unfold sliderThreeTenths sliderSevenTenths
    fin_cases eye <;> norm_num

theorem f32Round_six_twelve : f32Round 6 = 6 ∧ f32Round 12 = 12 := by
  constructor
  · rw [f32Round_eq_pos 6 2 12582912 (by norm_num) (by norm_num) (by norm_num)
      (by norm_num) (by norm_num)]
    norm_num
  · rw [f32Round_eq_pos 12 3 12582912 (by norm_num) (by norm_num) (by norm_num)
      (by norm_num) (by norm_num)]
    norm_num

/-- The test of C9: in the test configuration the sliders 0.5 and 1.0 give products
that are binary32 numbers, so the entries of BG0 scale exactly; their magnitudes are 6
and 12, on both eyes. -/
theorem updateLayerOffsetsF32_linear_up_to_rounding_witness :
    ((1 : ℚ) / 100 ≤ 1 / 2) ∧ ((1 : ℚ) / 100 ≤ 1) ∧
    ∀ eye : Fin 2,
      (stereo3dsUpdateLayerOffsetsFromSliderF32 testSettings.toSettings (1 / 2)
          (StereoState.initial vramAllOk)).g_stereoLayerOffsets eye 0 * 1
        = (stereo3dsUpdateLayerOffsetsFromSliderF32 testSettings.toSettings 1
          (StereoState.initial vramAllOk)).g_stereoLayerOffsets eye 0 * (1 / 2) ∧
      |(stereo3dsUpdateLayerOffsetsFromSliderF32 testSettings.toSettings (1 / 2)
          (StereoState.initial vramAllOk)).g_stereoLayerOffsets eye 0| = 6 ∧
      |(stereo3dsUpdateLayerOffsetsFromSliderF32 testSettings.toSettings 1
          (StereoState.initial vramAllOk)).g_stereoLayerOffsets eye 0| = 12 := by
  have hs1 : (1 : ℚ) / 100 ≤ 1 / 2 := by norm_num
  have hs2 : (1 : ℚ) / 100 ≤ 1 := by norm_num
  have h6 : f32Round (layerDepthF32 testSettings.toSettings.LayerDepth
      (planeDepthOf testSettings.toSettings.LayerDepth
        testSettings.toSettings.ScreenPlaneLayer)
      testSettings.toSettings.StereoDepthStrength 0 * (1 / 2))
      = layerDepthF32 testSettings.toSettings.LayerDepth
        (planeDepthOf testSettings.toSettings.LayerDepth
          testSettings.toSettings.ScreenPlaneLayer)
        testSettings.toSettings.StereoDepthStrength 0 * (1 / 2) := by
    rw [testDepthF32]
    have : (12 : ℚ) * (1 / 2) = 6 := by norm_num
    rw [this]
    exact f32Round_six_twelve.1
  have h12 : f32Round (layerDepthF32 testSettings.toSettings.LayerDepth
      (planeDepthOf testSettings.toSettings.LayerDepth
        testSettings.toSettings.ScreenPlaneLayer)
      testSettings.toSettings.StereoDepthStrength 0 * 1)
      = layerDepthF32 testSettings.toSettings.LayerDepth
        (planeDepthOf testSettings.toSettings.LayerDepth
          testSettings.toSettings.ScreenPlaneLayer)
        testSettings.toSettings.StereoDepthStrength 0 * 1 := by
    rw [testDepthF32, mul_one]
    exact f32Round_six_twelve.2
  have ho1 : layerOffsetF32 testSettings.toSettings.LayerDepth
      (planeDepthOf testSettings.toSettings.LayerDepth
        testSettings.toSettings.ScreenPlaneLayer)
      testSettings.toSettings.StereoDepthStrength (1 / 2) 0 = 6 := by
    unfold layerOffsetF32
    simp only [testDepthF32]
    have : (12 : ℚ) * (1 / 2) = 6 := by norm_num
    rw [this, f32Round_six_twelve.1]
    exact clampOffset_of_abs_le 6 (by rw [abs_le]; constructor <;> norm_num)
  have ho2 : layerOffsetF32 testSettings.toSettings.LayerDepth
      (planeDepthOf testSettings.toSettings.LayerDepth
        testSettings.toSettings.ScreenPlaneLayer)
      testSettings.toSettings.StereoDepthStrength 1 0 = 12 := by
    unfold layerOffsetF32
    simp only [testDepthF32, mul_one]
    rw [f32Round_six_twelve.2]
    exact clampOffset_of_abs_le 12 (by rw [abs_le]; constructor <;> norm_num)
  refine ⟨hs1, hs2, fun eye => ⟨?_, ?_, ?_⟩⟩
  rotate_left
  · rw [offsetsF32_of_ge _ _ hs1, ho1]
    split_ifs <;> norm_num [abs_of_pos]
  · rw [offsetsF32_of_ge _ _ hs2, ho2]
    split_ifs <;> norm_num [abs_of_pos]
  refine (updateLayerOffsetsF32_linear_up_to_rounding testSettings.toSettings (1 / 2) 1
    hs1 hs2 (StereoState.initial vramAllOk) (StereoState.initial vramAllOk) eye 0
    ?_ ?_ ?_ ?_).2 h6 h12
  · rw [h6, testDepthF32, abs_le]
    constructor <;> norm_num
  · rw [h12, testDepthF32, abs_le]
    constructor <;> norm_num
  · right
    rw [testDepthF32]
    have : |(12 : ℚ) * (1 / 2)| = 6 := by norm_num [abs_of_pos]
    rw [this]
    norm_num
  · right
    rw [testDepthF32]
    have : |(12 : ℚ) * 1| = 12 := by norm_num [abs_of_pos]
    rw [this]
    norm_num

end SNES9x3DS
